import Mathlib

/-!
# OpenSolder firmware: temperature engine and supervisory state machine

A shallow embedding of `Core/Src/temperature.c` and of the state machine of
`Core/Src/opensolder.c`.

* The file-scope variables of both translation units, the two function-local
  statics of `state_machine` and the static `delay_flag` of `timer_interrupt`
  are the fields of one record, `State`.  Every C function becomes a function
  `State → State` (with the return value in front when there is one).
* Machine integers are natural numbers; every store into a `uintN_t` variable
  is wrapped with `u8`, `u16` or `u32`, every conversion to `int16_t` goes
  through `toInt16`.  `int` is 32 bits wide on the target (Cortex-M0).
* Hardware side effects (GPIO writes, timer start/stop, ADC start, display and
  scan calls) are appended, in program order, to the log `State.hw`; the level
  of the heater pin and the run state of the two timers are also kept as fields.
* `HAL_GetTick()` is an input of the function that reads it (`now`).
* Every function runs to completion: an interrupt handler is one atomic step.
* `Core/Src/button.c` and `Core/Src/encoder.c` are embedded over the records
  `Button` and `Encoder`; the pin level a scan reads is an argument, the timer
  registers the encoder reads are fields.  The objects `read_mmi` and
  `sensor_scan` work on are the record `Mmi`.  A signed `int` result that does
  not fit is taken modulo 2^32 (`int32`).
-/

namespace OpenSolder

/-! ## Constants -/

/-- Modelled from the spec: the HAL header that declares `FlagStatus` is not among
the sources; `RESET` is the cleared flag value `0`. -/
abbrev RESET : Nat := 0
/-- Modelled from the spec: the HAL header that declares `FlagStatus` is not among
the sources; `SET` is the raised flag value `!RESET = 1`. -/
abbrev SET : Nat := 1

/-- Modelled from the spec: `main.h` (pin assignment) is not among the sources; the
zero-cross input is one fixed pin mask, here bit 0. -/
abbrev ZERO_CROSS_Pin : Nat := 1

-- enum opensolder_constants (opensolder.h)
abbrev TIP_CHECK_INTERVAL : Nat := 50
abbrev TIP_CHANGE_DELAY_MS : Nat := 3000
abbrev DEFAULT_TEMP : Nat := 300
abbrev MAX_TEMP : Nat := 400
abbrev MIN_TEMP : Nat := 30
abbrev TEMP_STEPS : Nat := 5
abbrev MAX_ON_PERIODS : Nat := 4
abbrev STANDBY_TEMP : Nat := 50
abbrev STANDBY_TIME_S : Nat := 30
abbrev STANDBY_DELAY_MS : Nat := 500
abbrev ADC_BUFFER_LENGTH : Nat := 50
abbrev ADC_MAX_DEVIATION : Nat := 200
abbrev ADC_NO_TIP_MIN_VALUE : Nat := 4000
abbrev ADC_TIP_MAX_VALUE : Nat := 3800
abbrev AC_DETECTION_INTERVAL_MS : Nat := 12

-- enum opensolder_messages (opensolder.h)
abbrev OFF : Nat := 0
abbrev ON : Nat := 1
abbrev WAIT : Nat := 2
abbrev TIP_DETECTED : Nat := 3
abbrev TIP_NOT_DETECTED : Nat := 4
abbrev TIP_CHECK_ERROR : Nat := 5
abbrev AC_NOT_DETECTED : Nat := 6
abbrev OVERHEATING : Nat := 7
abbrev ADC_READING_ERROR : Nat := 999

-- enum my_states (opensolder.h)
abbrev INIT_STATE : Nat := 0
abbrev TIP_CHANGE_STATE : Nat := 1
abbrev OFF_STATE : Nat := 2
abbrev ON_STATE : Nat := 3
abbrev STANDBY_STATE : Nat := 4
abbrev ERROR_STATE : Nat := 5

/-! ## Machine integers -/

/-- Store into a `uint8_t`. -/
def u8 (x : Nat) : Nat := x % 256
/-- Store into a `uint16_t`. -/
def u16 (x : Nat) : Nat := x % 65536
/-- Store into a `uint32_t` (also: the result of 32-bit unsigned arithmetic). -/
def u32 (x : Nat) : Nat := x % 4294967296
/-- Conversion of an unsigned value to `int16_t` (two's complement, modulo 2^16). -/
def toInt16 (x : Nat) : Int :=
  if x % 65536 < 32768 then ((x % 65536 : Nat) : Int) else ((x % 65536 : Nat) : Int) - 65536

/-! ## Hardware log and state -/

/-- The hardware and collaborator calls the two translation units make. -/
inductive HwOp where
  | tim6_start            -- HAL_TIM_Base_Start_IT(&htim6)
  | tim6_stop             -- HAL_TIM_Base_Stop_IT(&htim6)
  | tim7_start            -- HAL_TIM_Base_Start_IT(&htim7)
  | tim7_stop             -- HAL_TIM_Base_Stop_IT(&htim7)
  | heater_write (level : Nat) -- HAL_GPIO_WritePin(HEATER_GPIO_Port, HEATER_Pin, level)
  | clamp_low             -- PA2 low, push-pull output (sense line clamped)
  | clamp_release         -- PA2 input mode (high impedance)
  | tip_check_high        -- PA1 high, push-pull output
  | tip_check_release     -- PA1 input mode
  | adc_start             -- HAL_ADC_Start_DMA
  | sensor_scan           -- sensor_scan()
  | display_message (code : Nat)
  | draw_default_display
  | update_display
deriving DecidableEq, Repr

/-- The timer handle handed to `timer_interrupt`. -/
inductive Timer where
  | htim6
  | htim7
  | other
deriving DecidableEq, Repr

/-- All mutable variables of `temperature.c` and `opensolder.c` that the control
logic reads or writes, plus the hardware log. -/
structure State where
  -- temperature.c, file scope
  adc_buffer : List Nat
  adc_buffer_average : Nat
  set_temp : Nat
  tip_temp : Nat
  on_periods : Nat
  power_bar_value : Nat
  heater_power_history : Nat
  error_flag : Nat
  ac_delay_tick_ms : Nat
  tip_state : Nat
  tip_check_flag : Nat
  tip_check_counter : Nat
  -- timer_interrupt, function-local static
  delay_flag : Nat
  -- opensolder.c, file scope
  system_state : Nat
  tool_holder_state : Nat
  tip_change_state : Nat
  -- state_machine, function-local statics
  standby_timeout_tick_ms : Nat
  tip_insert_delay_tick_ms : Nat
  -- hardware
  heater_pin : Nat
  tim6_running : Bool
  tim7_running : Bool
  hw : List HwOp
deriving DecidableEq, Repr

/-- The initial values of all variables (C static initialisers; `system_state` as
left by `opensolder_init`), an all-zero sample buffer and an empty log. -/
def init : State where
  adc_buffer := List.replicate ADC_BUFFER_LENGTH 0
  adc_buffer_average := 0
  set_temp := DEFAULT_TEMP
  tip_temp := 0
  on_periods := 0
  power_bar_value := 0
  heater_power_history := 0
  error_flag := RESET
  ac_delay_tick_ms := 0
  tip_state := TIP_NOT_DETECTED
  tip_check_flag := RESET
  tip_check_counter := 0
  delay_flag := SET
  system_state := INIT_STATE
  tool_holder_state := 0
  tip_change_state := 0
  standby_timeout_tick_ms := 0
  tip_insert_delay_tick_ms := 0
  heater_pin := OFF
  tim6_running := false
  tim7_running := false
  hw := []

/-- Append one hardware call to the log. -/
def emit (op : HwOp) (s : State) : State := { s with hw := s.hw ++ [op] }

/-- `HAL_GPIO_WritePin(HEATER_GPIO_Port, HEATER_Pin, level)`. -/
def heater_write (level : Nat) (s : State) : State :=
  emit (HwOp.heater_write level) { s with heater_pin := level }

/-! ## temperature.c: accessors and small functions -/

def get_ac_delay_tick (s : State) : Nat := s.ac_delay_tick_ms

def heater_off (s : State) : State := { s with on_periods := 0 }

def set_new_temp (new_temp : Nat) (s : State) : State := { s with set_temp := u16 new_temp }

def get_set_temp (s : State) : Nat := s.set_temp

def get_tip_temp (s : State) : Nat := s.tip_temp

/-- Returns `uint8_t`; `tip_state` is a `uint16_t`. -/
def get_tip_state (s : State) : Nat := u8 s.tip_state

def get_power_bar_value (s : State) : Nat := s.power_bar_value

def get_system_state (s : State) : Nat := s.system_state

def error_handler (s : State) : State :=
  let s := heater_write OFF s
  let s := heater_off s
  let s := { s with tip_state := TIP_CHECK_ERROR }
  { s with error_flag := RESET }

/-! ## temperature.c: acquisition -/

/-- The element `adc_buffer[i]`. -/
def sample (s : State) (i : Nat) : Nat := s.adc_buffer.getD i 0

/-- The loop `for (i = 0; i < ADC_BUFFER_LENGTH; i++) adc_buffer_average += adc_buffer[i]`
followed by the division, all in `uint32_t`. -/
def adc_calculate_buffer_average (s : State) : State :=
  let s := { s with adc_buffer_average := 0 }
  let s := (List.range ADC_BUFFER_LENGTH).foldl
    (fun st i => { st with adc_buffer_average := u32 (st.adc_buffer_average + sample st i) }) s
  { s with adc_buffer_average := u32 (s.adc_buffer_average / ADC_BUFFER_LENGTH) }

/-- The assignment `tip_temp = (adc_buffer_average * 100 / 750) + 25`: 32-bit unsigned
arithmetic, stored into a `uint16_t`. -/
def adc_to_temperature (s : State) : State :=
  { s with tip_temp := u16 (u32 (u32 (s.adc_buffer_average * 100) / 750 + 25)) }

/-- The two limits are `int16_t`; the sums are computed in `uint32_t` (so the lower one
wraps below zero) and then converted.  In the comparisons both sides are promoted to
`int`. -/
def adc_deviation_check (s : State) : State :=
  let upper_limit : Int := toInt16 (u32 (s.adc_buffer_average + ADC_MAX_DEVIATION))
  let lower_limit : Int := toInt16 (u32 (s.adc_buffer_average + 4294967296 - ADC_MAX_DEVIATION))
  (List.range ADC_BUFFER_LENGTH).foldl
    (fun st i =>
      if ((sample st i : Nat) : Int) > upper_limit ∨ ((sample st i : Nat) : Int) < lower_limit then
        { st with error_flag := SET }
      else st) s

/-- Lines 219-230 of `power_control`: the on-count for an effective target
`tmp_set_temp` and a tip temperature.  `tip_temp + 3` is computed in `int`,
`temperature_error` is a `uint16_t`, and the quotient is stored into the `uint8_t`
`on_periods` before it is clamped. -/
def power_law (tmp_set_temp tip_temp : Nat) (s : State) : State :=
  if tip_temp + 3 < tmp_set_temp then
    let temperature_error := u16 (tmp_set_temp - tip_temp)
    let s := { s with on_periods := u8 (temperature_error / 10) }
    if s.on_periods > MAX_ON_PERIODS then
      { s with on_periods := MAX_ON_PERIODS }
    else if s.on_periods = 0 then
      { s with on_periods := 1 }
    else s
  else
    heater_off s

/-- Lines 214-217 of `power_control`: the value of the local `tmp_set_temp` when the
control law is evaluated. -/
def tmp_set_temp (s : State) : Nat :=
  let tmp_set_temp := s.set_temp
  if get_system_state s = STANDBY_STATE ∧ tmp_set_temp > STANDBY_TEMP then STANDBY_TEMP
  else tmp_set_temp

def power_control (s : State) : State :=
  power_law (tmp_set_temp s) s.tip_temp s

/-- Returns the classification (a `uint8_t`) together with the new state. -/
def tip_check (s : State) : Nat × State :=
  let r : Nat × State :=
    if s.tip_check_flag ≠ WAIT then
      (TIP_CHECK_ERROR, error_handler s)
    else if s.adc_buffer_average > ADC_NO_TIP_MIN_VALUE then
      (TIP_NOT_DETECTED, s)
    else if s.adc_buffer_average < ADC_TIP_MAX_VALUE then
      (TIP_DETECTED, s)
    else
      (TIP_CHECK_ERROR, s)
  (r.1, { r.2 with tip_check_flag := RESET })

def adc_complete (s : State) : State :=
  let s := adc_calculate_buffer_average s
  let s :=
    if s.tip_check_flag = SET then
      let s := { s with tip_check_flag := WAIT }
      let s := emit HwOp.tip_check_release s
      let r := tip_check s
      { r.2 with tip_state := r.1 }
    else if s.tip_check_flag = RESET ∧ s.tip_state = TIP_DETECTED then
      let s := adc_to_temperature s
      let s := adc_deviation_check s
      if s.error_flag = SET then
        error_handler { s with tip_temp := ADC_READING_ERROR }
      else if get_system_state s = ON_STATE ∨ get_system_state s = STANDBY_STATE then
        power_control s
      else s
    else s
  { s with power_bar_value := s.on_periods }

def start_adc (s : State) : State := emit HwOp.adc_start s

/-! ## temperature.c: interrupt handlers -/

def zerocross_interrupt (now GPIO_Pin : Nat) (s : State) : State :=
  if GPIO_Pin = ZERO_CROSS_Pin then
    let s := emit HwOp.tim6_start { s with tim6_running := true }
    { s with ac_delay_tick_ms := u32 (now + AC_DETECTION_INTERVAL_MS) }
  else s

def timer_interrupt (htim : Timer) (s : State) : State :=
  match htim with
  | Timer.htim6 =>
    let s := emit HwOp.tim6_stop { s with tim6_running := false }
    let s := { s with heater_power_history := u32 (s.heater_power_history * 2) }
    let s := { s with tip_check_counter := u16 (s.tip_check_counter + 1) }
    let s :=
      if s.on_periods ≥ 1 ∧ s.tip_temp < MAX_TEMP then
        let s := emit HwOp.clamp_low s
        let s := heater_write ON s
        let s := { s with on_periods := u8 (s.on_periods + 256 - 1) }
        { s with heater_power_history := u32 (s.heater_power_history + 1) }
      else
        let s := heater_write OFF s
        emit HwOp.tim7_start { s with tim7_running := true }
    emit HwOp.sensor_scan s
  | Timer.htim7 =>
    if s.delay_flag ≠ 0 then
      let s := { s with delay_flag := RESET }
      let s := emit HwOp.clamp_release s
      if s.tip_check_counter > TIP_CHECK_INTERVAL then
        let s := heater_off s
        let s := { s with tip_check_flag := SET }
        let s := emit HwOp.tip_check_high s
        { s with tip_check_counter := 0 }
      else s
    else
      let s := { s with delay_flag := SET }
      let s := emit HwOp.tim7_stop { s with tim7_running := false }
      start_adc s
  | Timer.other => s

/-! ## opensolder.c: state machine -/

/-- The body of `display_message` only formats and draws; it is one log entry. -/
def display_message (message_code : Nat) (s : State) : State :=
  emit (HwOp.display_message (u16 message_code)) s

def draw_default_display (s : State) : State := emit HwOp.draw_default_display s

def update_display (s : State) : State := emit HwOp.update_display s

/-- One call of `state_machine`; `now` is the value of `HAL_GetTick()` during the call. -/
def state_machine (now : Nat) (s : State) : State :=
  let tool_tip_state := get_tip_state s
  if now > get_ac_delay_tick s then
    let s := error_handler s
    let s := display_message AC_NOT_DETECTED s
    { s with system_state := ERROR_STATE }
  else if s.system_state = INIT_STATE then
    let s := heater_off s
    let s := draw_default_display s
    { s with system_state := TIP_CHANGE_STATE }
  else if s.system_state = TIP_CHANGE_STATE then
    let s := heater_off s
    let s :=
      if tool_tip_state ≠ TIP_DETECTED then
        let s := { s with tip_insert_delay_tick_ms := u32 (now + TIP_CHANGE_DELAY_MS) }
        display_message tool_tip_state s
      else if tool_tip_state = TIP_DETECTED ∧ now > s.tip_insert_delay_tick_ms
          ∧ s.tip_change_state = 0 then
        let s := draw_default_display s
        { s with system_state := OFF_STATE }
      else s
    update_display s
  else if s.system_state = OFF_STATE then
    let s := heater_off s
    let s :=
      if s.tip_change_state ≠ 0 ∨ tool_tip_state ≠ TIP_DETECTED then
        { s with system_state := TIP_CHANGE_STATE }
      else if s.tool_holder_state = 0 then
        { s with system_state := ON_STATE }
      else s
    update_display s
  else if s.system_state = ON_STATE then
    let s :=
      if s.tip_change_state ≠ 0 ∨ tool_tip_state ≠ TIP_DETECTED then
        { s with system_state := TIP_CHANGE_STATE }
      else if s.tool_holder_state ≠ 0 then
        let s := { s with standby_timeout_tick_ms := u32 (now + STANDBY_TIME_S * 1000) }
        { s with system_state := STANDBY_STATE }
      else s
    update_display s
  else if s.system_state = STANDBY_STATE then
    let s :=
      if s.tip_change_state ≠ 0 ∨ tool_tip_state ≠ TIP_DETECTED then
        { s with system_state := TIP_CHANGE_STATE }
      else if s.tool_holder_state = 0 then
        { s with system_state := ON_STATE }
      else if now > s.standby_timeout_tick_ms then
        { s with system_state := OFF_STATE }
      else s
    update_display s
  else if s.system_state = ERROR_STATE then
    let s := error_handler s
    { s with system_state := INIT_STATE }
  else
    { s with system_state := ERROR_STATE }

/-! ## Operations as events -/

/-- One operation of the firmware, with the inputs it reads from outside. -/
inductive Event where
  | zerocross (now GPIO_Pin : Nat)   -- HAL_GPIO_EXTI_Callback at tick `now`
  | timer (htim : Timer)             -- HAL_TIM_PeriodElapsedCallback
  | adc_complete (buf : List Nat)    -- DMA has filled `adc_buffer` with `buf`; HAL_ADC_ConvCpltCallback
  | power_control
  | tip_check
  | heater_off
  | error_handler
  | set_new_temp (new_temp : Nat)
  | inputs (tool_holder tip_change : Nat) -- `read_mmi` stores the two sensor states
  | state_machine (now : Nat)
deriving DecidableEq, Repr

/-- The effect of one event on the state. -/
def step (e : Event) (s : State) : State :=
  match e with
  | Event.zerocross now pin => zerocross_interrupt now pin s
  | Event.timer htim => timer_interrupt htim s
  | Event.adc_complete buf => adc_complete { s with adc_buffer := buf }
  | Event.power_control => power_control s
  | Event.tip_check => (tip_check s).2
  | Event.heater_off => heater_off s
  | Event.error_handler => error_handler s
  | Event.set_new_temp v => set_new_temp v s
  | Event.inputs h t => { s with tool_holder_state := u8 h, tip_change_state := u8 t }
  | Event.state_machine now => state_machine now s

/-- The state after a sequence of events, oldest first. -/
def run (es : List Event) (s : State) : State := es.foldl (fun st e => step e st) s

/-- The schedule invariant: the on-count and the value shown on the power bar are
at most `MAX_ON_PERIODS` (both are unsigned, so never negative). -/
def schedule_ok (s : State) : Prop :=
  s.on_periods ≤ MAX_ON_PERIODS ∧ s.power_bar_value ≤ MAX_ON_PERIODS

instance (s : State) : Decidable (schedule_ok s) :=
  inferInstanceAs (Decidable (s.on_periods ≤ MAX_ON_PERIODS ∧ s.power_bar_value ≤ MAX_ON_PERIODS))

/-! ## Concrete inputs -/

/-- The controller in `system_state = st` with the given set and tip temperatures. -/
def operating (st set_temp tip_temp : Nat) : State :=
  { init with system_state := st, set_temp := set_temp, tip_temp := tip_temp,
              tip_state := TIP_DETECTED }

/-- The controller in `ON_STATE`, set temperature 300, tip temperature 250, with
`n` heater periods scheduled and burst average `avg`. -/
def heating (n avg : Nat) : State :=
  { init with system_state := ON_STATE, tip_temp := 250, tip_state := TIP_DETECTED,
              on_periods := n, adc_buffer_average := avg }

/-- A burst as the DMA leaves it: `ADC_BUFFER_LENGTH` samples, each a `uint16_t`. -/
def buffer_ok (buf : List Nat) : Prop :=
  buf.length = ADC_BUFFER_LENGTH ∧ ∀ x ∈ buf, x < 65536

instance (buf : List Nat) : Decidable (buffer_ok buf) :=
  inferInstanceAs (Decidable (buf.length = ADC_BUFFER_LENGTH ∧ ∀ x ∈ buf, x < 65536))

/-- The controller in `ON_STATE` with a detected tip, `n` heater periods scheduled,
`tip_check_flag = flag` and a freshly filled sample buffer `buf`. -/
def burst (flag n : Nat) (buf : List Nat) : State :=
  { init with system_state := ON_STATE, tip_state := TIP_DETECTED, tip_temp := 250,
              on_periods := n, tip_check_flag := flag, adc_buffer := buf }

/-- The supervisor in `system_state = st`, seeing tip state `tip`, holder state `holder`
and tip-change state `tip_change`, with the AC watchdog deadline at `deadline`. -/
def supervised (st tip holder tip_change deadline : Nat) : State :=
  { init with system_state := st, tip_state := tip, tool_holder_state := holder,
              tip_change_state := tip_change, ac_delay_tick_ms := deadline }

/-- The events raised by hardware interrupts: zero-cross edge, timer period elapsed,
ADC conversion complete. -/
def interrupt_event : Event → Bool
  | Event.zerocross _ _ => true
  | Event.timer _ => true
  | Event.adc_complete _ => true
  | _ => false

/-- A state-machine tick is admissible after time `lo` when its time is at least `lo`
and arming a delay at that time does not wrap the 32-bit tick; other events always are. -/
def tick_ok (lo : Nat) : Event → Bool
  | Event.state_machine t => decide (lo ≤ t) && decide (t + TIP_CHANGE_DELAY_MS < 4294967296)
  | _ => true

/-- One mains half-cycle whose TIM6 event is followed by both TIM7 ticks. -/
def read_cycle : List Event :=
  [Event.timer Timer.htim6, Event.timer Timer.htim7, Event.timer Timer.htim7]

/-- One mains half-cycle at tick `t` in which the heater stays off: zero-cross edge, TIM6,
both TIM7 ticks, and the completion of the ADC burst `buf`. -/
def mains_half_cycle (t : Nat) (buf : List Nat) : List Event :=
  [Event.zerocross t ZERO_CROSS_Pin, Event.timer Timer.htim6, Event.timer Timer.htim7,
   Event.timer Timer.htim7, Event.adc_complete buf]

/-- The first `n` half-cycles after tick `t0`, 10 ms apart, each with the burst `buf`. -/
def mains_half_cycles (t0 n : Nat) (buf : List Nat) : List Event :=
  ((List.range n).map (fun k => mains_half_cycle (t0 + 10 * (k + 1)) buf)).flatten

/-- What happens between two state-machine ticks when a tip is inserted after power-up:
50 half-cycles reading 4090 with no tip check due, then the half-cycle at tick 510 whose
tip-check burst reads 3500. -/
def tip_inserted : List Event :=
  mains_half_cycles 0 50 (List.replicate 50 4090) ++ mains_half_cycle 510 (List.replicate 50 3500)

/-- The controller in `system_state = st` with a detected tip at 250 degrees, `n` heater
periods scheduled, `tip_check_flag = flag` and the sample buffer `buf`. -/
def sampling (st flag n : Nat) (buf : List Nat) : State :=
  { init with system_state := st, tip_state := TIP_DETECTED, tip_temp := 250,
              on_periods := n, tip_check_flag := flag, adc_buffer := buf }

/-- The controller in `OFF_STATE` with the tool parked in the holder and four heater
periods still scheduled. -/
def parked_off : State :=
  { init with system_state := OFF_STATE, tip_state := TIP_DETECTED, tip_temp := 250,
              on_periods := 4, tool_holder_state := 1 }

/-- Whether event `e`, arriving in state `s`, is a first TIM7 tick that raises the
tip-check flag. -/
def arms (e : Event) (s : State) : Bool :=
  match e with
  | Event.timer Timer.htim7 =>
    decide (s.delay_flag ≠ 0) && decide (s.tip_check_counter > TIP_CHECK_INTERVAL)
  | _ => false

/-- No event of the sequence, run from `s`, raises the tip-check flag. -/
def no_arming : List Event → State → Bool
  | [], _ => true
  | e :: r, s => !arms e s && no_arming r (step e s)

/-- The number of TIM6 events (mains half-cycles) in a sequence. -/
def tim6_events : List Event → Nat
  | [] => 0
  | Event.timer Timer.htim6 :: r => tim6_events r + 1
  | _ :: r => tim6_events r

/-- From power-up to the TIM6 event of the 51st half-cycle: 50 whole half-cycles reading
4090 (no tip), then the zero-cross and TIM6 events of the next one. -/
def first_check_due : List Event :=
  mains_half_cycles 0 50 (List.replicate 50 4090)
    ++ [Event.zerocross 510 ZERO_CROSS_Pin, Event.timer Timer.htim6]

/-- The same up to the first TIM7 tick of the 51st half-cycle, which arms the first tip
check. -/
def check_armed : List Event := first_check_due ++ [Event.timer Timer.htim7]

/-- After the arming tick: the rest of that half-cycle (the check burst reads 3500), 49
whole half-cycles, and the zero-cross and TIM6 events of the 50th. -/
def fifty_later : List Event :=
  [Event.timer Timer.htim7, Event.adc_complete (List.replicate 50 3500)]
    ++ mains_half_cycles 510 49 (List.replicate 50 3500)
    ++ [Event.zerocross 1010 ZERO_CROSS_Pin, Event.timer Timer.htim6]

/-- The variables of the temperature engine hold values of their C types. -/
def in_range (s : State) : Bool :=
  decide (s.tip_check_counter < 65536) && decide (s.delay_flag < 256) &&
  decide (s.tip_check_flag < 256) && decide (s.on_periods < 256) &&
  decide (s.tip_state < 65536) && decide (s.error_flag < 256) &&
  decide (s.tip_temp < 65536) && decide (s.system_state < 256)

/-- Every state met while running the events from `s` is in range, and the final state
satisfies `q`. -/
def finally_holds (q : State → Bool) : List Event → State → Bool
  | [], s => q s
  | e :: r, s => in_range s && finally_holds q r (step e s)

/-- Between two operations the error flag is clear and the tip-check flag is `RESET` or
`SET` (`WAIT` occurs only inside `adc_complete`). -/
def flags_ok (s : State) : Prop :=
  s.error_flag = RESET ∧ (s.tip_check_flag = RESET ∨ s.tip_check_flag = SET)

instance (s : State) : Decidable (flags_ok s) :=
  inferInstanceAs (Decidable (s.error_flag = RESET ∧
    (s.tip_check_flag = RESET ∨ s.tip_check_flag = SET)))

/-! ## button.c -/

-- enum button_constants (button.h)
abbrev NO_PRESS : Nat := 0
abbrev SHORT_PRESS : Nat := 1
abbrev LONG_PRESS : Nat := 2
abbrev INVERTED : Nat := 100
abbrev NON_INVERTED : Nat := 101
abbrev DEBOUNCE_TICKS : Nat := 3
abbrev LONG_PRESS_TICKS : Nat := 50

/-- The struct `button` (button.h); `port` stands for the `GPIO_TypeDef *`. -/
structure Button where
  port : Nat
  pin : Nat
  polarity : Nat
  counter : Nat
  state : Nat
  release_state : Nat
  release_flag : Nat
  long_press_ticks : Nat
deriving DecidableEq, Repr

def button_init (port pin polarity : Nat) (_self : Button) : Button :=
  { port := port, pin := u16 pin, polarity := u8 polarity, counter := 0, state := NO_PRESS,
    release_state := NO_PRESS, release_flag := RESET, long_press_ticks := 0 }

/-- Returns the event together with the button after the call. -/
def button_event (self : Button) : Nat × Button :=
  let event := NO_PRESS
  if self.release_flag ≠ 0 then
    let event := self.release_state
    let self := { self with release_state := NO_PRESS }
    let self := { self with release_flag := RESET }
    (event, self)
  else (event, self)

/-- Returns `self->state` together with the button after the call. -/
def button_state (self : Button) : Nat × Button := (self.state, self)

/-- One call of `button_scan`; `level` is the value `HAL_GPIO_ReadPin(self->port, self->pin)`
returns during the call. -/
def button_scan (level : Nat) (self : Button) : Button :=
  let button_pressed := u8 level
  let button_pressed :=
    if self.polarity = INVERTED then (if button_pressed = 0 then 1 else 0) else button_pressed
  if button_pressed ≠ 0 then
    if self.counter = DEBOUNCE_TICKS then
      if self.long_press_ticks = LONG_PRESS_TICKS then
        { self with state := LONG_PRESS }
      else
        let self := { self with state := SHORT_PRESS }
        { self with long_press_ticks := u16 (self.long_press_ticks + 1) }
    else
      { self with counter := u8 (self.counter + 1) }
  else
    if self.counter = 0 then
      let self := { self with long_press_ticks := 0 }
      if self.state ≠ NO_PRESS then
        let self := { self with release_flag := SET }
        let self := { self with release_state := self.state }
        { self with state := NO_PRESS }
      else self
    else
      { self with counter := u8 (self.counter + 256 - 1) }

/-- The button after a sequence of scans, `levels` being the pin readings, oldest first. -/
def button_scans (levels : List Nat) (self : Button) : Button :=
  levels.foldl (fun b level => button_scan level b) self

/-- Whether a pin reading counts as pressed for the button's polarity. -/
def reads_pressed (self : Button) (level : Nat) : Bool :=
  if self.polarity = INVERTED then u8 level = 0 else u8 level ≠ 0

/-! ## encoder.c -/

-- enum encoder_constants (encoder.h)
abbrev INCREASE : Nat := 50
abbrev NO_CHANGE : Nat := 51
abbrev DECREASE : Nat := 52
abbrev OVERFLOW : Nat := 53
abbrev UNDERFLOW : Nat := 54

/-- Conversion of an unsigned value to `int32_t` (two's complement, modulo 2^32). -/
def toInt32 (x : Nat) : Int :=
  if x % 4294967296 < 2147483648 then ((x % 4294967296 : Nat) : Int)
  else ((x % 4294967296 : Nat) : Int) - 4294967296

/-- An `int` result brought into the `int32_t` range modulo 2^32. -/
def int32 (x : Int) : Int := (x + 2147483648) % 4294967296 - 2147483648

/-- Conversion of an `int` to `int16_t` (modulo 2^16). -/
def int16 (x : Int) : Int := (x + 32768) % 65536 - 32768

/-- The struct `encoder` (encoder.h) with the three registers of its timer that the code
reads: `CNT` and `SR` are changed by the hardware between calls, `SR` bit 0 is the
update flag. -/
structure Encoder where
  state : Nat
  flag : Nat
  value : Nat
  delta : Int
  CNT : Nat
  ARR : Nat
  SR : Nat
deriving DecidableEq, Repr

def encoder_init (self : Encoder) : Encoder :=
  let self := { self with state := NO_CHANGE }
  let self := { self with flag := RESET }
  let self := { self with delta := 0 }
  let self := { self with value := u32 (self.ARR + 1) / 2 }
  let self := { self with CNT := self.value }
  { self with SR := self.SR / 2 * 2 }

/-- Returns the overflow state together with the encoder after the call. -/
def encoder_overflow_check (self : Encoder) : Nat × Encoder :=
  let overflow_state := 0
  if self.SR % 2 ≠ 0 then
    let overflow_state := if self.CNT ≤ self.ARR / 2 then OVERFLOW else UNDERFLOW
    (overflow_state, { self with SR := self.SR / 2 * 2 })
  else (overflow_state, self)

/-- Returns `self->state` together with the encoder after the call; the counter the
call reads is the field `CNT`. -/
def encoder_event (self : Encoder) : Nat × Encoder :=
  let tmp_CNT := self.CNT
  let self :=
    if tmp_CNT ≠ self.value then
      let r := encoder_overflow_check self
      let overflow_state := r.1
      let self := r.2
      let self :=
        if overflow_state = OVERFLOW then { self with state := INCREASE }
        else if overflow_state = UNDERFLOW then { self with state := DECREASE }
        else if tmp_CNT > self.value then { self with state := INCREASE }
        else { self with state := DECREASE }
      let self := { self with delta := toInt32 (u32 (tmp_CNT + 4294967296 - self.value)) }
      let self := { self with value := tmp_CNT }
      { self with flag := SET }
    else
      { self with state := NO_CHANGE }
  (self.state, self)

def get_encoder_value (self : Encoder) : Nat := self.value

/-- Returns the delta together with the encoder after the call. -/
def get_encoder_delta (self : Encoder) : Int × Encoder :=
  let delta : Int := 0
  if self.flag ≠ 0 then
    let delta := self.delta
    (delta, { self with flag := RESET })
  else (delta, self)

/-! ## opensolder.c: operator inputs -/

/-- The objects and variables of opensolder.c that `read_mmi` and `sensor_scan` use and
that `State` does not hold, the two function statics of `read_mmi` included. -/
structure Mmi where
  tool_holder_sensor : Button
  tip_change_sensor : Button
  mmi_button : Button
  mmi_encoder : Encoder
  mmi_button_event : Nat
  mmi_encoder_event : Nat
  standby_delay_tick_ms : Nat
  tip_change_delay_tick_ms : Nat
deriving DecidableEq, Repr

/-- One call of `sensor_scan`; the arguments are the readings of the three pins. -/
def sensor_scan (stand tip_remover enc_sw : Nat) (m : Mmi) : Mmi :=
  let m := { m with tool_holder_sensor := button_scan stand m.tool_holder_sensor }
  let m := { m with tip_change_sensor := button_scan tip_remover m.tip_change_sensor }
  { m with mmi_button := button_scan enc_sw m.mmi_button }

/-- The value of the local `int16_t new_temp` of `read_mmi` when it is handed to
`set_new_temp`: initialised from the set temperature, increased by
`TEMP_STEPS * delta` (the product and the sum are `int` results, taken modulo 2^32, and
the compound assignment converts back to `int16_t`), then clamped. -/
def new_set_temp (set_temp : Nat) (delta : Int) : Int :=
  let new_temp : Int := toInt16 set_temp
  let new_temp : Int := int16 (int32 (new_temp + int32 ((TEMP_STEPS : Int) * delta)))
  if new_temp > (MAX_TEMP : Int) then (MAX_TEMP : Int)
  else if new_temp < (MIN_TEMP : Int) then (MIN_TEMP : Int)
  else new_temp

/-- One call of `read_mmi`; `now` is the value of `HAL_GetTick()` during the call. -/
def read_mmi (now : Nat) (m : Mmi) (s : State) : Mmi × State :=
  let rb := button_event m.mmi_button
  let m := { m with mmi_button := rb.2, mmi_button_event := rb.1 }
  let re := encoder_event m.mmi_encoder
  let m := { m with mmi_encoder := re.2, mmi_encoder_event := re.1 }
  let ms : Mmi × State :=
    if (button_state m.tool_holder_sensor).1 ≠ 0 then
      ({ m with standby_delay_tick_ms := u32 (now + STANDBY_DELAY_MS) },
       { s with tool_holder_state := SET })
    else if now > m.standby_delay_tick_ms then
      (m, { s with tool_holder_state := RESET })
    else (m, s)
  let m := ms.1
  let s := ms.2
  let ms : Mmi × State :=
    if (button_state m.tip_change_sensor).1 ≠ 0 then
      ({ m with tip_change_delay_tick_ms := u32 (now + TIP_CHANGE_DELAY_MS) },
       { s with tip_change_state := SET })
    else if now > m.tip_change_delay_tick_ms then
      (m, { s with tip_change_state := RESET })
    else (m, s)
  let m := ms.1
  let s := ms.2
  if m.mmi_encoder_event ≠ NO_CHANGE then
    let rd := get_encoder_delta m.mmi_encoder
    let m := { m with mmi_encoder := rd.2 }
    (m, set_new_temp (Int.toNat (new_set_temp (get_set_temp s) rd.1 % 65536)) s)
  else (m, s)

/-- A freshly initialised button with inverted polarity, as opensolder.c creates them. -/
def fresh_button : Button := button_init 0 0 INVERTED
  { port := 0, pin := 0, polarity := 0, counter := 0, state := 0, release_state := 0,
    release_flag := 0, long_press_ticks := 0 }

/-- The encoder holding value 32768 with the hardware counter at `cnt`. -/
def encoder_at (cnt : Nat) : Encoder :=
  { encoder_init
      { state := 0, flag := 0, value := 0, delta := 0, CNT := 0, ARR := 65535, SR := 0 }
    with CNT := cnt }

/-- The operator inputs after initialisation with the encoder counter at `cnt`. -/
def mmi_at (cnt : Nat) : Mmi :=
  { tool_holder_sensor := fresh_button, tip_change_sensor := fresh_button,
    mmi_button := fresh_button, mmi_encoder := encoder_at cnt,
    mmi_button_event := 0, mmi_encoder_event := 0,
    standby_delay_tick_ms := 0, tip_change_delay_tick_ms := 0 }

/-- Calls on the encoder during which no counter change is detected: `none` is a
`get_encoder_delta` call, `some sr` an `encoder_event` call that finds the counter equal
to the stored value (and the status register holding `sr`). -/
def quiet_calls (ops : List (Option Nat)) (e : Encoder) : Encoder :=
  ops.foldl (fun x op =>
    match op with
    | none => (get_encoder_delta x).2
    | some sr => (encoder_event { x with CNT := x.value, SR := sr }).2) e

/-- The operations that can occur on their own between two others: every event except a
direct call of `power_control`, which is static in temperature.c and runs only inside
`adc_complete`. -/
def firmware_operation : Event → Bool
  | Event.power_control => false
  | _ => true

/-- No tip, no power: without a detected tip, or with a tip check pending, no heater
period is scheduled. -/
def no_tip_no_power (s : State) : Prop :=
  (s.tip_state ≠ TIP_DETECTED ∨ s.tip_check_flag = SET) → s.on_periods = 0

instance (s : State) : Decidable (no_tip_no_power s) :=
  inferInstanceAs (Decidable ((s.tip_state ≠ TIP_DETECTED ∨ s.tip_check_flag = SET) →
    s.on_periods = 0))

/-- The event of a TIM6 period elapsing, `n` times in a row. -/
def tim6_train (n : Nat) : List Event := List.replicate n (Event.timer Timer.htim6)

/-- The controller in `TIP_CHANGE_STATE` with no tip detected, `tip_check_flag = flag`
and the AC watchdog deadline at `deadline`. -/
def awaiting_tip (flag deadline : Nat) : State :=
  { init with system_state := TIP_CHANGE_STATE, tip_state := TIP_NOT_DETECTED,
              tip_check_flag := flag, ac_delay_tick_ms := deadline }

/-! ## Watchdog -/

/-- C1: whenever the tick is past the AC watchdog deadline, one call of `state_machine`
ends in `ERROR_STATE` with `on_periods = 0` and `tip_state = TIP_CHECK_ERROR`, whatever
`system_state`, the tip state and the holder and tip-change inputs were; the result is
exactly the error response followed by the message, so no per-state transition ran
(both delay deadlines keep their values and the log gains only the heater write and
the message). -/
theorem state_machine_watchdog_precedence (now : Nat) (s : State)
    (h : now > get_ac_delay_tick s) :
    (state_machine now s).system_state = ERROR_STATE ∧
    (state_machine now s).on_periods = 0 ∧
    (state_machine now s).tip_state = TIP_CHECK_ERROR ∧
    (state_machine now s).heater_pin = OFF ∧
    state_machine now s =
      { display_message AC_NOT_DETECTED (error_handler s) with system_state := ERROR_STATE } ∧
    (state_machine now s).standby_timeout_tick_ms = s.standby_timeout_tick_ms ∧
    (state_machine now s).tip_insert_delay_tick_ms = s.tip_insert_delay_tick_ms ∧
    (state_machine now s).hw =
      s.hw ++ [HwOp.heater_write OFF, HwOp.display_message AC_NOT_DETECTED] := by
  simp [state_machine, h, error_handler, display_message, heater_off, heater_write, emit, u16]
  decide

/-- Scenario 6: deadline 0, tick 13; from `ON_STATE` and from the unmapped value 77 the
next state is `ERROR_STATE`. -/
theorem state_machine_watchdog_precedence_witness :
    (state_machine 13 (operating ON_STATE 300 250)).system_state = ERROR_STATE ∧
    (state_machine 13 (operating 77 300 250)).system_state = ERROR_STATE :=
  ⟨(state_machine_watchdog_precedence 13 (operating ON_STATE 300 250) (by decide)).1,
   (state_machine_watchdog_precedence 13 (operating 77 300 250) (by decide)).1⟩

/-! ## Power control law -/

theorem power_law_on_periods_le (t c : Nat) (s : State) :
    (power_law t c s).on_periods ≤ MAX_ON_PERIODS := by
  unfold power_law
  by_cases h : c + 3 < t
  · simp only [h, if_true]
    split_ifs with h1 h2
    · simp
    · simp
    · simp only [gt_iff_lt, not_lt] at h1
      exact h1
  · simp [h, heater_off]

theorem power_law_on_periods_eq_zero_iff (t c : Nat) (s : State) :
    (power_law t c s).on_periods = 0 ↔ ¬ (c + 3 < t) := by
  unfold power_law
  by_cases h : c + 3 < t
  · simp only [h, if_true, not_true_eq_false, iff_false]
    split_ifs with h1 h2
    · simp
    · simp
    · exact h2
  · simp [h, heater_off]

theorem power_law_on_periods (t c : Nat) (s : State) :
    (power_law t c s).on_periods =
      if c + 3 < t then
        if u8 (u16 (t - c) / 10) > MAX_ON_PERIODS then MAX_ON_PERIODS
        else if u8 (u16 (t - c) / 10) = 0 then 1
        else u8 (u16 (t - c) / 10)
      else 0 := by
  simp only [power_law, heater_off]
  split_ifs <;> rfl

/-- C2: for every tip temperature, set temperature and system state the on-count left
by `power_control` is at most `MAX_ON_PERIODS = 4`, and it is `0` exactly when the tip
temperature is at least the effective target minus 3, compared over the integers.
With target 300 and temperature 298 the on-count is 0. -/
theorem power_control_on_count_range (s : State) :
    (power_control s).on_periods ≤ MAX_ON_PERIODS ∧
    ((power_control s).on_periods = 0 ↔
      (s.tip_temp : Int) ≥ (tmp_set_temp s : Int) - 3) ∧
    tmp_set_temp (operating ON_STATE 300 298) = 300 ∧
    (power_control (operating ON_STATE 300 298)).on_periods = 0 := by
  refine ⟨power_law_on_periods_le _ _ _, ?_, by decide, by decide⟩
  unfold power_control
  rw [power_law_on_periods_eq_zero_iff]
  omega

/-- C3, as stated, fails: with target 2560 and temperature 0 the quotient 256 is stored
into the 8-bit `on_periods` as 0 and then raised to 1, while the stated formula
gives 4. -/
theorem power_control_formula_counterexample :
    (operating ON_STATE 2560 0).tip_temp < 65536 ∧
    tmp_set_temp (operating ON_STATE 2560 0) = 2560 ∧
    (operating ON_STATE 2560 0).tip_temp + 3 < tmp_set_temp (operating ON_STATE 2560 0) ∧
    (power_control (operating ON_STATE 2560 0)).on_periods = 1 ∧
    min (max ((tmp_set_temp (operating ON_STATE 2560 0)
      - (operating ON_STATE 2560 0).tip_temp) / 10) 1) MAX_ON_PERIODS = 4 ∧
    (power_control (operating ON_STATE 2560 0)).on_periods ≠
      min (max ((tmp_set_temp (operating ON_STATE 2560 0)
        - (operating ON_STATE 2560 0).tip_temp) / 10) 1) MAX_ON_PERIODS := by
  decide

/-- C3, amended: when `tip_temp + 3 < target` and `target - tip_temp < 2560` (which
holds for every target up to `MAX_TEMP = 400`), `power_control` leaves
`on_periods = min (max ((target - tip_temp) / 10) 1) MAX_ON_PERIODS`, the division being
integer division. -/
theorem power_control_on_count_formula (s : State)
    (h : s.tip_temp + 3 < tmp_set_temp s)
    (hb : tmp_set_temp s - s.tip_temp < 2560) :
    (power_control s).on_periods =
      min (max ((tmp_set_temp s - s.tip_temp) / 10) 1) MAX_ON_PERIODS := by
  have h16 : u16 (tmp_set_temp s - s.tip_temp) = tmp_set_temp s - s.tip_temp :=
    Nat.mod_eq_of_lt (by omega)
  have h8 : u8 ((tmp_set_temp s - s.tip_temp) / 10) = (tmp_set_temp s - s.tip_temp) / 10 :=
    Nat.mod_eq_of_lt (by omega)
  rw [power_control, power_law_on_periods, if_pos h, h16, h8]
  simp only [MAX_ON_PERIODS]
  split_ifs with h1 h2 <;> omega

/-- Scenario 3: target 300, temperature 250 gives on-count 4. -/
theorem power_control_on_count_formula_witness :
    (power_control (operating ON_STATE 300 250)).on_periods = 4 := by
  have h := power_control_on_count_formula (operating ON_STATE 300 250) (by decide) (by decide)
  rw [h]
  decide

/-- C4: in `STANDBY_STATE` with a set temperature above `STANDBY_TEMP = 50`,
`power_control` is the power law for target 50; in every other case (any other system
state, or a set temperature of at most 50) it is the power law for the set temperature
itself; the stored set temperature is never changed by `power_control`. -/
theorem power_control_standby_target (s : State) :
    (s.system_state = STANDBY_STATE → s.set_temp > STANDBY_TEMP →
      tmp_set_temp s = STANDBY_TEMP ∧
      power_control s = power_law STANDBY_TEMP s.tip_temp s) ∧
    (¬ (s.system_state = STANDBY_STATE ∧ s.set_temp > STANDBY_TEMP) →
      tmp_set_temp s = s.set_temp ∧
      power_control s = power_law s.set_temp s.tip_temp s) ∧
    get_set_temp (power_control s) = get_set_temp s := by
  refine ⟨?_, ?_, ?_⟩
  · intro h1 h2
    have : tmp_set_temp s = STANDBY_TEMP := by
      simp [tmp_set_temp, get_system_state, h1, h2]
    exact ⟨this, by rw [power_control, this]⟩
  · intro h1
    have : tmp_set_temp s = s.set_temp := by
      unfold tmp_set_temp get_system_state
      exact if_neg h1
    exact ⟨this, by rw [power_control, this]⟩
  · simp only [power_control, power_law, get_set_temp, heater_off]
    split_ifs <;> rfl

/-- Scenario 5: set temperature 300 in Standby uses target 50 (tip at 20 gives 3 heater
periods, where `ON_STATE` gives 4). -/
theorem power_control_standby_target_witness :
    tmp_set_temp (operating STANDBY_STATE 300 20) = 50 ∧
    (power_control (operating STANDBY_STATE 300 20)).on_periods = 3 ∧
    (power_control (operating ON_STATE 300 20)).on_periods = 4 := by
  have h := (power_control_standby_target (operating STANDBY_STATE 300 20)).1
    (by decide) (by decide)
  have h2 := (power_control_standby_target (operating ON_STATE 300 20)).2.1 (by decide)
  refine ⟨h.1, ?_, ?_⟩
  · rw [h.2]
    decide
  · rw [h2.2]
    decide

/-! ## Tip check -/

/-- C6: calling `tip_check` while `tip_check_flag` is not `WAIT` returns
`TIP_CHECK_ERROR` and leaves `on_periods = 0`, `tip_state = TIP_CHECK_ERROR` and
`tip_check_flag = RESET`, with the heater pin written low; the result does not depend
on the burst average. -/
theorem tip_check_misuse (s : State) (h : s.tip_check_flag ≠ WAIT) :
    (tip_check s).1 = TIP_CHECK_ERROR ∧
    (tip_check s).2.on_periods = 0 ∧
    (tip_check s).2.tip_state = TIP_CHECK_ERROR ∧
    (tip_check s).2.tip_check_flag = RESET ∧
    (tip_check s).2.heater_pin = OFF ∧
    (tip_check s).2 = { error_handler s with tip_check_flag := RESET } ∧
    ∀ a : Nat,
      (tip_check { s with adc_buffer_average := a }).1 = (tip_check s).1 ∧
      (tip_check { s with adc_buffer_average := a }).2 =
        { (tip_check s).2 with adc_buffer_average := a } := by
  simp [tip_check, h, error_handler, heater_off, heater_write, emit]

/-- A direct call with the flag at `RESET` and four heater periods scheduled. -/
theorem tip_check_misuse_witness :
    (tip_check (heating 4 3500)).1 = TIP_CHECK_ERROR ∧
    (tip_check (heating 4 3500)).2.on_periods = 0 :=
  ⟨(tip_check_misuse (heating 4 3500) (by decide)).1,
   (tip_check_misuse (heating 4 3500) (by decide)).2.1⟩

/-! ## True zero-cross (TIM6) -/

/-- C9: on a TIM6 event the heater pin is written high exactly when `on_periods ≥ 1` and
`tip_temp < MAX_TEMP`; in that case `on_periods` drops by exactly one (the sense line is
clamped first and TIM7 is not touched); otherwise the pin is written low, `on_periods`
is unchanged and TIM7 is started.  So a last known temperature of `MAX_TEMP` or more,
the sentinel 999 included, always gives heater off. -/
theorem tim6_heater_decision (s : State) (h8 : s.on_periods < 256) :
    ((timer_interrupt Timer.htim6 s).heater_pin = ON ↔
      (s.on_periods ≥ 1 ∧ s.tip_temp < MAX_TEMP)) ∧
    ((s.on_periods ≥ 1 ∧ s.tip_temp < MAX_TEMP) →
      (timer_interrupt Timer.htim6 s).on_periods + 1 = s.on_periods ∧
      (timer_interrupt Timer.htim6 s).tim7_running = s.tim7_running ∧
      (timer_interrupt Timer.htim6 s).hw =
        s.hw ++ [HwOp.tim6_stop, HwOp.clamp_low, HwOp.heater_write ON, HwOp.sensor_scan]) ∧
    (¬ (s.on_periods ≥ 1 ∧ s.tip_temp < MAX_TEMP) →
      (timer_interrupt Timer.htim6 s).heater_pin = OFF ∧
      (timer_interrupt Timer.htim6 s).on_periods = s.on_periods ∧
      (timer_interrupt Timer.htim6 s).tim7_running = true ∧
      (timer_interrupt Timer.htim6 s).hw =
        s.hw ++ [HwOp.tim6_stop, HwOp.heater_write OFF, HwOp.tim7_start, HwOp.sensor_scan]) ∧
    (s.tip_temp ≥ MAX_TEMP → (timer_interrupt Timer.htim6 s).heater_pin = OFF) := by
  by_cases hc : s.on_periods ≥ 1 ∧ s.tip_temp < MAX_TEMP
  · have hlt : ¬ (MAX_TEMP ≤ s.tip_temp) := by omega
    simp [timer_interrupt, heater_write, emit, hc, hlt]
    unfold u8
    omega
  · have hc2 : ¬ (1 ≤ s.on_periods ∧ s.tip_temp < 400) := hc
    simp [timer_interrupt, heater_write, emit, hc2]

/-- Four periods scheduled at 250 degrees: heater on, three left; with the sentinel 999
as last temperature the heater stays off. -/
theorem tim6_heater_decision_witness :
    (timer_interrupt Timer.htim6 (heating 4 3500)).heater_pin = ON ∧
    (timer_interrupt Timer.htim6 (heating 4 3500)).on_periods + 1 = 4 ∧
    (timer_interrupt Timer.htim6
      { heating 4 3500 with tip_temp := ADC_READING_ERROR }).heater_pin = OFF :=
  ⟨(tim6_heater_decision (heating 4 3500) (by decide)).1.2 (by decide),
   ((tim6_heater_decision (heating 4 3500) (by decide)).2.1 (by decide)).1,
   (tim6_heater_decision { heating 4 3500 with tip_temp := ADC_READING_ERROR }
      (by decide)).2.2.2 (by decide)⟩

/-! ## Sample bursts -/

theorem list_sum_le_of_lt (l : List Nat) (hl : ∀ x ∈ l, x < 65536) :
    l.sum ≤ l.length * 65535 := by
  induction l with
  | nil => simp
  | cons a t ih =>
    have ha : a < 65536 := hl a (List.mem_cons_self a t)
    have ht := ih (fun x hx => hl x (List.mem_cons_of_mem a hx))
    simp only [List.sum_cons, List.length_cons]
    omega

theorem getD_lt (l : List Nat) (hl : ∀ x ∈ l, x < 65536) (i : Nat) : l.getD i 0 < 65536 := by
  rw [List.getD_eq_getElem?_getD]
  cases h : l[i]? with
  | none => simp
  | some a =>
    simp only [Option.getD_some]
    exact hl a (List.getElem?_mem h)

theorem sum_take_succ_getD (l : List Nat) (n : Nat) :
    (l.take (n + 1)).sum = (l.take n).sum + l.getD n 0 := by
  rw [List.take_succ, List.sum_append, List.getD_eq_getElem?_getD]
  cases l[n]? <;> simp

theorem sum_loop_eq (l : List Nat) (hl : ∀ x ∈ l, x < 65536) (n : Nat) (hn : n ≤ 65536) :
    (List.range n).foldl (fun a i => u32 (a + l.getD i 0)) 0 = (l.take n).sum := by
  induction n with
  | zero => simp
  | succ k ih =>
    rw [List.range_succ, List.foldl_append, ih (by omega), sum_take_succ_getD]
    simp only [List.foldl_cons, List.foldl_nil]
    have h1 : (l.take k).sum ≤ (l.take k).length * 65535 :=
      list_sum_le_of_lt _ (fun x hx => hl x (List.mem_of_mem_take hx))
    have h2 : (l.take k).length ≤ k := by
      rw [List.length_take]
      exact Nat.min_le_left _ _
    have h3 := getD_lt l hl k
    have h4 : (l.take k).length * 65535 ≤ k * 65535 := Nat.mul_le_mul_right _ h2
    unfold u32
    omega

theorem exists_ge_average (l : List Nat) (hne : 0 < l.length) :
    ∃ x ∈ l, l.sum / l.length ≤ x := by
  by_contra hcon
  push_neg at hcon
  have key : ∀ (t : List Nat) (m : Nat), (∀ x ∈ t, x < m) → t.sum + t.length ≤ t.length * m := by
    intro t m
    induction t with
    | nil => simp
    | cons a r ih =>
      intro h
      have ha := h a (List.mem_cons_self a r)
      have hr := ih (fun x hx => h x (List.mem_cons_of_mem a hx))
      simp only [List.sum_cons, List.length_cons]
      rw [Nat.add_mul, Nat.one_mul]
      omega
  have h1 := key l _ hcon
  have h2 : l.length * (l.sum / l.length) ≤ l.sum := Nat.mul_div_le _ _
  omega

theorem average_loop_state (idx : List Nat) (s : State) :
    idx.foldl
      (fun st i => { st with adc_buffer_average := u32 (st.adc_buffer_average + sample st i) }) s
    = { s with adc_buffer_average :=
          idx.foldl (fun a i => u32 (a + s.adc_buffer.getD i 0)) s.adc_buffer_average } := by
  induction idx generalizing s with
  | nil => rfl
  | cons i r ih =>
    rw [List.foldl_cons, ih]
    rfl

/-- On a well-formed burst `adc_calculate_buffer_average` stores `floor (sum / 50)`:
the 32-bit accumulator does not overflow. -/
theorem adc_calculate_buffer_average_eq (s : State) (hok : buffer_ok s.adc_buffer) :
    adc_calculate_buffer_average s =
      { s with adc_buffer_average := s.adc_buffer.sum / ADC_BUFFER_LENGTH } := by
  have hsum := sum_loop_eq s.adc_buffer hok.2 ADC_BUFFER_LENGTH (by decide)
  have htake : s.adc_buffer.take ADC_BUFFER_LENGTH = s.adc_buffer := by
    rw [← hok.1]
    exact List.take_length s.adc_buffer
  rw [htake] at hsum
  have hle := list_sum_le_of_lt s.adc_buffer hok.2
  rw [hok.1] at hle
  simp only [ADC_BUFFER_LENGTH] at hle
  have hdiv : u32 (s.adc_buffer.sum / 50) = s.adc_buffer.sum / 50 := by
    unfold u32
    omega
  simp only [adc_calculate_buffer_average, average_loop_state, hsum, hdiv]

theorem average_le (buf : List Nat) (hok : buffer_ok buf) :
    buf.sum / ADC_BUFFER_LENGTH ≤ 65535 := by
  have hle := list_sum_le_of_lt buf hok.2
  rw [hok.1] at hle
  simp only [ADC_BUFFER_LENGTH] at hle ⊢
  omega

/-- C5: an `adc_complete` that finds `tip_check_flag = SET` classifies the tip from the
burst average `floor (sum / 50)` alone: `TIP_NOT_DETECTED` iff the average is above 4000,
`TIP_DETECTED` iff it is below 3800, `TIP_CHECK_ERROR` iff it lies in `[3800, 4000]`
(both ends included); the result is always one of the three and the flag is back at
`RESET`. -/
theorem adc_complete_tip_classification (s : State) (hok : buffer_ok s.adc_buffer)
    (hflag : s.tip_check_flag = SET) :
    (adc_complete s).adc_buffer_average = s.adc_buffer.sum / ADC_BUFFER_LENGTH ∧
    ((adc_complete s).tip_state = TIP_NOT_DETECTED ↔
      s.adc_buffer.sum / ADC_BUFFER_LENGTH > ADC_NO_TIP_MIN_VALUE) ∧
    ((adc_complete s).tip_state = TIP_DETECTED ↔
      s.adc_buffer.sum / ADC_BUFFER_LENGTH < ADC_TIP_MAX_VALUE) ∧
    ((adc_complete s).tip_state = TIP_CHECK_ERROR ↔
      (ADC_TIP_MAX_VALUE ≤ s.adc_buffer.sum / ADC_BUFFER_LENGTH ∧
        s.adc_buffer.sum / ADC_BUFFER_LENGTH ≤ ADC_NO_TIP_MIN_VALUE)) ∧
    ((adc_complete s).tip_state = TIP_NOT_DETECTED ∨
      (adc_complete s).tip_state = TIP_DETECTED ∨
      (adc_complete s).tip_state = TIP_CHECK_ERROR) ∧
    (adc_complete s).tip_check_flag = RESET := by
  simp only [adc_complete, adc_calculate_buffer_average_eq s hok, hflag, if_true, tip_check,
    emit]
  simp only [ne_eq, not_true_eq_false, if_false]
  simp only [TIP_NOT_DETECTED, TIP_DETECTED, TIP_CHECK_ERROR, ADC_TIP_MAX_VALUE,
    ADC_NO_TIP_MIN_VALUE, ADC_BUFFER_LENGTH, RESET, SET, WAIT]
  split_ifs with h1 h2 <;> refine ⟨rfl, ?_, ?_, ?_, ?_, trivial⟩ <;> dsimp only <;> omega

/-- Scenarios 1 and 2 (averages 4200 and 3500) and the two threshold values. -/
theorem adc_complete_tip_classification_witness :
    (adc_complete (burst SET 0 (List.replicate 50 4200))).tip_state = TIP_NOT_DETECTED ∧
    (adc_complete (burst SET 0 (List.replicate 50 3500))).tip_state = TIP_DETECTED ∧
    (adc_complete (burst SET 0 (List.replicate 50 3800))).tip_state = TIP_CHECK_ERROR ∧
    (adc_complete (burst SET 0 (List.replicate 50 4000))).tip_state = TIP_CHECK_ERROR :=
  ⟨(adc_complete_tip_classification (burst SET 0 (List.replicate 50 4200))
      (by decide) (by decide)).2.1.2 (by decide),
   (adc_complete_tip_classification (burst SET 0 (List.replicate 50 3500))
      (by decide) (by decide)).2.2.1.2 (by decide),
   (adc_complete_tip_classification (burst SET 0 (List.replicate 50 3800))
      (by decide) (by decide)).2.2.2.1.2 (by decide),
   (adc_complete_tip_classification (burst SET 0 (List.replicate 50 4000))
      (by decide) (by decide)).2.2.2.1.2 (by decide)⟩

/-! ## Sample-deviation check -/

theorem deviation_loop_state (U L : Int) (idx : List Nat) (s : State) :
    idx.foldl
      (fun st i =>
        if ((sample st i : Nat) : Int) > U ∨ ((sample st i : Nat) : Int) < L then
          { st with error_flag := SET }
        else st) s
    = { s with error_flag :=
          if ∃ i ∈ idx, ((s.adc_buffer.getD i 0 : Nat) : Int) > U ∨
              ((s.adc_buffer.getD i 0 : Nat) : Int) < L
          then SET else s.error_flag } := by
  induction idx generalizing s with
  | nil => simp
  | cons i r ih =>
    rw [List.foldl_cons]
    by_cases hb : ((sample s i : Nat) : Int) > U ∨ ((sample s i : Nat) : Int) < L
    · have hex : ∃ j ∈ i :: r, ((s.adc_buffer.getD j 0 : Nat) : Int) > U ∨
          ((s.adc_buffer.getD j 0 : Nat) : Int) < L := ⟨i, List.mem_cons_self _ _, hb⟩
      rw [if_pos hb, ih, if_pos hex]
      simp only [ite_self]
    · rw [if_neg hb, ih]
      by_cases hr : ∃ j ∈ r, ((s.adc_buffer.getD j 0 : Nat) : Int) > U ∨
          ((s.adc_buffer.getD j 0 : Nat) : Int) < L
      · have hex : ∃ j ∈ i :: r, ((s.adc_buffer.getD j 0 : Nat) : Int) > U ∨
            ((s.adc_buffer.getD j 0 : Nat) : Int) < L := by
          obtain ⟨j, hj, hp⟩ := hr
          exact ⟨j, List.mem_cons_of_mem _ hj, hp⟩
        rw [if_pos hr, if_pos hex]
      · have hex : ¬ ∃ j ∈ i :: r, ((s.adc_buffer.getD j 0 : Nat) : Int) > U ∨
            ((s.adc_buffer.getD j 0 : Nat) : Int) < L := by
          rintro ⟨j, hj, hp⟩
          rcases List.mem_cons.mp hj with hji | hj
          · rw [hji] at hp
            exact hb hp
          · exact hr ⟨j, hj, hp⟩
        rw [if_neg hr, if_neg hex]

/-- The error flag after `adc_deviation_check`: raised when some index below
`ADC_BUFFER_LENGTH` holds a sample beyond one of the two `int16_t` limits, otherwise
left as it was.  No other variable changes. -/
theorem adc_deviation_check_eq (s : State) :
    adc_deviation_check s =
      { s with error_flag :=
          if ∃ i ∈ List.range ADC_BUFFER_LENGTH,
              ((s.adc_buffer.getD i 0 : Nat) : Int) >
                toInt16 (u32 (s.adc_buffer_average + ADC_MAX_DEVIATION)) ∨
              ((s.adc_buffer.getD i 0 : Nat) : Int) <
                toInt16 (u32 (s.adc_buffer_average + 4294967296 - ADC_MAX_DEVIATION))
          then SET else s.error_flag } := by
  simp only [adc_deviation_check, deviation_loop_state]

theorem exists_index_of_mem (buf : List Nat) (hok : buffer_ok buf) (x : Nat) (hx : x ∈ buf) :
    ∃ i ∈ List.range ADC_BUFFER_LENGTH, buf.getD i 0 = x := by
  obtain ⟨i, hi⟩ := List.mem_iff_getElem?.mp hx
  refine ⟨i, ?_, ?_⟩
  · obtain ⟨hlt, _⟩ := List.getElem?_eq_some_iff.mp hi
    rw [List.mem_range, ← hok.1]
    exact hlt
  · rw [List.getD_eq_getElem?_getD, hi]
    rfl

theorem mem_of_index (buf : List Nat) (hok : buffer_ok buf) (i : Nat)
    (hi : i ∈ List.range ADC_BUFFER_LENGTH) : buf.getD i 0 ∈ buf := by
  have hlt : i < buf.length := by
    rw [hok.1]
    exact List.mem_range.mp hi
  rw [List.getD_eq_getElem buf 0 hlt]
  exact List.getElem_mem hlt

/-- Some sample beyond a limit whenever some sample is out of tolerance: for averages
up to 32567 the limits are `average ± 200`; above that the upper limit has wrapped
below the average, and a sample at least as large as the average exceeds it. -/
theorem deviation_detected (buf : List Nat) (hok : buffer_ok buf)
    (hdev : ∃ x ∈ buf, ((x : Nat) : Int) < ((buf.sum / ADC_BUFFER_LENGTH : Nat) : Int) - 200 ∨
      ((x : Nat) : Int) > ((buf.sum / ADC_BUFFER_LENGTH : Nat) : Int) + 200) :
    ∃ i ∈ List.range ADC_BUFFER_LENGTH,
      ((buf.getD i 0 : Nat) : Int) >
        toInt16 (u32 (buf.sum / ADC_BUFFER_LENGTH + ADC_MAX_DEVIATION)) ∨
      ((buf.getD i 0 : Nat) : Int) <
        toInt16 (u32 (buf.sum / ADC_BUFFER_LENGTH + 4294967296 - ADC_MAX_DEVIATION)) := by
  have havg := average_le buf hok
  by_cases hsmall : buf.sum / ADC_BUFFER_LENGTH + 200 < 32768
  · obtain ⟨x, hx, hbad⟩ := hdev
    obtain ⟨i, hi, hget⟩ := exists_index_of_mem buf hok x hx
    refine ⟨i, hi, ?_⟩
    rw [hget]
    simp only [toInt16, u32, ADC_MAX_DEVIATION, ADC_BUFFER_LENGTH] at *
    split_ifs <;> omega
  · have hpos : 0 < buf.length := by
      rw [hok.1]
      decide
    obtain ⟨y, hy, hge⟩ := exists_ge_average buf hpos
    rw [hok.1] at hge
    obtain ⟨i, hi, hget⟩ := exists_index_of_mem buf hok y hy
    refine ⟨i, hi, Or.inl ?_⟩
    rw [hget]
    simp only [toInt16, u32, ADC_MAX_DEVIATION, ADC_BUFFER_LENGTH] at *
    split_ifs <;> omega

/-- No sample is beyond a limit when every sample is within tolerance and the average is
at most 32567, so that `average + 200` fits an `int16_t`. -/
theorem deviation_not_detected (buf : List Nat) (hok : buffer_ok buf)
    (havg : buf.sum / ADC_BUFFER_LENGTH ≤ 32567)
    (hin : ∀ x ∈ buf, ((buf.sum / ADC_BUFFER_LENGTH : Nat) : Int) - 200 ≤ ((x : Nat) : Int) ∧
      ((x : Nat) : Int) ≤ ((buf.sum / ADC_BUFFER_LENGTH : Nat) : Int) + 200) :
    ¬ ∃ i ∈ List.range ADC_BUFFER_LENGTH,
      ((buf.getD i 0 : Nat) : Int) >
        toInt16 (u32 (buf.sum / ADC_BUFFER_LENGTH + ADC_MAX_DEVIATION)) ∨
      ((buf.getD i 0 : Nat) : Int) <
        toInt16 (u32 (buf.sum / ADC_BUFFER_LENGTH + 4294967296 - ADC_MAX_DEVIATION)) := by
  rintro ⟨i, hi, hbad⟩
  have h := hin _ (mem_of_index buf hok i hi)
  simp only [toInt16, u32, ADC_MAX_DEVIATION, ADC_BUFFER_LENGTH] at *
  split_ifs at hbad <;> omega

/-- The path of `adc_complete` for an ordinary temperature burst (`tip_check_flag = RESET`,
tip detected) on a well-formed buffer. -/
theorem adc_complete_reading (s : State) (hok : buffer_ok s.adc_buffer)
    (hflag : s.tip_check_flag = RESET) (htip : s.tip_state = TIP_DETECTED) :
    adc_complete s =
      { (if (adc_deviation_check (adc_to_temperature
              { s with adc_buffer_average := s.adc_buffer.sum / ADC_BUFFER_LENGTH })).error_flag
            = SET then
          error_handler
            { adc_deviation_check (adc_to_temperature
                { s with adc_buffer_average := s.adc_buffer.sum / ADC_BUFFER_LENGTH })
              with tip_temp := ADC_READING_ERROR }
        else if s.system_state = ON_STATE ∨ s.system_state = STANDBY_STATE then
          power_control (adc_deviation_check (adc_to_temperature
            { s with adc_buffer_average := s.adc_buffer.sum / ADC_BUFFER_LENGTH }))
        else
          adc_deviation_check (adc_to_temperature
            { s with adc_buffer_average := s.adc_buffer.sum / ADC_BUFFER_LENGTH }))
        with power_bar_value :=
          (if (adc_deviation_check (adc_to_temperature
              { s with adc_buffer_average := s.adc_buffer.sum / ADC_BUFFER_LENGTH })).error_flag
            = SET then
          error_handler
            { adc_deviation_check (adc_to_temperature
                { s with adc_buffer_average := s.adc_buffer.sum / ADC_BUFFER_LENGTH })
              with tip_temp := ADC_READING_ERROR }
        else if s.system_state = ON_STATE ∨ s.system_state = STANDBY_STATE then
          power_control (adc_deviation_check (adc_to_temperature
            { s with adc_buffer_average := s.adc_buffer.sum / ADC_BUFFER_LENGTH }))
        else
          adc_deviation_check (adc_to_temperature
            { s with adc_buffer_average := s.adc_buffer.sum / ADC_BUFFER_LENGTH })).on_periods } := by
  have hne : ¬ (RESET = SET) := by decide
  have hsys : get_system_state (adc_deviation_check (adc_to_temperature
      { s with adc_buffer_average := s.adc_buffer.sum / ADC_BUFFER_LENGTH })) = s.system_state := by
    rw [adc_deviation_check_eq]
    rfl
  have hnf : ¬ (s.tip_check_flag = SET) := by
    rw [hflag]
    exact hne
  unfold adc_complete
  rw [adc_calculate_buffer_average_eq s hok]
  dsimp only
  rw [if_neg hnf, if_pos ⟨hflag, htip⟩, hsys]

/-- An ordinary temperature burst in which some sample is beyond one of the two
`int16_t` limits ends in the error response with the sentinel temperature. -/
theorem adc_complete_flagged (s : State) (hok : buffer_ok s.adc_buffer)
    (hflag : s.tip_check_flag = RESET) (htip : s.tip_state = TIP_DETECTED)
    (hd : ∃ i ∈ List.range ADC_BUFFER_LENGTH,
      ((s.adc_buffer.getD i 0 : Nat) : Int) >
        toInt16 (u32 (s.adc_buffer.sum / ADC_BUFFER_LENGTH + ADC_MAX_DEVIATION)) ∨
      ((s.adc_buffer.getD i 0 : Nat) : Int) <
        toInt16 (u32 (s.adc_buffer.sum / ADC_BUFFER_LENGTH + 4294967296 - ADC_MAX_DEVIATION))) :
    adc_complete s =
      { error_handler { s with adc_buffer_average := s.adc_buffer.sum / ADC_BUFFER_LENGTH,
                               tip_temp := ADC_READING_ERROR } with power_bar_value := 0 } := by
  have hcheck : adc_deviation_check (adc_to_temperature
      { s with adc_buffer_average := s.adc_buffer.sum / ADC_BUFFER_LENGTH }) =
      { adc_to_temperature { s with adc_buffer_average := s.adc_buffer.sum / ADC_BUFFER_LENGTH }
        with error_flag := SET } := by
    rw [adc_deviation_check_eq]
    dsimp only [adc_to_temperature]
    rw [if_pos hd]
  rw [adc_complete_reading s hok hflag htip, hcheck]
  simp [error_handler, heater_off, heater_write, emit, adc_to_temperature]

/-- C7: on a burst of 50 16-bit samples of which at least one lies outside
`[average - 200, average + 200]`, an `adc_complete` with `tip_check_flag = RESET` and
`tip_state = TIP_DETECTED` returns with `tip_temp = ADC_READING_ERROR = 999`,
`on_periods = 0` and `tip_state = TIP_CHECK_ERROR`; the result is the error response
alone, whatever the set temperature and the system state, so the power control law did
not run. -/
theorem adc_complete_deviation_error (s : State) (hok : buffer_ok s.adc_buffer)
    (hflag : s.tip_check_flag = RESET) (htip : s.tip_state = TIP_DETECTED)
    (hdev : ∃ x ∈ s.adc_buffer,
      ((x : Nat) : Int) < ((s.adc_buffer.sum / ADC_BUFFER_LENGTH : Nat) : Int) - 200 ∨
      ((x : Nat) : Int) > ((s.adc_buffer.sum / ADC_BUFFER_LENGTH : Nat) : Int) + 200) :
    (adc_complete s).tip_temp = ADC_READING_ERROR ∧
    (adc_complete s).on_periods = 0 ∧
    (adc_complete s).tip_state = TIP_CHECK_ERROR ∧
    (adc_complete s).power_bar_value = 0 ∧
    (adc_complete s).heater_pin = OFF ∧
    (adc_complete s).error_flag = RESET ∧
    adc_complete s =
      { error_handler { s with adc_buffer_average := s.adc_buffer.sum / ADC_BUFFER_LENGTH,
                               tip_temp := ADC_READING_ERROR } with power_bar_value := 0 } := by
  rw [adc_complete_flagged s hok hflag htip (deviation_detected s.adc_buffer hok hdev)]
  simp [error_handler, heater_off, heater_write, emit]

/-- One sample of 2000 among 49 samples of 1000 (average 1020). -/
theorem adc_complete_deviation_error_witness :
    (adc_complete (burst RESET 4 (2000 :: List.replicate 49 1000))).tip_temp = 999 ∧
    (adc_complete (burst RESET 4 (2000 :: List.replicate 49 1000))).on_periods = 0 ∧
    (adc_complete (burst RESET 4 (2000 :: List.replicate 49 1000))).tip_state
      = TIP_CHECK_ERROR :=
  ⟨(adc_complete_deviation_error (burst RESET 4 (2000 :: List.replicate 49 1000))
      (by decide) (by decide) (by decide) ⟨2000, by decide, Or.inr (by decide)⟩).1,
   (adc_complete_deviation_error (burst RESET 4 (2000 :: List.replicate 49 1000))
      (by decide) (by decide) (by decide) ⟨2000, by decide, Or.inr (by decide)⟩).2.1,
   (adc_complete_deviation_error (burst RESET 4 (2000 :: List.replicate 49 1000))
      (by decide) (by decide) (by decide) ⟨2000, by decide, Or.inr (by decide)⟩).2.2.1⟩

/-- `power_law` writes `on_periods` and nothing else. -/
theorem power_law_frame (t c : Nat) (s : State) :
    power_law t c s = { s with on_periods := (power_law t c s).on_periods } := by
  simp only [power_law, heater_off]
  split_ifs <;> rfl

/-- C8, as stated, fails: a uniform burst of 50 samples of value 40000 has every sample
equal to the average, yet the upper limit `40200` becomes `-25336` as an `int16_t`, the
error flag is raised and the reading is replaced by the sentinel 999. -/
theorem uniform_buffer_counterexample :
    buffer_ok (List.replicate 50 40000) ∧
    (List.replicate 50 40000).sum / ADC_BUFFER_LENGTH = 40000 ∧
    (∀ x ∈ List.replicate 50 40000, 40000 - 200 ≤ x ∧ x ≤ 40000 + 200) ∧
    toInt16 (u32 (40000 + ADC_MAX_DEVIATION)) = -25336 ∧
    (adc_deviation_check (adc_to_temperature (adc_calculate_buffer_average
      (burst RESET 0 (List.replicate 50 40000))))).error_flag = SET ∧
    (adc_complete (burst RESET 0 (List.replicate 50 40000))).tip_temp = ADC_READING_ERROR ∧
    (adc_complete (burst RESET 0 (List.replicate 50 40000))).tip_state = TIP_CHECK_ERROR := by
  have hok : buffer_ok (burst RESET 0 (List.replicate 50 40000)).adc_buffer := by decide
  have hd : ∃ i ∈ List.range ADC_BUFFER_LENGTH,
      (((burst RESET 0 (List.replicate 50 40000)).adc_buffer.getD i 0 : Nat) : Int) >
        toInt16 (u32 ((burst RESET 0 (List.replicate 50 40000)).adc_buffer.sum
          / ADC_BUFFER_LENGTH + ADC_MAX_DEVIATION)) ∨
      (((burst RESET 0 (List.replicate 50 40000)).adc_buffer.getD i 0 : Nat) : Int) <
        toInt16 (u32 ((burst RESET 0 (List.replicate 50 40000)).adc_buffer.sum
          / ADC_BUFFER_LENGTH + 4294967296 - ADC_MAX_DEVIATION)) :=
    ⟨0, by decide, Or.inl (by decide)⟩
  refine ⟨by decide, by decide, by decide, by decide, ?_, ?_, ?_⟩
  · rw [adc_calculate_buffer_average_eq _ hok, adc_deviation_check_eq]
    dsimp only [adc_to_temperature]
    rw [if_pos hd]
  · rw [adc_complete_flagged _ hok (by decide) (by decide) hd]
    rfl
  · rw [adc_complete_flagged _ hok (by decide) (by decide) hd]
    rfl

/-- An ordinary temperature burst in which no sample is beyond a limit and the error
flag was not already raised: the reading is converted and, in `ON_STATE` and
`STANDBY_STATE`, handed to the power law. -/
theorem adc_complete_unflagged (s : State) (hok : buffer_ok s.adc_buffer)
    (hflag : s.tip_check_flag = RESET) (htip : s.tip_state = TIP_DETECTED)
    (herr : s.error_flag ≠ SET)
    (hd : ¬ ∃ i ∈ List.range ADC_BUFFER_LENGTH,
      ((s.adc_buffer.getD i 0 : Nat) : Int) >
        toInt16 (u32 (s.adc_buffer.sum / ADC_BUFFER_LENGTH + ADC_MAX_DEVIATION)) ∨
      ((s.adc_buffer.getD i 0 : Nat) : Int) <
        toInt16 (u32 (s.adc_buffer.sum / ADC_BUFFER_LENGTH + 4294967296 - ADC_MAX_DEVIATION))) :
    adc_complete s =
      { (if s.system_state = ON_STATE ∨ s.system_state = STANDBY_STATE then
          power_control (adc_to_temperature
            { s with adc_buffer_average := s.adc_buffer.sum / ADC_BUFFER_LENGTH })
        else
          adc_to_temperature
            { s with adc_buffer_average := s.adc_buffer.sum / ADC_BUFFER_LENGTH })
        with power_bar_value :=
          (if s.system_state = ON_STATE ∨ s.system_state = STANDBY_STATE then
            power_control (adc_to_temperature
              { s with adc_buffer_average := s.adc_buffer.sum / ADC_BUFFER_LENGTH })
          else
            adc_to_temperature
              { s with adc_buffer_average := s.adc_buffer.sum / ADC_BUFFER_LENGTH }).on_periods } := by
  have hcheck : adc_deviation_check (adc_to_temperature
      { s with adc_buffer_average := s.adc_buffer.sum / ADC_BUFFER_LENGTH }) =
      adc_to_temperature { s with adc_buffer_average := s.adc_buffer.sum / ADC_BUFFER_LENGTH } := by
    rw [adc_deviation_check_eq]
    dsimp only [adc_to_temperature]
    rw [if_neg hd]
  have herr2 : ¬ ((adc_to_temperature
      { s with adc_buffer_average := s.adc_buffer.sum / ADC_BUFFER_LENGTH }).error_flag = SET) := herr
  rw [adc_complete_reading s hok hflag htip, hcheck, if_neg herr2]

theorem sum_replicate_div (v : Nat) :
    (List.replicate ADC_BUFFER_LENGTH v).sum / ADC_BUFFER_LENGTH = v := by
  rw [List.sum_replicate]
  simp [ADC_BUFFER_LENGTH]

/-- C8, amended: when every sample of a 50-sample burst lies within
`[average - 200, average + 200]` and the average is at most 32567 (so that
`average + 200` fits the `int16_t` limit), `adc_deviation_check` leaves the error flag as
it was; an ordinary temperature burst (flag clear, tip detected) then ends with
`tip_temp = floor (average * 100 / 750) + 25`, no error response, and this value differs
from the sentinel 999 whenever the average is below 7305.  In particular a uniform
buffer of any sample value up to 32567 never raises the flag. -/
theorem adc_complete_valid_reading (s : State) (hok : buffer_ok s.adc_buffer)
    (havg : s.adc_buffer.sum / ADC_BUFFER_LENGTH ≤ 32567)
    (hin : ∀ x ∈ s.adc_buffer,
      ((s.adc_buffer.sum / ADC_BUFFER_LENGTH : Nat) : Int) - 200 ≤ ((x : Nat) : Int) ∧
      ((x : Nat) : Int) ≤ ((s.adc_buffer.sum / ADC_BUFFER_LENGTH : Nat) : Int) + 200) :
    (adc_deviation_check (adc_to_temperature (adc_calculate_buffer_average s))).error_flag
      = s.error_flag ∧
    (s.tip_check_flag = RESET → s.tip_state = TIP_DETECTED → s.error_flag ≠ SET →
      (adc_complete s).tip_temp = s.adc_buffer.sum / ADC_BUFFER_LENGTH * 100 / 750 + 25 ∧
      (adc_complete s).error_flag = s.error_flag ∧
      (adc_complete s).tip_state = TIP_DETECTED ∧
      (s.adc_buffer.sum / ADC_BUFFER_LENGTH < 7305 →
        (adc_complete s).tip_temp ≠ ADC_READING_ERROR)) ∧
    (∀ v : Nat, v ≤ 32567 →
      (adc_deviation_check (adc_to_temperature (adc_calculate_buffer_average
        { s with adc_buffer := List.replicate ADC_BUFFER_LENGTH v }))).error_flag
        = s.error_flag) := by
  have hd := deviation_not_detected s.adc_buffer hok havg hin
  have hconv : u16 (u32 (u32 (s.adc_buffer.sum / ADC_BUFFER_LENGTH * 100) / 750 + 25)) =
      s.adc_buffer.sum / ADC_BUFFER_LENGTH * 100 / 750 + 25 := by
    generalize s.adc_buffer.sum / ADC_BUFFER_LENGTH = a at havg
    have h1 : a * 100 % 4294967296 = a * 100 := Nat.mod_eq_of_lt (by omega)
    have h2 : (a * 100 / 750 + 25) % 4294967296 = a * 100 / 750 + 25 :=
      Nat.mod_eq_of_lt (by omega)
    have h3 : (a * 100 / 750 + 25) % 65536 = a * 100 / 750 + 25 :=
      Nat.mod_eq_of_lt (by omega)
    simp only [u16, u32, h1, h2, h3]
  refine ⟨?_, ?_, ?_⟩
  · rw [adc_calculate_buffer_average_eq s hok, adc_deviation_check_eq]
    dsimp only [adc_to_temperature]
    rw [if_neg hd]
  · intro hflag htip herr
    rw [adc_complete_unflagged s hok hflag htip herr hd]
    have htemp : (if s.system_state = ON_STATE ∨ s.system_state = STANDBY_STATE then
          power_control (adc_to_temperature
            { s with adc_buffer_average := s.adc_buffer.sum / ADC_BUFFER_LENGTH })
        else
          adc_to_temperature
            { s with adc_buffer_average := s.adc_buffer.sum / ADC_BUFFER_LENGTH }).tip_temp
        = s.adc_buffer.sum / ADC_BUFFER_LENGTH * 100 / 750 + 25 := by
      split_ifs
      · rw [power_control, power_law_frame]
        exact hconv
      · exact hconv
    refine ⟨htemp, ?_, ?_, ?_⟩
    · split_ifs
      · rw [power_control, power_law_frame]
        rfl
      · rfl
    · split_ifs
      · rw [power_control, power_law_frame]
        exact htip
      · exact htip
    · intro hlt
      show (if s.system_state = ON_STATE ∨ s.system_state = STANDBY_STATE then
          power_control (adc_to_temperature
            { s with adc_buffer_average := s.adc_buffer.sum / ADC_BUFFER_LENGTH })
        else
          adc_to_temperature
            { s with adc_buffer_average := s.adc_buffer.sum / ADC_BUFFER_LENGTH }).tip_temp
        ≠ ADC_READING_ERROR
      rw [htemp]
      simp only [ADC_READING_ERROR, ADC_BUFFER_LENGTH] at hlt ⊢
      omega
  · intro v hv
    have hokv : buffer_ok (List.replicate ADC_BUFFER_LENGTH v) :=
      ⟨List.length_replicate _ _, fun x hx => by
        rw [List.eq_of_mem_replicate hx]
        omega⟩
    have hinv : ∀ x ∈ List.replicate ADC_BUFFER_LENGTH v,
        (((List.replicate ADC_BUFFER_LENGTH v).sum / ADC_BUFFER_LENGTH : Nat) : Int) - 200
          ≤ ((x : Nat) : Int) ∧
        ((x : Nat) : Int)
          ≤ (((List.replicate ADC_BUFFER_LENGTH v).sum / ADC_BUFFER_LENGTH : Nat) : Int) + 200 := by
      intro x hx
      rw [List.eq_of_mem_replicate hx, sum_replicate_div]
      omega
    have hdv := deviation_not_detected (List.replicate ADC_BUFFER_LENGTH v) hokv
      (by rw [sum_replicate_div]; exact hv) hinv
    rw [adc_calculate_buffer_average_eq _ hokv, adc_deviation_check_eq]
    dsimp only [adc_to_temperature]
    rw [if_neg hdv]

/-- A uniform burst of 3500 converts to 491 degrees; a burst with samples 100 below and
100 above the average raises no flag. -/
theorem adc_complete_valid_reading_witness :
    (adc_complete (burst RESET 0 (List.replicate 50 3500))).tip_temp = 491 ∧
    (adc_complete (burst RESET 0 (List.replicate 50 3500))).tip_state = TIP_DETECTED ∧
    (adc_deviation_check (adc_to_temperature (adc_calculate_buffer_average
      (burst RESET 0 (3400 :: 3600 :: List.replicate 48 3500))))).error_flag = RESET := by
  have h := (adc_complete_valid_reading (burst RESET 0 (List.replicate 50 3500))
    (by decide) (by decide) (by decide)).2.1 (by decide) (by decide) (by decide)
  have h2 := (adc_complete_valid_reading (burst RESET 0 (3400 :: 3600 :: List.replicate 48 3500))
    (by decide) (by decide) (by decide)).1
  refine ⟨?_, h.2.2.1, h2⟩
  rw [h.1]
  decide

/-! ## Schedule invariant -/

theorem adc_calculate_buffer_average_frame (s : State) :
    adc_calculate_buffer_average s =
      { s with adc_buffer_average := (adc_calculate_buffer_average s).adc_buffer_average } := by
  simp only [adc_calculate_buffer_average, average_loop_state]

theorem adc_deviation_check_frame (s : State) :
    adc_deviation_check s = { s with error_flag := (adc_deviation_check s).error_flag } := by
  rw [adc_deviation_check_eq]

theorem adc_complete_schedule (s : State) (h : s.on_periods ≤ MAX_ON_PERIODS) :
    (adc_complete s).on_periods ≤ MAX_ON_PERIODS ∧
    (adc_complete s).power_bar_value = (adc_complete s).on_periods := by
  refine ⟨?_, rfl⟩
  have h1 : (adc_calculate_buffer_average s).on_periods ≤ MAX_ON_PERIODS := by
    rw [adc_calculate_buffer_average_frame]
    exact h
  have h3 : (adc_deviation_check
      (adc_to_temperature (adc_calculate_buffer_average s))).on_periods ≤ MAX_ON_PERIODS := by
    rw [adc_deviation_check_frame]
    exact h1
  unfold adc_complete
  dsimp only
  generalize adc_deviation_check (adc_to_temperature (adc_calculate_buffer_average s)) = s3
    at h3 ⊢
  generalize adc_calculate_buffer_average s = s1 at h1 ⊢
  split_ifs
  · simp only [tip_check, emit, ne_eq, not_true_eq_false, if_false]
    split_ifs <;> exact h1
  · exact Nat.zero_le _
  · exact power_law_on_periods_le _ _ _
  · exact h3
  · exact h1

/-- A call of `state_machine` never raises the on-count and never touches the power-bar
copy. -/
theorem state_machine_schedule (now : Nat) (s : State) :
    (state_machine now s).on_periods ≤ s.on_periods ∧
    (state_machine now s).power_bar_value = s.power_bar_value := by
  by_cases hw : now > get_ac_delay_tick s
  · simp only [state_machine, if_pos hw, error_handler, heater_off, heater_write, emit,
      display_message]
    exact ⟨Nat.zero_le _, trivial⟩
  by_cases h0 : s.system_state = INIT_STATE
  · simp only [state_machine, if_neg hw, if_pos h0, heater_off, emit, draw_default_display]
    exact ⟨Nat.zero_le _, trivial⟩
  by_cases h1 : s.system_state = TIP_CHANGE_STATE
  · simp only [state_machine, if_neg hw, if_neg h0, if_pos h1, heater_off, emit,
      draw_default_display, display_message, update_display]
    split_ifs <;> exact ⟨Nat.zero_le _, rfl⟩
  by_cases h2 : s.system_state = OFF_STATE
  · simp only [state_machine, if_neg hw, if_neg h0, if_neg h1, if_pos h2, heater_off, emit,
      update_display]
    split_ifs <;> exact ⟨Nat.zero_le _, rfl⟩
  by_cases h3 : s.system_state = ON_STATE
  · simp only [state_machine, if_neg hw, if_neg h0, if_neg h1, if_neg h2, if_pos h3, emit,
      update_display]
    split_ifs <;> exact ⟨le_refl _, rfl⟩
  by_cases h4 : s.system_state = STANDBY_STATE
  · simp only [state_machine, if_neg hw, if_neg h0, if_neg h1, if_neg h2, if_neg h3, if_pos h4,
      emit, update_display]
    split_ifs <;> exact ⟨le_refl _, rfl⟩
  by_cases h5 : s.system_state = ERROR_STATE
  · simp only [state_machine, if_neg hw, if_neg h0, if_neg h1, if_neg h2, if_neg h3, if_neg h4,
      if_pos h5, error_handler, heater_off, heater_write, emit]
    exact ⟨Nat.zero_le _, trivial⟩
  · simp only [state_machine, if_neg hw, if_neg h0, if_neg h1, if_neg h2, if_neg h3, if_neg h4,
      if_neg h5]
    exact ⟨le_refl _, trivial⟩

theorem timer_interrupt_schedule (htim : Timer) (s : State) (h : s.on_periods ≤ MAX_ON_PERIODS) :
    (timer_interrupt htim s).on_periods ≤ s.on_periods ∧
    (timer_interrupt htim s).power_bar_value = s.power_bar_value := by
  cases htim with
  | htim6 =>
    simp only [timer_interrupt, heater_write, emit]
    split_ifs with hc
    · refine ⟨?_, rfl⟩
      show u8 (s.on_periods + 256 - 1) ≤ s.on_periods
      have h1 := hc.1
      simp only [MAX_ON_PERIODS] at h
      unfold u8
      omega
    · exact ⟨le_refl _, rfl⟩
  | htim7 =>
    simp only [timer_interrupt, heater_off, emit, start_adc]
    split_ifs <;> first | exact ⟨le_refl _, rfl⟩ | exact ⟨Nat.zero_le _, rfl⟩
  | other => exact ⟨le_refl _, rfl⟩

theorem step_schedule_ok (e : Event) (s : State) (h : schedule_ok s) : schedule_ok (step e s) := by
  cases e with
  | zerocross now pin =>
    simp only [step, zerocross_interrupt, emit]
    split_ifs
    · exact h
    · exact h
  | timer htim =>
    have ht := timer_interrupt_schedule htim s h.1
    exact ⟨le_trans ht.1 h.1, by rw [step, ht.2]; exact h.2⟩
  | adc_complete buf =>
    have ha := adc_complete_schedule { s with adc_buffer := buf } h.1
    exact ⟨ha.1, by rw [step, ha.2]; exact ha.1⟩
  | power_control =>
    refine ⟨power_law_on_periods_le _ _ _, ?_⟩
    rw [step, power_control, power_law_frame]
    exact h.2
  | tip_check =>
    simp only [step, tip_check, error_handler, heater_off, heater_write, emit]
    split_ifs
    · exact ⟨Nat.zero_le _, h.2⟩
    · exact h
    · exact h
    · exact h
  | heater_off => exact ⟨Nat.zero_le _, h.2⟩
  | error_handler => exact ⟨Nat.zero_le _, h.2⟩
  | set_new_temp v => exact h
  | inputs a b => exact h
  | state_machine now =>
    have hs := state_machine_schedule now s
    exact ⟨le_trans hs.1 h.1, by rw [step, hs.2]; exact h.2⟩

theorem run_schedule_ok (es : List Event) (s : State) (h : schedule_ok s) :
    schedule_ok (run es s) := by
  induction es generalizing s with
  | nil => exact h
  | cons e r ih => exact ih (step e s) (step_schedule_ok e s h)

/-- C10: `on_periods ≤ MAX_ON_PERIODS = 4` (with the power-bar copy) holds initially and
is kept by every operation: the zero-cross handler, `timer_interrupt` for TIM6 and TIM7,
`adc_complete` on any buffer, `power_control`, `tip_check`, `heater_off`,
`error_handler`, `set_new_temp` and `state_machine`; the 8-bit decrement in the TIM6
branch never wraps (the on-count does not grow); hence after any sequence of operations
`get_power_bar_value` is at most `MAX_ON_PERIODS`. -/
theorem schedule_invariant (s : State) (h : schedule_ok s) :
    schedule_ok init ∧
    (∀ e : Event, schedule_ok (step e s)) ∧
    (timer_interrupt Timer.htim6 s).on_periods ≤ s.on_periods ∧
    (∀ es : List Event, schedule_ok (run es s) ∧
      get_power_bar_value (run es s) ≤ MAX_ON_PERIODS) :=
  ⟨by decide, fun e => step_schedule_ok e s h, (timer_interrupt_schedule Timer.htim6 s h.1).1,
   fun es => ⟨run_schedule_ok es s h, (run_schedule_ok es s h).2⟩⟩

/-- The initial state, and the power bar after one mains half-cycle with a read phase. -/
theorem schedule_invariant_witness :
    schedule_ok init ∧
    get_power_bar_value (run [Event.state_machine 0, Event.zerocross 0 ZERO_CROSS_Pin,
      Event.timer Timer.htim6, Event.timer Timer.htim7, Event.timer Timer.htim7,
      Event.adc_complete (List.replicate 50 1000)] init) ≤ MAX_ON_PERIODS :=
  ⟨(schedule_invariant init (by decide)).1,
   ((schedule_invariant init (by decide)).2.2.2 _).2⟩

/-! ## State machine: one lemma per `case` -/

theorem state_machine_init (now : Nat) (s : State) (hw : ¬ now > get_ac_delay_tick s)
    (h : s.system_state = INIT_STATE) :
    state_machine now s =
      { draw_default_display (heater_off s) with system_state := TIP_CHANGE_STATE } := by
  simp only [state_machine, if_neg hw, if_pos h]

theorem state_machine_tip_change (now : Nat) (s : State) (hw : ¬ now > get_ac_delay_tick s)
    (h : s.system_state = TIP_CHANGE_STATE) :
    state_machine now s =
      update_display
        (if get_tip_state s ≠ TIP_DETECTED then
          display_message (get_tip_state s)
            { heater_off s with tip_insert_delay_tick_ms := u32 (now + TIP_CHANGE_DELAY_MS) }
        else if get_tip_state s = TIP_DETECTED ∧ now > s.tip_insert_delay_tick_ms
            ∧ s.tip_change_state = 0 then
          { draw_default_display (heater_off s) with system_state := OFF_STATE }
        else heater_off s) := by
  have h0 : ¬ s.system_state = INIT_STATE := by
    rw [h]
    decide
  simp only [state_machine, if_neg hw, if_neg h0, if_pos h]
  rfl

theorem state_machine_off (now : Nat) (s : State) (hw : ¬ now > get_ac_delay_tick s)
    (h : s.system_state = OFF_STATE) :
    state_machine now s =
      update_display
        (if s.tip_change_state ≠ 0 ∨ get_tip_state s ≠ TIP_DETECTED then
          { heater_off s with system_state := TIP_CHANGE_STATE }
        else if s.tool_holder_state = 0 then
          { heater_off s with system_state := ON_STATE }
        else heater_off s) := by
  have h0 : ¬ s.system_state = INIT_STATE := by
    rw [h]
    decide
  have h1 : ¬ s.system_state = TIP_CHANGE_STATE := by
    rw [h]
    decide
  simp only [state_machine, if_neg hw, if_neg h0, if_neg h1, if_pos h]
  rfl

theorem state_machine_on (now : Nat) (s : State) (hw : ¬ now > get_ac_delay_tick s)
    (h : s.system_state = ON_STATE) :
    state_machine now s =
      update_display
        (if s.tip_change_state ≠ 0 ∨ get_tip_state s ≠ TIP_DETECTED then
          { s with system_state := TIP_CHANGE_STATE }
        else if s.tool_holder_state ≠ 0 then
          { s with standby_timeout_tick_ms := u32 (now + STANDBY_TIME_S * 1000),
                   system_state := STANDBY_STATE }
        else s) := by
  have h0 : ¬ s.system_state = INIT_STATE := by
    rw [h]
    decide
  have h1 : ¬ s.system_state = TIP_CHANGE_STATE := by
    rw [h]
    decide
  have h2 : ¬ s.system_state = OFF_STATE := by
    rw [h]
    decide
  simp only [state_machine, if_neg hw, if_neg h0, if_neg h1, if_neg h2, if_pos h]

theorem state_machine_standby (now : Nat) (s : State) (hw : ¬ now > get_ac_delay_tick s)
    (h : s.system_state = STANDBY_STATE) :
    state_machine now s =
      update_display
        (if s.tip_change_state ≠ 0 ∨ get_tip_state s ≠ TIP_DETECTED then
          { s with system_state := TIP_CHANGE_STATE }
        else if s.tool_holder_state = 0 then
          { s with system_state := ON_STATE }
        else if now > s.standby_timeout_tick_ms then
          { s with system_state := OFF_STATE }
        else s) := by
  have h0 : ¬ s.system_state = INIT_STATE := by
    rw [h]
    decide
  have h1 : ¬ s.system_state = TIP_CHANGE_STATE := by
    rw [h]
    decide
  have h2 : ¬ s.system_state = OFF_STATE := by
    rw [h]
    decide
  have h3 : ¬ s.system_state = ON_STATE := by
    rw [h]
    decide
  simp only [state_machine, if_neg hw, if_neg h0, if_neg h1, if_neg h2, if_neg h3, if_pos h]

theorem state_machine_error (now : Nat) (s : State) (hw : ¬ now > get_ac_delay_tick s)
    (h : s.system_state = ERROR_STATE) :
    state_machine now s = { error_handler s with system_state := INIT_STATE } := by
  have h0 : ¬ s.system_state = INIT_STATE := by
    rw [h]
    decide
  have h1 : ¬ s.system_state = TIP_CHANGE_STATE := by
    rw [h]
    decide
  have h2 : ¬ s.system_state = OFF_STATE := by
    rw [h]
    decide
  have h3 : ¬ s.system_state = ON_STATE := by
    rw [h]
    decide
  have h4 : ¬ s.system_state = STANDBY_STATE := by
    rw [h]
    decide
  simp only [state_machine, if_neg hw, if_neg h0, if_neg h1, if_neg h2, if_neg h3, if_neg h4,
    if_pos h]

theorem state_machine_unmapped (now : Nat) (s : State) (hw : ¬ now > get_ac_delay_tick s)
    (h : s.system_state > ERROR_STATE) :
    state_machine now s = { s with system_state := ERROR_STATE } := by
  simp only [ERROR_STATE] at h
  have h0 : ¬ s.system_state = INIT_STATE := by
    simp only [INIT_STATE]
    omega
  have h1 : ¬ s.system_state = TIP_CHANGE_STATE := by
    simp only [TIP_CHANGE_STATE]
    omega
  have h2 : ¬ s.system_state = OFF_STATE := by
    simp only [OFF_STATE]
    omega
  have h3 : ¬ s.system_state = ON_STATE := by
    simp only [ON_STATE]
    omega
  have h4 : ¬ s.system_state = STANDBY_STATE := by
    simp only [STANDBY_STATE]
    omega
  have h5 : ¬ s.system_state = ERROR_STATE := by
    simp only [ERROR_STATE]
    omega
  simp only [state_machine, if_neg hw, if_neg h0, if_neg h1, if_neg h2, if_neg h3, if_neg h4,
    if_neg h5]

/-! ## State machine: transition table -/

/-- The rows of the transition table for Off, On and Standby: with the watchdog passing,
from each of the three, a pending tip-change trigger or a tip state other than
`TIP_DETECTED` gives `TIP_CHANGE_STATE`, whatever the holder sensor says.  Otherwise Off
goes to On iff the tool is out of the holder; On goes to Standby iff the tool is in the
holder, and exactly then the standby timeout becomes `now + STANDBY_TIME_S * 1000` modulo
2^32 (the plain sum only when it fits in 32 bits); Standby goes to On when the tool is
out of the holder, else to Off iff `now` is past the standby timeout, else stays. -/
theorem state_machine_operating_transitions (now : Nat) (s : State)
    (hw : ¬ now > get_ac_delay_tick s) :
    (s.system_state = OFF_STATE →
      (state_machine now s).system_state =
        (if s.tip_change_state ≠ 0 ∨ get_tip_state s ≠ TIP_DETECTED then TIP_CHANGE_STATE
         else if s.tool_holder_state = 0 then ON_STATE
         else OFF_STATE) ∧
      (state_machine now s).standby_timeout_tick_ms = s.standby_timeout_tick_ms) ∧
    (s.system_state = ON_STATE →
      (state_machine now s).system_state =
        (if s.tip_change_state ≠ 0 ∨ get_tip_state s ≠ TIP_DETECTED then TIP_CHANGE_STATE
         else if s.tool_holder_state ≠ 0 then STANDBY_STATE
         else ON_STATE) ∧
      (state_machine now s).standby_timeout_tick_ms =
        (if ¬ (s.tip_change_state ≠ 0 ∨ get_tip_state s ≠ TIP_DETECTED) ∧
            s.tool_holder_state ≠ 0 then
          u32 (now + STANDBY_TIME_S * 1000)
         else s.standby_timeout_tick_ms) ∧
      (now + STANDBY_TIME_S * 1000 < 4294967296 →
        u32 (now + STANDBY_TIME_S * 1000) = now + STANDBY_TIME_S * 1000)) ∧
    (s.system_state = STANDBY_STATE →
      (state_machine now s).system_state =
        (if s.tip_change_state ≠ 0 ∨ get_tip_state s ≠ TIP_DETECTED then TIP_CHANGE_STATE
         else if s.tool_holder_state = 0 then ON_STATE
         else if now > s.standby_timeout_tick_ms then OFF_STATE
         else STANDBY_STATE) ∧
      (state_machine now s).standby_timeout_tick_ms = s.standby_timeout_tick_ms) := by
  refine ⟨?_, ?_, ?_⟩
  · intro h
    rw [state_machine_off now s hw h]
    simp only [update_display, emit, heater_off]
    split_ifs <;> first | exact ⟨rfl, rfl⟩ | exact ⟨h, rfl⟩
  · intro h
    have key := state_machine_on now s hw h
    refine ⟨?_, ?_, fun hlt => Nat.mod_eq_of_lt hlt⟩
    · rw [key]
      simp only [update_display, emit]
      split_ifs <;> first | rfl | exact h
    · by_cases c1 : s.tip_change_state ≠ 0 ∨ get_tip_state s ≠ TIP_DETECTED
      · rw [key, if_pos c1, if_neg (fun hh => hh.1 c1)]
        rfl
      · by_cases c2 : s.tool_holder_state ≠ 0
        · rw [key, if_neg c1, if_pos c2, if_pos ⟨c1, c2⟩]
          rfl
        · rw [key, if_neg c1, if_neg c2, if_neg (fun hh => c2 hh.2)]
          rfl
  · intro h
    rw [state_machine_standby now s hw h]
    simp only [update_display, emit]
    split_ifs <;> first | exact ⟨rfl, rfl⟩ | exact ⟨h, rfl⟩

/-- Scenario 1: On with tip not detected goes to TipChange; On with the tool parked goes to
Standby and arms the timeout 30000 ms after the tick. -/
theorem state_machine_operating_transitions_witness :
    (state_machine 5 (supervised ON_STATE TIP_NOT_DETECTED 0 0 12)).system_state
      = TIP_CHANGE_STATE ∧
    (state_machine 5 (supervised ON_STATE TIP_DETECTED 1 0 12)).system_state
      = STANDBY_STATE ∧
    (state_machine 5 (supervised ON_STATE TIP_DETECTED 1 0 12)).standby_timeout_tick_ms
      = 30005 := by
  have h1 := ((state_machine_operating_transitions 5
    (supervised ON_STATE TIP_NOT_DETECTED 0 0 12) (by decide)).2.1 (by decide)).1
  have h2 := (state_machine_operating_transitions 5
    (supervised ON_STATE TIP_DETECTED 1 0 12) (by decide)).2.1 (by decide)
  refine ⟨?_, ?_, ?_⟩
  · rw [h1]
    decide
  · rw [h2.1]
    decide
  · rw [h2.2.1]
    decide

/-- The rows of the transition table for TipChange: with the watchdog passing, a tick in
TipChange moves to Off exactly when the tip state is `TIP_DETECTED`, `now` is past the
insertion-delay deadline and no tip-change trigger is pending; in every other case the
state stays TipChange.  Whenever the tip state is not `TIP_DETECTED` the deadline is
re-armed to `now + TIP_CHANGE_DELAY_MS` modulo 2^32 (the plain sum only when it fits in
32 bits); otherwise it keeps its value. -/
theorem state_machine_tip_change_transitions (now : Nat) (s : State)
    (hw : ¬ now > get_ac_delay_tick s) (h : s.system_state = TIP_CHANGE_STATE) :
    ((state_machine now s).system_state = OFF_STATE ↔
      (get_tip_state s = TIP_DETECTED ∧ now > s.tip_insert_delay_tick_ms ∧
        s.tip_change_state = 0)) ∧
    (¬ (get_tip_state s = TIP_DETECTED ∧ now > s.tip_insert_delay_tick_ms ∧
        s.tip_change_state = 0) →
      (state_machine now s).system_state = TIP_CHANGE_STATE) ∧
    (get_tip_state s ≠ TIP_DETECTED →
      (state_machine now s).tip_insert_delay_tick_ms = u32 (now + TIP_CHANGE_DELAY_MS)) ∧
    (get_tip_state s = TIP_DETECTED →
      (state_machine now s).tip_insert_delay_tick_ms = s.tip_insert_delay_tick_ms) ∧
    (now + TIP_CHANGE_DELAY_MS < 4294967296 →
      u32 (now + TIP_CHANGE_DELAY_MS) = now + TIP_CHANGE_DELAY_MS) := by
  have key := state_machine_tip_change now s hw h
  have hne : ¬ (TIP_CHANGE_STATE = OFF_STATE) := by decide
  refine ⟨?_, ?_, ?_, ?_, fun hlt => Nat.mod_eq_of_lt hlt⟩
  · by_cases c1 : get_tip_state s ≠ TIP_DETECTED
    · rw [key, if_pos c1]
      constructor
      · intro hoff
        have hst : s.system_state = OFF_STATE := hoff
        rw [h] at hst
        exact absurd hst hne
      · intro hc
        exact absurd hc.1 c1
    · by_cases c2 : get_tip_state s = TIP_DETECTED ∧ now > s.tip_insert_delay_tick_ms
          ∧ s.tip_change_state = 0
      · rw [key, if_neg c1, if_pos c2]
        exact ⟨fun _ => c2, fun _ => rfl⟩
      · rw [key, if_neg c1, if_neg c2]
        constructor
        · intro hoff
          have hst : s.system_state = OFF_STATE := hoff
          rw [h] at hst
          exact absurd hst hne
        · intro hc
          exact absurd hc c2
  · intro hc
    by_cases c1 : get_tip_state s ≠ TIP_DETECTED
    · rw [key, if_pos c1]
      exact h
    · rw [key, if_neg c1, if_neg hc]
      exact h
  · intro c1
    rw [key, if_pos c1]
    rfl
  · intro c1
    have c1n : ¬ (get_tip_state s ≠ TIP_DETECTED) := fun hh => hh c1
    rw [key, if_neg c1n]
    split_ifs <;> rfl

/-- A tip detected for longer than the delay advances to Off; a missing tip re-arms the
deadline to 3000 ms after the tick and stays. -/
theorem state_machine_tip_change_transitions_witness :
    (state_machine 5 (supervised TIP_CHANGE_STATE TIP_DETECTED 0 0 12)).system_state
      = OFF_STATE ∧
    (state_machine 5 (supervised TIP_CHANGE_STATE TIP_NOT_DETECTED 0 0 12)).system_state
      = TIP_CHANGE_STATE ∧
    (state_machine 5
      (supervised TIP_CHANGE_STATE TIP_NOT_DETECTED 0 0 12)).tip_insert_delay_tick_ms
      = 3005 := by
  have h1 := (state_machine_tip_change_transitions 5
    (supervised TIP_CHANGE_STATE TIP_DETECTED 0 0 12) (by decide) (by decide)).1
  have h2 := state_machine_tip_change_transitions 5
    (supervised TIP_CHANGE_STATE TIP_NOT_DETECTED 0 0 12) (by decide) (by decide)
  refine ⟨h1.2 (by decide), h2.2.1 (by decide), ?_⟩
  rw [h2.2.2.1 (by decide)]
  decide

/-- C14: with the watchdog passing, a tick in Init always goes to TipChange (heater off,
default screen drawn); a tick in Error always goes to Init after the error response
(`on_periods = 0`, `tip_state = TIP_CHECK_ERROR`, heater pin low); a tick with any
`system_state` value beyond the six defined ones goes to Error. -/
theorem state_machine_unconditional_rows (now : Nat) (s : State)
    (hw : ¬ now > get_ac_delay_tick s) :
    (s.system_state = INIT_STATE →
      (state_machine now s).system_state = TIP_CHANGE_STATE ∧
      (state_machine now s).on_periods = 0 ∧
      (state_machine now s).hw = s.hw ++ [HwOp.draw_default_display]) ∧
    (s.system_state = ERROR_STATE →
      (state_machine now s).system_state = INIT_STATE ∧
      (state_machine now s).on_periods = 0 ∧
      (state_machine now s).tip_state = TIP_CHECK_ERROR ∧
      (state_machine now s).heater_pin = OFF) ∧
    (s.system_state > ERROR_STATE →
      (state_machine now s).system_state = ERROR_STATE) := by
  refine ⟨?_, ?_, ?_⟩
  · intro h
    rw [state_machine_init now s hw h]
    exact ⟨rfl, rfl, rfl⟩
  · intro h
    rw [state_machine_error now s hw h]
    exact ⟨rfl, rfl, rfl, rfl⟩
  · intro h
    rw [state_machine_unmapped now s hw h]

/-- Init, Error and the unmapped value 77 at tick 5 with the deadline at 12. -/
theorem state_machine_unconditional_rows_witness :
    (state_machine 5 (supervised INIT_STATE TIP_DETECTED 0 0 12)).system_state
      = TIP_CHANGE_STATE ∧
    (state_machine 5 (supervised ERROR_STATE TIP_DETECTED 0 0 12)).system_state
      = INIT_STATE ∧
    (state_machine 5 (supervised ERROR_STATE TIP_DETECTED 0 0 12)).tip_state
      = TIP_CHECK_ERROR ∧
    (state_machine 5 (supervised 77 TIP_DETECTED 0 0 12)).system_state = ERROR_STATE :=
  ⟨((state_machine_unconditional_rows 5 (supervised INIT_STATE TIP_DETECTED 0 0 12)
      (by decide)).1 (by decide)).1,
   ((state_machine_unconditional_rows 5 (supervised ERROR_STATE TIP_DETECTED 0 0 12)
      (by decide)).2.1 (by decide)).1,
   ((state_machine_unconditional_rows 5 (supervised ERROR_STATE TIP_DETECTED 0 0 12)
      (by decide)).2.1 (by decide)).2.2.1,
   (state_machine_unconditional_rows 5 (supervised 77 TIP_DETECTED 0 0 12)
      (by decide)).2.2 (by decide)⟩

/-! ## Variables owned by the state machine -/

theorem adc_complete_supervisor (s : State) :
    (adc_complete s).system_state = s.system_state ∧
    (adc_complete s).tip_insert_delay_tick_ms = s.tip_insert_delay_tick_ms ∧
    (adc_complete s).standby_timeout_tick_ms = s.standby_timeout_tick_ms := by
  have h1 : (adc_calculate_buffer_average s).system_state = s.system_state ∧
      (adc_calculate_buffer_average s).tip_insert_delay_tick_ms = s.tip_insert_delay_tick_ms ∧
      (adc_calculate_buffer_average s).standby_timeout_tick_ms
        = s.standby_timeout_tick_ms := by
    rw [adc_calculate_buffer_average_frame]
    exact ⟨rfl, rfl, rfl⟩
  have h3 : (adc_deviation_check
        (adc_to_temperature (adc_calculate_buffer_average s))).system_state = s.system_state ∧
      (adc_deviation_check
        (adc_to_temperature (adc_calculate_buffer_average s))).tip_insert_delay_tick_ms
        = s.tip_insert_delay_tick_ms ∧
      (adc_deviation_check
        (adc_to_temperature (adc_calculate_buffer_average s))).standby_timeout_tick_ms
        = s.standby_timeout_tick_ms := by
    rw [adc_deviation_check_frame]
    exact h1
  unfold adc_complete
  dsimp only
  generalize adc_deviation_check (adc_to_temperature (adc_calculate_buffer_average s)) = s3
    at h3 ⊢
  generalize adc_calculate_buffer_average s = s1 at h1 ⊢
  split_ifs
  · simp only [tip_check, emit, ne_eq, not_true_eq_false, if_false]
    split_ifs <;> exact h1
  · exact h3
  · rw [power_control, power_law_frame]
    exact h3
  · exact h3
  · exact h1

theorem timer_interrupt_supervisor (htim : Timer) (s : State) :
    (timer_interrupt htim s).system_state = s.system_state ∧
    (timer_interrupt htim s).tip_insert_delay_tick_ms = s.tip_insert_delay_tick_ms ∧
    (timer_interrupt htim s).standby_timeout_tick_ms = s.standby_timeout_tick_ms := by
  cases htim with
  | htim6 =>
    simp only [timer_interrupt, heater_write, emit]
    split_ifs <;> exact ⟨rfl, rfl, rfl⟩
  | htim7 =>
    simp only [timer_interrupt, heater_off, emit, start_adc]
    split_ifs <;> exact ⟨rfl, rfl, rfl⟩
  | other => exact ⟨rfl, rfl, rfl⟩

/-- Only `state_machine` writes `system_state` and the two delay deadlines. -/
theorem step_supervisor (e : Event) (s : State) (he : ∀ t, e ≠ Event.state_machine t) :
    (step e s).system_state = s.system_state ∧
    (step e s).tip_insert_delay_tick_ms = s.tip_insert_delay_tick_ms ∧
    (step e s).standby_timeout_tick_ms = s.standby_timeout_tick_ms := by
  cases e with
  | zerocross now pin =>
    simp only [step, zerocross_interrupt, emit]
    split_ifs <;> exact ⟨rfl, rfl, rfl⟩
  | timer htim => exact timer_interrupt_supervisor htim s
  | adc_complete buf => exact adc_complete_supervisor { s with adc_buffer := buf }
  | power_control =>
    rw [step, power_control, power_law_frame]
    exact ⟨rfl, rfl, rfl⟩
  | tip_check =>
    simp only [step, tip_check, error_handler, heater_off, heater_write, emit]
    split_ifs <;> exact ⟨rfl, rfl, rfl⟩
  | heater_off => exact ⟨rfl, rfl, rfl⟩
  | error_handler => exact ⟨rfl, rfl, rfl⟩
  | set_new_temp v => exact ⟨rfl, rfl, rfl⟩
  | inputs a b => exact ⟨rfl, rfl, rfl⟩
  | state_machine now => exact absurd rfl (he now)

theorem state_machine_watchdog_state (now : Nat) (s : State) (hw : now > get_ac_delay_tick s) :
    (state_machine now s).system_state = ERROR_STATE ∧
    (state_machine now s).tip_insert_delay_tick_ms = s.tip_insert_delay_tick_ms ∧
    (state_machine now s).on_periods = 0 := by
  simp only [state_machine, if_pos hw, error_handler, heater_off, heater_write, emit,
    display_message]
  exact ⟨trivial, trivial, trivial⟩

/-- A call of `state_machine` leaves the insertion-delay deadline alone or re-arms it to
`now + TIP_CHANGE_DELAY_MS`. -/
theorem state_machine_insert_delay (now : Nat) (s : State) :
    (state_machine now s).tip_insert_delay_tick_ms = s.tip_insert_delay_tick_ms ∨
    (state_machine now s).tip_insert_delay_tick_ms = u32 (now + TIP_CHANGE_DELAY_MS) := by
  by_cases hw : now > get_ac_delay_tick s
  · exact Or.inl (state_machine_watchdog_state now s hw).2.1
  by_cases h0 : s.system_state = INIT_STATE
  · rw [state_machine_init now s hw h0]
    exact Or.inl rfl
  by_cases h1 : s.system_state = TIP_CHANGE_STATE
  · rw [state_machine_tip_change now s hw h1]
    split_ifs
    · exact Or.inr rfl
    · exact Or.inl rfl
    · exact Or.inl rfl
  by_cases h2 : s.system_state = OFF_STATE
  · rw [state_machine_off now s hw h2]
    split_ifs <;> exact Or.inl rfl
  by_cases h3 : s.system_state = ON_STATE
  · rw [state_machine_on now s hw h3]
    split_ifs <;> exact Or.inl rfl
  by_cases h4 : s.system_state = STANDBY_STATE
  · rw [state_machine_standby now s hw h4]
    split_ifs <;> exact Or.inl rfl
  by_cases h5 : s.system_state = ERROR_STATE
  · rw [state_machine_error now s hw h5]
    exact Or.inl rfl
  · have hgt : s.system_state > ERROR_STATE := by
      simp only [INIT_STATE, TIP_CHANGE_STATE, OFF_STATE, ON_STATE, STANDBY_STATE, ERROR_STATE,
        gt_iff_lt] at *
      omega
    rw [state_machine_unmapped now s hw hgt]
    exact Or.inl rfl

/-! ## Insertion delay -/

theorem run_cons (e : Event) (es : List Event) (s : State) :
    run (e :: es) s = run es (step e s) := rfl

theorem run_append (es₁ es₂ : List Event) (s : State) :
    run (es₁ ++ es₂) s = run es₂ (run es₁ s) := by
  unfold run
  exact List.foldl_append _ _ _ _

theorem run_insert_delay_ge (lo : Nat) (es : List Event) (s : State)
    (hes : ∀ e ∈ es, tick_ok lo e = true)
    (h : lo + TIP_CHANGE_DELAY_MS ≤ s.tip_insert_delay_tick_ms) :
    lo + TIP_CHANGE_DELAY_MS ≤ (run es s).tip_insert_delay_tick_ms := by
  induction es generalizing s with
  | nil => exact h
  | cons e r ih =>
    rw [run_cons]
    apply ih (step e s) (fun x hx => hes x (List.mem_cons_of_mem e hx))
    have he := hes e (List.mem_cons_self e r)
    by_cases hsm : ∃ t, e = Event.state_machine t
    · obtain ⟨t, rfl⟩ := hsm
      simp only [tick_ok, Bool.and_eq_true, decide_eq_true_eq] at he
      have hu : u32 (t + TIP_CHANGE_DELAY_MS) = t + TIP_CHANGE_DELAY_MS :=
        Nat.mod_eq_of_lt he.2
      rcases state_machine_insert_delay t s with hd | hd
      · rw [step, hd]
        exact h
      · rw [step, hd, hu]
        omega
    · have hne : ∀ t, e ≠ Event.state_machine t := fun t ht => hsm ⟨t, ht⟩
      rw [(step_supervisor e s hne).2.1]
      exact h

set_option maxRecDepth 100000 in
/-- C13, as stated, fails.  From the initial state the tick at 5 ms finds Init with the tip
not detected and enters TipChange without arming the delay; a tip inserted during the next
51 half-cycles is detected by the tip check at 510 ms, and the tick at 520 ms advances to
Off although the tip was not detected at the tick 515 ms earlier.  Likewise a tick that
enters TipChange from On because the tip is not detected leaves the deadline as it was. -/
theorem insertion_delay_counterexample :
    (run [Event.zerocross 0 ZERO_CROSS_Pin] init).system_state = INIT_STATE ∧
    get_tip_state (run [Event.zerocross 0 ZERO_CROSS_Pin] init) = TIP_NOT_DETECTED ∧
    (run [Event.zerocross 0 ZERO_CROSS_Pin, Event.state_machine 5] init).system_state
      = TIP_CHANGE_STATE ∧
    (run ([Event.zerocross 0 ZERO_CROSS_Pin, Event.state_machine 5] ++ tip_inserted)
      init).system_state = TIP_CHANGE_STATE ∧
    get_tip_state (run ([Event.zerocross 0 ZERO_CROSS_Pin, Event.state_machine 5]
      ++ tip_inserted) init) = TIP_DETECTED ∧
    (run ([Event.zerocross 0 ZERO_CROSS_Pin, Event.state_machine 5] ++ tip_inserted
      ++ [Event.state_machine 520]) init).system_state = OFF_STATE ∧
    520 < 5 + TIP_CHANGE_DELAY_MS ∧
    (state_machine 5 (supervised ON_STATE TIP_NOT_DETECTED 0 0 12)).system_state
      = TIP_CHANGE_STATE ∧
    (state_machine 5 (supervised ON_STATE TIP_NOT_DETECTED 0 0 12)).tip_insert_delay_tick_ms
      = 0 := by
  decide

/-- C13, amended: a tick executed in TipChange at time `t1` that finds the tip not detected
arms the insertion delay, and no later tick advances from TipChange to Off until more than
`TIP_CHANGE_DELAY_MS` after it: for every sequence of events after that tick whose
state-machine ticks are not earlier than `t1` and lie more than 3000 ms before the 32-bit
tick wraps, a tick at `t2` that advances from TipChange to Off has `t2 > t1 + 3000`.  (The
tick that enters TipChange from Init, Off, On or Standby does not arm the delay.) -/
theorem insertion_delay_respected (s : State) (t1 t2 : Nat) (es : List Event)
    (hs : s.system_state = TIP_CHANGE_STATE)
    (hw : ¬ t1 > get_ac_delay_tick s)
    (htip : get_tip_state s ≠ TIP_DETECTED)
    (hwrap : t1 + TIP_CHANGE_DELAY_MS < 4294967296)
    (hes : ∀ e ∈ es, tick_ok t1 e = true)
    (hs2 : (run es (state_machine t1 s)).system_state = TIP_CHANGE_STATE)
    (hoff : (state_machine t2 (run es (state_machine t1 s))).system_state = OFF_STATE) :
    (state_machine t1 s).tip_insert_delay_tick_ms = t1 + TIP_CHANGE_DELAY_MS ∧
    t1 + TIP_CHANGE_DELAY_MS ≤ (run es (state_machine t1 s)).tip_insert_delay_tick_ms ∧
    t2 > t1 + TIP_CHANGE_DELAY_MS := by
  have harm : (state_machine t1 s).tip_insert_delay_tick_ms = t1 + TIP_CHANGE_DELAY_MS := by
    rw [state_machine_tip_change t1 s hw hs, if_pos htip]
    exact Nat.mod_eq_of_lt hwrap
  have hge := run_insert_delay_ge t1 es (state_machine t1 s) hes (le_of_eq harm.symm)
  refine ⟨harm, hge, ?_⟩
  have hne : ¬ (TIP_CHANGE_STATE = OFF_STATE) := by decide
  have hne2 : ¬ (ERROR_STATE = OFF_STATE) := by decide
  by_cases hw2 : t2 > get_ac_delay_tick (run es (state_machine t1 s))
  · rw [(state_machine_watchdog_state t2 _ hw2).1] at hoff
    exact absurd hoff hne2
  · rw [state_machine_tip_change t2 _ hw2 hs2] at hoff
    by_cases c1 : get_tip_state (run es (state_machine t1 s)) ≠ TIP_DETECTED
    · rw [if_pos c1] at hoff
      have hst : (run es (state_machine t1 s)).system_state = OFF_STATE := hoff
      rw [hs2] at hst
      exact absurd hst hne
    · by_cases c2 : get_tip_state (run es (state_machine t1 s)) = TIP_DETECTED ∧
          t2 > (run es (state_machine t1 s)).tip_insert_delay_tick_ms ∧
          (run es (state_machine t1 s)).tip_change_state = 0
      · have := c2.2.1
        omega
      · rw [if_neg c1, if_neg c2] at hoff
        have hst : (run es (state_machine t1 s)).system_state = OFF_STATE := hoff
        rw [hs2] at hst
        exact absurd hst hne

set_option maxRecDepth 100000 in
/-- A tick in TipChange at 5 ms without a tip; the tip is inserted and detected at 510 ms;
the tick at 520 ms stays in TipChange, the tick at 3105 ms advances to Off. -/
theorem insertion_delay_respected_witness :
    (state_machine 3105 (run (tip_inserted ++ [Event.state_machine 520,
      Event.zerocross 3100 ZERO_CROSS_Pin])
      (state_machine 5 (supervised TIP_CHANGE_STATE TIP_NOT_DETECTED 0 0 12)))).system_state
      = OFF_STATE ∧
    3105 > 5 + TIP_CHANGE_DELAY_MS :=
  ⟨by decide,
   (insertion_delay_respected (supervised TIP_CHANGE_STATE TIP_NOT_DETECTED 0 0 12) 5 3105
      (tip_inserted ++ [Event.state_machine 520, Event.zerocross 3100 ZERO_CROSS_Pin])
      (by decide) (by decide) (by decide) (by decide) (by decide) (by decide)
      (by decide)).2.2⟩

/-! ## Error kinds and the heater -/

theorem adc_complete_check_burst (s : State) (hflag : s.tip_check_flag = SET) :
    (adc_complete s).on_periods = s.on_periods := by
  have h1 : (adc_calculate_buffer_average s).tip_check_flag = s.tip_check_flag ∧
      (adc_calculate_buffer_average s).on_periods = s.on_periods := by
    rw [adc_calculate_buffer_average_frame]
    exact ⟨rfl, rfl⟩
  unfold adc_complete
  dsimp only
  generalize adc_calculate_buffer_average s = s1 at h1 ⊢
  rw [if_pos (h1.1.trans hflag)]
  simp only [tip_check, emit, ne_eq, not_true_eq_false, if_false]
  split_ifs <;> exact h1.2

/-- C15, as stated, fails for kind (e): a tick that finds the unmapped `system_state`
value 77 with four heater periods scheduled moves to `ERROR_STATE` and leaves
`on_periods = 4`. -/
theorem unmapped_state_counterexample :
    ¬ (0 > get_ac_delay_tick (sampling 77 RESET 4 [])) ∧
    (sampling 77 RESET 4 []).system_state > ERROR_STATE ∧
    (state_machine 0 (sampling 77 RESET 4 [])).system_state = ERROR_STATE ∧
    (state_machine 0 (sampling 77 RESET 4 [])).on_periods = 4 := by
  decide

/-- C15, amended: the operations that detect (a) AC loss, (b) a tip-check protocol
violation and (d) a sample-deviation error run the error response and return with
`on_periods = 0` and the heater pin low.  (c) A tip-check burst, ambiguous or not, leaves
`on_periods` as it found it, which is 0 because the TIM7 tick that raised the flag set it
to 0.  (e) A tick that finds an unmapped `system_state` only moves to `ERROR_STATE` and
leaves `on_periods` unchanged; the next tick, at any time, returns with `on_periods = 0`. -/
theorem error_kinds_heater_off (s : State) (now : Nat) :
    (now > get_ac_delay_tick s →
      (state_machine now s).on_periods = 0 ∧ (state_machine now s).heater_pin = OFF) ∧
    (s.tip_check_flag ≠ WAIT →
      (tip_check s).2.on_periods = 0 ∧ (tip_check s).2.heater_pin = OFF) ∧
    (s.tip_check_flag = SET → (adc_complete s).on_periods = s.on_periods) ∧
    (s.delay_flag ≠ 0 → s.tip_check_counter > TIP_CHECK_INTERVAL →
      (timer_interrupt Timer.htim7 s).tip_check_flag = SET ∧
      (timer_interrupt Timer.htim7 s).on_periods = 0) ∧
    (buffer_ok s.adc_buffer → s.tip_check_flag = RESET → s.tip_state = TIP_DETECTED →
      (∃ x ∈ s.adc_buffer,
        ((x : Nat) : Int) < ((s.adc_buffer.sum / ADC_BUFFER_LENGTH : Nat) : Int) - 200 ∨
        ((x : Nat) : Int) > ((s.adc_buffer.sum / ADC_BUFFER_LENGTH : Nat) : Int) + 200) →
      (adc_complete s).on_periods = 0 ∧ (adc_complete s).heater_pin = OFF) ∧
    (¬ now > get_ac_delay_tick s → s.system_state > ERROR_STATE →
      (state_machine now s).system_state = ERROR_STATE ∧
      (state_machine now s).on_periods = s.on_periods ∧
      (state_machine now s).heater_pin = s.heater_pin ∧
      ∀ later : Nat, (state_machine later (state_machine now s)).on_periods = 0) := by
  refine ⟨?_, ?_, adc_complete_check_burst s, ?_, ?_, ?_⟩
  · intro hw
    simp only [state_machine, if_pos hw, error_handler, heater_off, heater_write, emit,
      display_message]
    exact ⟨trivial, trivial⟩
  · intro hf
    simp only [tip_check, if_pos hf, error_handler, heater_off, heater_write, emit]
    exact ⟨trivial, trivial⟩
  · intro hd hc
    simp only [timer_interrupt, if_pos hd, emit, heater_off]
    rw [if_pos hc]
    exact ⟨rfl, rfl⟩
  · intro hok hflag htip hdev
    rw [adc_complete_flagged s hok hflag htip (deviation_detected s.adc_buffer hok hdev)]
    exact ⟨rfl, rfl⟩
  · intro hw hgt
    rw [state_machine_unmapped now s hw hgt]
    refine ⟨rfl, rfl, rfl, ?_⟩
    intro later
    by_cases hw2 : later > get_ac_delay_tick { s with system_state := ERROR_STATE }
    · exact (state_machine_watchdog_state later _ hw2).2.2
    · rw [state_machine_error later _ hw2 rfl]
      rfl

/-- The unmapped value 77 with four periods scheduled: still four after the tick that
detects it, none after the next tick; the watchdog path forces the heater off at once. -/
theorem error_kinds_heater_off_witness :
    (state_machine 0 (sampling 77 RESET 4 [])).on_periods = 4 ∧
    (state_machine 0 (state_machine 0 (sampling 77 RESET 4 []))).on_periods = 0 ∧
    (state_machine 13 (sampling ON_STATE RESET 4 [])).on_periods = 0 := by
  have h := (error_kinds_heater_off (sampling 77 RESET 4 []) 0).2.2.2.2.2
    (by decide) (by decide)
  have ha := (error_kinds_heater_off (sampling ON_STATE RESET 4 []) 13).1 (by decide)
  refine ⟨?_, h.2.2.2 0, ha.1⟩
  rw [h.2.1]
  rfl

/-! ## Heater idle outside On and Standby -/

theorem adc_complete_idle (s : State) (h3 : s.system_state ≠ ON_STATE)
    (h4 : s.system_state ≠ STANDBY_STATE) :
    (adc_complete s).on_periods ≤ s.on_periods := by
  have h1 : (adc_calculate_buffer_average s).on_periods = s.on_periods := by
    rw [adc_calculate_buffer_average_frame]
  have hs : (adc_deviation_check
      (adc_to_temperature (adc_calculate_buffer_average s))).on_periods = s.on_periods ∧
      get_system_state (adc_deviation_check
        (adc_to_temperature (adc_calculate_buffer_average s))) = s.system_state := by
    rw [adc_deviation_check_frame]
    refine ⟨h1, ?_⟩
    show (adc_calculate_buffer_average s).system_state = s.system_state
    rw [adc_calculate_buffer_average_frame]
  unfold adc_complete
  dsimp only
  generalize adc_deviation_check (adc_to_temperature (adc_calculate_buffer_average s)) = s3
    at hs ⊢
  generalize adc_calculate_buffer_average s = s1 at h1 ⊢
  split_ifs with c1 c2 c3 c4
  · simp only [tip_check, emit, ne_eq, not_true_eq_false, if_false]
    split_ifs <;> exact le_of_eq h1
  · exact Nat.zero_le _
  · rw [hs.2] at c4
    rcases c4 with c4 | c4
    · exact absurd c4 h3
    · exact absurd c4 h4
  · exact le_of_eq hs.1
  · exact le_of_eq h1

theorem run_idle (es : List Event) (s : State)
    (hes : ∀ e ∈ es, interrupt_event e = true)
    (h0 : s.on_periods = 0) (h3 : s.system_state ≠ ON_STATE)
    (h4 : s.system_state ≠ STANDBY_STATE) :
    (run es s).on_periods = 0 ∧ (run es s).system_state = s.system_state := by
  induction es generalizing s with
  | nil => exact ⟨h0, rfl⟩
  | cons e r ih =>
    have he := hes e (List.mem_cons_self e r)
    have hne : ∀ t, e ≠ Event.state_machine t := by
      intro t ht
      rw [ht] at he
      exact absurd he Bool.false_ne_true
    have hst := (step_supervisor e s hne).1
    have hon : (step e s).on_periods = 0 := by
      cases e with
      | zerocross now pin =>
        simp only [step, zerocross_interrupt, emit]
        split_ifs <;> exact h0
      | timer htim =>
        have ht := (timer_interrupt_schedule htim s (by rw [h0]; exact Nat.zero_le _)).1
        rw [h0] at ht
        exact Nat.le_zero.mp ht
      | adc_complete buf =>
        have ha := adc_complete_idle { s with adc_buffer := buf } h3 h4
        have ha2 : (adc_complete { s with adc_buffer := buf }).on_periods ≤ 0 := by
          rw [← h0]
          exact ha
        exact Nat.le_zero.mp ha2
      | power_control => exact absurd he Bool.false_ne_true
      | tip_check => exact absurd he Bool.false_ne_true
      | heater_off => exact absurd he Bool.false_ne_true
      | error_handler => exact absurd he Bool.false_ne_true
      | set_new_temp v => exact absurd he Bool.false_ne_true
      | inputs a b => exact absurd he Bool.false_ne_true
      | state_machine now => exact absurd he Bool.false_ne_true
    rw [run_cons]
    have := ih (step e s) (fun x hx => hes x (List.mem_cons_of_mem e hx)) hon
      (by rw [hst]; exact h3) (by rw [hst]; exact h4)
    exact ⟨this.1, this.2.trans hst⟩

/-- C16: with the watchdog passing, a tick that starts in Init, TipChange or Off returns
with `on_periods = 0` whatever the next state is; and if the state after the tick is still
one of the three, any sequence of zero-cross, timer and ADC-complete events (any buffers)
leaves `on_periods = 0` and `system_state` untouched. -/
theorem heater_idle_outside_operation (now : Nat) (s : State) (es : List Event)
    (hw : ¬ now > get_ac_delay_tick s)
    (hst : s.system_state = INIT_STATE ∨ s.system_state = TIP_CHANGE_STATE ∨
      s.system_state = OFF_STATE)
    (hes : ∀ e ∈ es, interrupt_event e = true) :
    (state_machine now s).on_periods = 0 ∧
    (((state_machine now s).system_state = INIT_STATE ∨
        (state_machine now s).system_state = TIP_CHANGE_STATE ∨
        (state_machine now s).system_state = OFF_STATE) →
      (run es (state_machine now s)).on_periods = 0 ∧
      (run es (state_machine now s)).system_state = (state_machine now s).system_state) := by
  have h0 : (state_machine now s).on_periods = 0 := by
    rcases hst with h | h | h
    · rw [state_machine_init now s hw h]
      rfl
    · rw [state_machine_tip_change now s hw h]
      simp only [update_display, display_message, draw_default_display, emit, heater_off]
      split_ifs <;> rfl
    · rw [state_machine_off now s hw h]
      simp only [update_display, emit, heater_off]
      split_ifs <;> rfl
  refine ⟨h0, ?_⟩
  intro hnext
  have h3 : (state_machine now s).system_state ≠ ON_STATE := by
    rcases hnext with h | h | h <;> rw [h] <;> decide
  have h4 : (state_machine now s).system_state ≠ STANDBY_STATE := by
    rcases hnext with h | h | h <;> rw [h] <;> decide
  exact run_idle es (state_machine now s) hes h0 h3 h4

set_option maxRecDepth 100000 in
/-- A tick in Off with the tool parked and four periods still scheduled, then one half-cycle
whose burst reads 250 degrees below the set temperature: the heater stays idle. -/
theorem heater_idle_outside_operation_witness :
    (state_machine 0 parked_off).on_periods = 0 ∧
    (run (mains_half_cycle 10 (List.replicate 50 190))
      (state_machine 0
        parked_off)).on_periods = 0 :=
  ⟨(heater_idle_outside_operation 0
      parked_off
      (mains_half_cycle 10 (List.replicate 50 190)) (by decide) (by decide) (by decide)).1,
   ((heater_idle_outside_operation 0
      parked_off
      (mains_half_cycle 10 (List.replicate 50 190)) (by decide) (by decide) (by decide)).2
      (by decide)).1⟩

/-! ## Tip state outside tip checks -/

set_option maxRecDepth 100000 in
/-- C17, as stated, fails: an ordinary temperature burst (`tip_check_flag = RESET`) in which
one sample reads 0 among 49 samples of 1000 fails the deviation check, and the error
response changes `tip_state` from `TIP_DETECTED` to `TIP_CHECK_ERROR`. -/
theorem tip_state_held_counterexample :
    buffer_ok (0 :: List.replicate 49 1000) ∧
    (sampling ON_STATE RESET 0 (0 :: List.replicate 49 1000)).tip_check_flag ≠ SET ∧
    (sampling ON_STATE RESET 0 (0 :: List.replicate 49 1000)).tip_state = TIP_DETECTED ∧
    (adc_complete (sampling ON_STATE RESET 0 (0 :: List.replicate 49 1000))).tip_state
      = TIP_CHECK_ERROR := by
  decide

/-- C17, amended: an `adc_complete` that finds `tip_check_flag` not `SET` leaves `tip_state`
as it was, except when it is an ordinary temperature burst (`tip_check_flag = RESET`,
tip detected) whose deviation check ends with the error flag raised: then the error
response sets `tip_state = TIP_CHECK_ERROR`.  In particular `tip_state` is held when every
sample lies within `[average - 200, average + 200]`, the average is at most 32567 and the
error flag was clear. -/
theorem adc_complete_tip_state (s : State) (hflag : s.tip_check_flag ≠ SET) :
    (adc_complete s).tip_state =
      (if s.tip_check_flag = RESET ∧ s.tip_state = TIP_DETECTED ∧
          (adc_deviation_check
            (adc_to_temperature (adc_calculate_buffer_average s))).error_flag = SET
        then TIP_CHECK_ERROR else s.tip_state) ∧
    (buffer_ok s.adc_buffer → s.error_flag ≠ SET →
      s.adc_buffer.sum / ADC_BUFFER_LENGTH ≤ 32567 →
      (∀ x ∈ s.adc_buffer,
        ((s.adc_buffer.sum / ADC_BUFFER_LENGTH : Nat) : Int) - 200 ≤ ((x : Nat) : Int) ∧
        ((x : Nat) : Int) ≤ ((s.adc_buffer.sum / ADC_BUFFER_LENGTH : Nat) : Int) + 200) →
      (adc_complete s).tip_state = s.tip_state) := by
  have h1 : (adc_calculate_buffer_average s).tip_check_flag = s.tip_check_flag ∧
      (adc_calculate_buffer_average s).tip_state = s.tip_state := by
    rw [adc_calculate_buffer_average_frame]
    exact ⟨rfl, rfl⟩
  have h3 : (adc_deviation_check
      (adc_to_temperature (adc_calculate_buffer_average s))).tip_state = s.tip_state := by
    rw [adc_deviation_check_frame]
    exact h1.2
  have hmain : (adc_complete s).tip_state =
      (if s.tip_check_flag = RESET ∧ s.tip_state = TIP_DETECTED ∧
          (adc_deviation_check
            (adc_to_temperature (adc_calculate_buffer_average s))).error_flag = SET
        then TIP_CHECK_ERROR else s.tip_state) := by
    unfold adc_complete
    dsimp only
    generalize adc_deviation_check (adc_to_temperature (adc_calculate_buffer_average s)) = s3
      at h3 ⊢
    generalize adc_calculate_buffer_average s = s1 at h1 ⊢
    rw [if_neg (fun hh => hflag (h1.1.symm.trans hh)), h1.1, h1.2]
    by_cases c2 : s.tip_check_flag = RESET ∧ s.tip_state = TIP_DETECTED
    · rw [if_pos c2]
      by_cases c3 : s3.error_flag = SET
      · have c4 : s.tip_check_flag = RESET ∧ s.tip_state = TIP_DETECTED ∧
            s3.error_flag = SET := ⟨c2.1, c2.2, c3⟩
        rw [if_pos c3, if_pos c4]
        rfl
      · have c4 : ¬ (s.tip_check_flag = RESET ∧ s.tip_state = TIP_DETECTED ∧
            s3.error_flag = SET) := fun hh => c3 hh.2.2
        rw [if_neg c3, if_neg c4]
        split_ifs
        · rw [power_control, power_law_frame]
          exact h3
        · exact h3
    · have c4 : ¬ (s.tip_check_flag = RESET ∧ s.tip_state = TIP_DETECTED ∧
          s3.error_flag = SET) := fun hh => c2 ⟨hh.1, hh.2.1⟩
      rw [if_neg c2, if_neg c4]
      exact h1.2
  refine ⟨hmain, ?_⟩
  intro hok herr havg hin
  rw [hmain]
  have hd := deviation_not_detected s.adc_buffer hok havg hin
  have hclear : ¬ ((adc_deviation_check
      (adc_to_temperature (adc_calculate_buffer_average s))).error_flag = SET) := by
    rw [adc_calculate_buffer_average_eq s hok, adc_deviation_check_eq]
    dsimp only [adc_to_temperature]
    rw [if_neg hd]
    exact herr
  rw [if_neg (fun hh => hclear hh.2.2)]

set_option maxRecDepth 100000 in
/-- A uniform burst of 3500 leaves the tip state at `TIP_DETECTED`; a burst that arrives
while the tip is not detected leaves the tip state alone. -/
theorem adc_complete_tip_state_witness :
    (adc_complete (sampling ON_STATE RESET 0 (List.replicate 50 3500))).tip_state
      = TIP_DETECTED ∧
    (adc_complete (supervised ON_STATE TIP_NOT_DETECTED 0 0 12)).tip_state
      = TIP_NOT_DETECTED := by
  have h1 := (adc_complete_tip_state (sampling ON_STATE RESET 0 (List.replicate 50 3500))
    (by decide)).2 (by decide) (by decide) (by decide) (by decide)
  have h2 := (adc_complete_tip_state (supervised ON_STATE TIP_NOT_DETECTED 0 0 12)
    (by decide)).1
  refine ⟨h1, ?_⟩
  rw [h2]
  decide

/-! ## Tip-check cadence -/

theorem adc_complete_counter (s : State) :
    (adc_complete s).tip_check_counter = s.tip_check_counter := by
  have h1 : (adc_calculate_buffer_average s).tip_check_counter = s.tip_check_counter := by
    rw [adc_calculate_buffer_average_frame]
  have h3 : (adc_deviation_check
      (adc_to_temperature (adc_calculate_buffer_average s))).tip_check_counter
        = s.tip_check_counter := by
    rw [adc_deviation_check_frame]
    exact h1
  unfold adc_complete
  dsimp only
  generalize adc_deviation_check (adc_to_temperature (adc_calculate_buffer_average s)) = s3
    at h3 ⊢
  generalize adc_calculate_buffer_average s = s1 at h1 ⊢
  split_ifs
  · simp only [tip_check, emit, ne_eq, not_true_eq_false, if_false]
    split_ifs <;> exact h1
  · exact h3
  · rw [power_control, power_law_frame]
    exact h3
  · exact h3
  · exact h1

theorem state_machine_counter (now : Nat) (s : State) :
    (state_machine now s).tip_check_counter = s.tip_check_counter := by
  by_cases hw : now > get_ac_delay_tick s
  · simp only [state_machine, if_pos hw, error_handler, heater_off, heater_write, emit,
      display_message]
  by_cases h0 : s.system_state = INIT_STATE
  · rw [state_machine_init now s hw h0]
    rfl
  by_cases h1 : s.system_state = TIP_CHANGE_STATE
  · rw [state_machine_tip_change now s hw h1]
    split_ifs <;> rfl
  by_cases h2 : s.system_state = OFF_STATE
  · rw [state_machine_off now s hw h2]
    split_ifs <;> rfl
  by_cases h3 : s.system_state = ON_STATE
  · rw [state_machine_on now s hw h3]
    split_ifs <;> rfl
  by_cases h4 : s.system_state = STANDBY_STATE
  · rw [state_machine_standby now s hw h4]
    split_ifs <;> rfl
  by_cases h5 : s.system_state = ERROR_STATE
  · rw [state_machine_error now s hw h5]
    rfl
  · have hgt : s.system_state > ERROR_STATE := by
      simp only [INIT_STATE, TIP_CHANGE_STATE, OFF_STATE, ON_STATE, STANDBY_STATE, ERROR_STATE,
        gt_iff_lt] at *
      omega
    rw [state_machine_unmapped now s hw hgt]

/-- The half-cycle counter: a TIM6 event adds one (modulo 2^16), an arming TIM7 tick resets
it, every other event leaves it alone. -/
theorem step_counter (e : Event) (s : State) (hna : arms e s = false) :
    (step e s).tip_check_counter =
      u16 (s.tip_check_counter + tim6_events [e]) ∨
    ((step e s).tip_check_counter = s.tip_check_counter ∧ tim6_events [e] = 0) := by
  cases e with
  | zerocross now pin =>
    refine Or.inr ⟨?_, rfl⟩
    simp only [step, zerocross_interrupt, emit]
    split_ifs <;> rfl
  | timer htim =>
    cases htim with
    | htim6 =>
      refine Or.inl ?_
      simp only [step, timer_interrupt, heater_write, emit]
      split_ifs <;> rfl
    | htim7 =>
      refine Or.inr ⟨?_, rfl⟩
      simp only [arms, Bool.and_eq_false_imp, decide_eq_true_eq, decide_eq_false_iff_not] at hna
      simp only [step, timer_interrupt, heater_off, emit, start_adc]
      by_cases hd : s.delay_flag ≠ 0
      · rw [if_pos hd, if_neg (hna hd)]
      · rw [if_neg hd]
    | other => exact Or.inr ⟨rfl, rfl⟩
  | adc_complete buf => exact Or.inr ⟨adc_complete_counter { s with adc_buffer := buf }, rfl⟩
  | power_control =>
    refine Or.inr ⟨?_, rfl⟩
    rw [step, power_control, power_law_frame]
  | tip_check =>
    refine Or.inr ⟨?_, rfl⟩
    simp only [step, tip_check, error_handler, heater_off, heater_write, emit]
    split_ifs <;> rfl
  | heater_off => exact Or.inr ⟨rfl, rfl⟩
  | error_handler => exact Or.inr ⟨rfl, rfl⟩
  | set_new_temp v => exact Or.inr ⟨rfl, rfl⟩
  | inputs a b => exact Or.inr ⟨rfl, rfl⟩
  | state_machine now => exact Or.inr ⟨state_machine_counter now s, rfl⟩

theorem tim6_events_cons (e : Event) (r : List Event) :
    tim6_events (e :: r) = tim6_events [e] + tim6_events r := by
  cases e with
  | timer htim =>
    cases htim with
    | htim6 =>
      simp only [tim6_events]
      omega
    | htim7 => simp only [tim6_events, Nat.zero_add]
    | other => simp only [tim6_events, Nat.zero_add]
  | _ => simp only [tim6_events, Nat.zero_add]

theorem run_counter (es : List Event) (s : State) (hna : no_arming es s = true) :
    (run es s).tip_check_counter = u16 (s.tip_check_counter + tim6_events es) ∨
    ((run es s).tip_check_counter = s.tip_check_counter ∧ tim6_events es = 0) := by
  induction es generalizing s with
  | nil => exact Or.inr ⟨rfl, rfl⟩
  | cons e r ih =>
    simp only [no_arming, Bool.and_eq_true, Bool.not_eq_true'] at hna
    rw [run_cons, tim6_events_cons]
    rcases ih (step e s) hna.2 with h | h
    · left
      rw [h]
      rcases step_counter e s hna.1 with h1 | h1
      · rw [h1]
        unfold u16
        omega
      · rw [h1.1, h1.2, Nat.zero_add]
    · rcases step_counter e s hna.1 with h1 | h1
      · left
        rw [h.1, h1, h.2, Nat.add_zero]
      · right
        rw [h.1, h1.1, h.2, h1.2]
        exact ⟨rfl, rfl⟩

theorem finally_holds_run (q : State → Bool) (es : List Event) (s : State)
    (h : finally_holds q es s = true) : q (run es s) = true := by
  induction es generalizing s with
  | nil => exact h
  | cons e r ih =>
    simp only [finally_holds, Bool.and_eq_true] at h
    exact ih (step e s) h.2

set_option maxRecDepth 200000 in
/-- C18, as stated, fails: the tip check armed in the 51st half-cycle after power-up resets
the counter; 50 TIM6 events later the first TIM7 tick of the read phase finds the counter
at 50 and does not raise the flag. -/
theorem tip_check_cadence_counterexample :
    (run check_armed init).tip_check_flag = SET ∧
    (run check_armed init).tip_check_counter = 0 ∧
    tim6_events fifty_later = 50 ∧
    (run (check_armed ++ fifty_later) init).tip_check_counter = 50 ∧
    (run (check_armed ++ fifty_later) init).delay_flag ≠ 0 ∧
    (run (check_armed ++ fifty_later) init).tip_check_flag = RESET ∧
    (timer_interrupt Timer.htim7
      (run (check_armed ++ fifty_later) init)).tip_check_flag = RESET := by
  have h := finally_holds_run
    (fun s => decide (s.tip_check_counter = 50) && decide (s.delay_flag ≠ 0) &&
      decide (s.tip_check_flag = RESET) &&
      decide ((timer_interrupt Timer.htim7 s).tip_check_flag = RESET))
    (check_armed ++ fifty_later) init (by decide)
  simp only [Bool.and_eq_true, decide_eq_true_eq] at h
  exact ⟨by decide, by decide, by decide, h.1.1.1, h.1.1.2, h.1.2, h.2⟩

/-- C18, amended: let `n` TIM6 events have occurred since the half-cycle counter was last
reset (by the arming of a tip check, or at power-up) without another arming in between.
Then the counter equals `n`, and the first TIM7 tick of a read phase raises the tip-check
flag exactly when `n > TIP_CHECK_INTERVAL`, that is after at least 51 half-cycles: in that
case it sets `on_periods = 0` and restarts the counter from 0, otherwise it leaves the
flag, the counter and `on_periods` unchanged. -/
theorem tip_check_cadence (s : State) (es : List Event)
    (h0 : s.tip_check_counter = 0)
    (hna : no_arming es s = true)
    (hn : tim6_events es < 65536)
    (hd : (run es s).delay_flag ≠ 0) :
    (run es s).tip_check_counter = tim6_events es ∧
    (tim6_events es > TIP_CHECK_INTERVAL →
      (timer_interrupt Timer.htim7 (run es s)).tip_check_flag = SET ∧
      (timer_interrupt Timer.htim7 (run es s)).on_periods = 0 ∧
      (timer_interrupt Timer.htim7 (run es s)).tip_check_counter = 0) ∧
    (¬ tim6_events es > TIP_CHECK_INTERVAL →
      (timer_interrupt Timer.htim7 (run es s)).tip_check_flag = (run es s).tip_check_flag ∧
      (timer_interrupt Timer.htim7 (run es s)).on_periods = (run es s).on_periods ∧
      (timer_interrupt Timer.htim7 (run es s)).tip_check_counter = tim6_events es) := by
  have hc : (run es s).tip_check_counter = tim6_events es := by
    rcases run_counter es s hna with h | h
    · rw [h, h0, Nat.zero_add]
      exact Nat.mod_eq_of_lt hn
    · rw [h.1, h0, h.2]
  refine ⟨hc, ?_, ?_⟩
  · intro hgt
    have hgt2 : (run es s).tip_check_counter > TIP_CHECK_INTERVAL := by
      rw [hc]
      exact hgt
    simp only [timer_interrupt, heater_off, emit]
    rw [if_pos hd, if_pos hgt2]
    exact ⟨rfl, rfl, rfl⟩
  · intro hle
    have hle2 : ¬ (run es s).tip_check_counter > TIP_CHECK_INTERVAL := by
      rw [hc]
      exact hle
    simp only [timer_interrupt, heater_off, emit]
    rw [if_pos hd, if_neg hle2]
    exact ⟨rfl, rfl, hc⟩

set_option maxRecDepth 200000 in
/-- From power-up the 51st TIM6 event makes the check due; after two half-cycles it is
not. -/
theorem tip_check_cadence_witness :
    (timer_interrupt Timer.htim7 (run first_check_due init)).tip_check_flag = SET ∧
    (timer_interrupt Timer.htim7
      (run (mains_half_cycles 0 2 (List.replicate 50 4090)
        ++ [Event.timer Timer.htim6]) init)).tip_check_counter = 3 :=
  ⟨((tip_check_cadence init first_check_due
      (by decide) (by decide) (by decide) (by decide)).2.1 (by decide)).1,
   ((tip_check_cadence init
      (mains_half_cycles 0 2 (List.replicate 50 4090) ++ [Event.timer Timer.htim6])
      (by decide) (by decide) (by decide) (by decide)).2.2 (by decide)).2.2.trans
      (by decide)⟩

/-! ## Read-phase ordering -/

theorem tim6_read_phase (s : State) (hread : ¬ (s.on_periods ≥ 1 ∧ s.tip_temp < MAX_TEMP)) :
    timer_interrupt Timer.htim6 s =
      { s with tim6_running := false,
               heater_power_history := u32 (s.heater_power_history * 2),
               tip_check_counter := u16 (s.tip_check_counter + 1),
               heater_pin := OFF,
               tim7_running := true,
               hw := s.hw ++ [HwOp.tim6_stop, HwOp.heater_write OFF, HwOp.tim7_start,
                              HwOp.sensor_scan] } := by
  simp only [timer_interrupt, heater_write, emit]
  rw [if_neg hread]
  simp only [List.append_assoc, List.singleton_append, List.cons_append, List.nil_append]

theorem tim7_first_tick (s : State) (hd : s.delay_flag ≠ 0) :
    timer_interrupt Timer.htim7 s =
      if s.tip_check_counter > TIP_CHECK_INTERVAL then
        { s with delay_flag := RESET, on_periods := 0, tip_check_flag := SET,
                 tip_check_counter := 0,
                 hw := s.hw ++ [HwOp.clamp_release, HwOp.tip_check_high] }
      else
        { s with delay_flag := RESET, hw := s.hw ++ [HwOp.clamp_release] } := by
  simp only [timer_interrupt, heater_off, emit]
  rw [if_pos hd]
  split_ifs
  · simp only [List.append_assoc, List.singleton_append]
  · rfl

theorem tim7_second_tick (s : State) (hd : s.delay_flag = 0) :
    timer_interrupt Timer.htim7 s =
      { s with delay_flag := SET, tim7_running := false,
               hw := s.hw ++ [HwOp.tim7_stop, HwOp.adc_start] } := by
  have hd2 : ¬ (s.delay_flag ≠ 0) := fun hh => hh hd
  simp only [timer_interrupt, start_adc, emit]
  rw [if_neg hd2]
  simp only [List.append_assoc, List.singleton_append, List.cons_append, List.nil_append]

/-- C19: from the rest state (`delay_flag` set) a TIM6 read-phase event followed by two
TIM7 events performs, in this order: stop TIM6, heater off, start TIM7, input scan, release
the sense-line clamp, raise the tip-check line if the check is due, stop TIM7, start the
ADC burst.  After the first tick the sub-phase flag is clear, after the second it is set
again.  No TIM6 event and no first TIM7 tick starts the ADC burst. -/
theorem read_phase_order (s : State) (hd : s.delay_flag ≠ 0)
    (hread : ¬ (s.on_periods ≥ 1 ∧ s.tip_temp < MAX_TEMP)) :
    (run read_cycle s).hw =
      s.hw ++ [HwOp.tim6_stop, HwOp.heater_write OFF, HwOp.tim7_start, HwOp.sensor_scan,
               HwOp.clamp_release]
        ++ (if u16 (s.tip_check_counter + 1) > TIP_CHECK_INTERVAL then [HwOp.tip_check_high]
            else [])
        ++ [HwOp.tim7_stop, HwOp.adc_start] ∧
    (run [Event.timer Timer.htim6] s).hw =
      s.hw ++ [HwOp.tim6_stop, HwOp.heater_write OFF, HwOp.tim7_start, HwOp.sensor_scan] ∧
    (run [Event.timer Timer.htim6, Event.timer Timer.htim7] s).delay_flag = RESET ∧
    (run read_cycle s).delay_flag = SET ∧
    (run read_cycle s).heater_pin = OFF ∧
    (u16 (s.tip_check_counter + 1) > TIP_CHECK_INTERVAL →
      (run read_cycle s).tip_check_flag = SET ∧ (run read_cycle s).on_periods = 0) ∧
    (∀ x : State, ∃ l, (timer_interrupt Timer.htim6 x).hw = x.hw ++ l ∧ HwOp.adc_start ∉ l) ∧
    (∀ x : State, x.delay_flag ≠ 0 →
      ∃ l, (timer_interrupt Timer.htim7 x).hw = x.hw ++ l ∧ HwOp.adc_start ∉ l) := by
  have h6 := tim6_read_phase s hread
  have hd6 : (timer_interrupt Timer.htim6 s).delay_flag ≠ 0 := by
    rw [h6]
    exact hd
  have h7 := tim7_first_tick (timer_interrupt Timer.htim6 s) hd6
  have hc6 : (timer_interrupt Timer.htim6 s).tip_check_counter = u16 (s.tip_check_counter + 1) := by
    rw [h6]
  have hhw6 : (timer_interrupt Timer.htim6 s).hw =
      s.hw ++ [HwOp.tim6_stop, HwOp.heater_write OFF, HwOp.tim7_start, HwOp.sensor_scan] := by
    rw [h6]
  have hpin6 : (timer_interrupt Timer.htim6 s).heater_pin = OFF := by
    rw [h6]
  have hd7 : (timer_interrupt Timer.htim7 (timer_interrupt Timer.htim6 s)).delay_flag = 0 := by
    rw [h7]
    split_ifs <;> rfl
  have h8 := tim7_second_tick _ hd7
  have hrun : run read_cycle s = timer_interrupt Timer.htim7
      (timer_interrupt Timer.htim7 (timer_interrupt Timer.htim6 s)) := rfl
  refine ⟨?_, hhw6, hd7, ?_, ?_, ?_, ?_, ?_⟩
  · rw [hrun, h8, h7, hc6]
    by_cases hdue : u16 (s.tip_check_counter + 1) > TIP_CHECK_INTERVAL
    · rw [if_pos hdue, if_pos hdue]
      show ((timer_interrupt Timer.htim6 s).hw ++ [HwOp.clamp_release, HwOp.tip_check_high])
        ++ [HwOp.tim7_stop, HwOp.adc_start] = _
      rw [hhw6]
      simp only [List.append_assoc, List.cons_append, List.nil_append]
    · rw [if_neg hdue, if_neg hdue]
      show ((timer_interrupt Timer.htim6 s).hw ++ [HwOp.clamp_release])
        ++ [HwOp.tim7_stop, HwOp.adc_start] = _
      rw [hhw6]
      simp only [List.append_assoc, List.cons_append, List.nil_append, List.append_nil]
  · rw [hrun, h8]
  · rw [hrun, h8, h7]
    split_ifs <;> exact hpin6
  · intro hdue
    rw [hrun, h8, h7, hc6, if_pos hdue]
    exact ⟨rfl, rfl⟩
  · intro x
    by_cases hx : x.on_periods ≥ 1 ∧ x.tip_temp < MAX_TEMP
    · refine ⟨[HwOp.tim6_stop, HwOp.clamp_low, HwOp.heater_write ON, HwOp.sensor_scan], ?_,
        by decide⟩
      simp only [timer_interrupt, heater_write, emit]
      rw [if_pos hx]
      simp only [List.append_assoc, List.singleton_append, List.cons_append, List.nil_append]
    · refine ⟨[HwOp.tim6_stop, HwOp.heater_write OFF, HwOp.tim7_start, HwOp.sensor_scan], ?_,
        by decide⟩
      rw [tim6_read_phase x hx]
  · intro x hx
    rw [tim7_first_tick x hx]
    by_cases hdue : x.tip_check_counter > TIP_CHECK_INTERVAL
    · rw [if_pos hdue]
      exact ⟨[HwOp.clamp_release, HwOp.tip_check_high], rfl, by decide⟩
    · rw [if_neg hdue]
      exact ⟨[HwOp.clamp_release], rfl, by decide⟩

/-- A read phase from the initial state, and one in which the tip check is due. -/
theorem read_phase_order_witness :
    (run read_cycle init).hw =
      [HwOp.tim6_stop, HwOp.heater_write OFF, HwOp.tim7_start, HwOp.sensor_scan,
       HwOp.clamp_release, HwOp.tim7_stop, HwOp.adc_start] ∧
    (run read_cycle { init with tip_check_counter := 50 }).hw =
      [HwOp.tim6_stop, HwOp.heater_write OFF, HwOp.tim7_start, HwOp.sensor_scan,
       HwOp.clamp_release, HwOp.tip_check_high, HwOp.tim7_stop, HwOp.adc_start] :=
  ⟨(read_phase_order init (by decide) (by decide)).1.trans (by decide),
   (read_phase_order { init with tip_check_counter := 50 } (by decide)
      (by decide)).1.trans (by decide)⟩

/-! ## Power law only in On and Standby -/

set_option maxRecDepth 100000 in
/-- C20, as stated, fails: in `OFF_STATE` with three heater periods still scheduled, a
uniform burst of 40000 has every sample within tolerance, yet the wrapped `int16_t` upper
limit flags it: `tip_temp` becomes the sentinel 999 instead of the converted 5358 and
`on_periods` drops from 3 to 0. -/
theorem power_gate_counterexample :
    buffer_ok (List.replicate 50 40000) ∧
    (List.replicate 50 40000).sum / ADC_BUFFER_LENGTH = 40000 ∧
    (∀ x ∈ List.replicate 50 40000, 40000 - 200 ≤ x ∧ x ≤ 40000 + 200) ∧
    40000 * 100 / 750 + 25 = 5358 ∧
    (sampling OFF_STATE RESET 3 (List.replicate 50 40000)).tip_check_flag = RESET ∧
    (sampling OFF_STATE RESET 3 (List.replicate 50 40000)).tip_state = TIP_DETECTED ∧
    (sampling OFF_STATE RESET 3 (List.replicate 50 40000)).on_periods = 3 ∧
    (adc_complete (sampling OFF_STATE RESET 3 (List.replicate 50 40000))).on_periods = 0 ∧
    (adc_complete (sampling OFF_STATE RESET 3 (List.replicate 50 40000))).tip_temp
      = ADC_READING_ERROR := by
  decide

/-- C20, amended: for an ordinary temperature burst (`tip_check_flag = RESET`, tip detected,
error flag clear) whose samples all lie within `[average - 200, average + 200]` of an
average of at most 32567, `adc_complete` sets `tip_temp = floor (average * 100 / 750) + 25`
in every system state; in `ON_STATE` and `STANDBY_STATE` the on-count becomes the power
law's value for that temperature, and in every other state (Init, TipChange, Off, Error
or an unmapped value) `on_periods` is exactly what it was before the call. -/
theorem adc_complete_power_gate (s : State) (hok : buffer_ok s.adc_buffer)
    (hflag : s.tip_check_flag = RESET) (htip : s.tip_state = TIP_DETECTED)
    (herr : s.error_flag ≠ SET)
    (havg : s.adc_buffer.sum / ADC_BUFFER_LENGTH ≤ 32567)
    (hin : ∀ x ∈ s.adc_buffer,
      ((s.adc_buffer.sum / ADC_BUFFER_LENGTH : Nat) : Int) - 200 ≤ ((x : Nat) : Int) ∧
      ((x : Nat) : Int) ≤ ((s.adc_buffer.sum / ADC_BUFFER_LENGTH : Nat) : Int) + 200) :
    (adc_complete s).tip_temp = s.adc_buffer.sum / ADC_BUFFER_LENGTH * 100 / 750 + 25 ∧
    ((s.system_state = ON_STATE ∨ s.system_state = STANDBY_STATE) →
      (adc_complete s).on_periods =
        (power_law (tmp_set_temp s)
          (s.adc_buffer.sum / ADC_BUFFER_LENGTH * 100 / 750 + 25) s).on_periods) ∧
    (¬ (s.system_state = ON_STATE ∨ s.system_state = STANDBY_STATE) →
      (adc_complete s).on_periods = s.on_periods) ∧
    (adc_complete s).power_bar_value = (adc_complete s).on_periods := by
  have hd := deviation_not_detected s.adc_buffer hok havg hin
  have hconv : (adc_to_temperature
      { s with adc_buffer_average := s.adc_buffer.sum / ADC_BUFFER_LENGTH }).tip_temp =
      s.adc_buffer.sum / ADC_BUFFER_LENGTH * 100 / 750 + 25 := by
    show u16 (u32 (u32 (s.adc_buffer.sum / ADC_BUFFER_LENGTH * 100) / 750 + 25)) = _
    generalize s.adc_buffer.sum / ADC_BUFFER_LENGTH = a at havg
    have h1 : a * 100 % 4294967296 = a * 100 := Nat.mod_eq_of_lt (by omega)
    have h2 : (a * 100 / 750 + 25) % 4294967296 = a * 100 / 750 + 25 :=
      Nat.mod_eq_of_lt (by omega)
    have h3 : (a * 100 / 750 + 25) % 65536 = a * 100 / 750 + 25 :=
      Nat.mod_eq_of_lt (by omega)
    simp only [u16, u32, h1, h2, h3]
  have key := adc_complete_unflagged s hok hflag htip herr hd
  refine ⟨?_, ?_, ?_, rfl⟩
  · rw [key]
    by_cases c : s.system_state = ON_STATE ∨ s.system_state = STANDBY_STATE
    · rw [if_pos c]
      show (power_control _).tip_temp = _
      rw [power_control, power_law_frame]
      exact hconv
    · rw [if_neg c]
      exact hconv
  · intro c
    rw [key, if_pos c]
    show (power_control _).on_periods = _
    rw [power_control, power_law_on_periods, power_law_on_periods, hconv]
    rfl
  · intro c
    rw [key, if_neg c]
    rfl

set_option maxRecDepth 100000 in
/-- A uniform burst of 3500 (491 degrees): in Off three scheduled periods stay three, in On
with the target at 300 the heater is switched off. -/
theorem adc_complete_power_gate_witness :
    (adc_complete (sampling OFF_STATE RESET 3 (List.replicate 50 3500))).tip_temp = 491 ∧
    (adc_complete (sampling OFF_STATE RESET 3 (List.replicate 50 3500))).on_periods = 3 ∧
    (adc_complete (sampling ON_STATE RESET 3 (List.replicate 50 3500))).on_periods = 0 := by
  have h1 := adc_complete_power_gate (sampling OFF_STATE RESET 3 (List.replicate 50 3500))
    (by decide) (by decide) (by decide) (by decide) (by decide) (by decide)
  have h2 := (adc_complete_power_gate (sampling ON_STATE RESET 3 (List.replicate 50 3500))
    (by decide) (by decide) (by decide) (by decide) (by decide) (by decide)).2.1 (by decide)
  refine ⟨h1.1.trans (by decide), h1.2.2.1 (by decide), h2.trans (by decide)⟩

/-! ## Flags between operations -/

theorem adc_complete_flags (s : State) (h : flags_ok s) : flags_ok (adc_complete s) := by
  have h1 : (adc_calculate_buffer_average s).error_flag = s.error_flag ∧
      (adc_calculate_buffer_average s).tip_check_flag = s.tip_check_flag := by
    rw [adc_calculate_buffer_average_frame]
    exact ⟨rfl, rfl⟩
  have h3 : ((adc_deviation_check
        (adc_to_temperature (adc_calculate_buffer_average s))).error_flag = SET ∨
      (adc_deviation_check
        (adc_to_temperature (adc_calculate_buffer_average s))).error_flag = RESET) ∧
      (adc_deviation_check
        (adc_to_temperature (adc_calculate_buffer_average s))).tip_check_flag
        = s.tip_check_flag := by
    rw [adc_deviation_check_eq]
    constructor
    · dsimp only
      split_ifs
      · exact Or.inl rfl
      · right
        show (adc_calculate_buffer_average s).error_flag = RESET
        rw [h1.1]
        exact h.1
    · exact h1.2
  unfold adc_complete flags_ok
  dsimp only
  generalize adc_deviation_check (adc_to_temperature (adc_calculate_buffer_average s)) = s3
    at h3 ⊢
  generalize adc_calculate_buffer_average s = s1 at h1 ⊢
  split_ifs with c1 c2 c3 c4
  · simp only [tip_check, emit, ne_eq, not_true_eq_false, if_false]
    split_ifs <;> exact ⟨h1.1.trans h.1, Or.inl trivial⟩
  · exact ⟨rfl, Or.inl (h3.2.trans (h1.2.symm.trans c2.1))⟩
  · rw [power_control, power_law_frame]
    refine ⟨?_, Or.inl (h3.2.trans (h1.2.symm.trans c2.1))⟩
    rcases h3.1 with hs | hs
    · exact absurd hs c3
    · exact hs
  · refine ⟨?_, Or.inl (h3.2.trans (h1.2.symm.trans c2.1))⟩
    rcases h3.1 with hs | hs
    · exact absurd hs c3
    · exact hs
  · refine ⟨h1.1.trans h.1, ?_⟩
    rw [h1.2]
    exact h.2

theorem state_machine_flags (now : Nat) (s : State) (h : flags_ok s) :
    flags_ok (state_machine now s) := by
  unfold flags_ok
  by_cases hw : now > get_ac_delay_tick s
  · simp only [state_machine, if_pos hw, error_handler, heater_off, heater_write, emit,
      display_message]
    exact ⟨trivial, h.2⟩
  by_cases h0 : s.system_state = INIT_STATE
  · rw [state_machine_init now s hw h0]
    exact h
  by_cases h1 : s.system_state = TIP_CHANGE_STATE
  · rw [state_machine_tip_change now s hw h1]
    split_ifs <;> exact h
  by_cases h2 : s.system_state = OFF_STATE
  · rw [state_machine_off now s hw h2]
    split_ifs <;> exact h
  by_cases h3 : s.system_state = ON_STATE
  · rw [state_machine_on now s hw h3]
    split_ifs <;> exact h
  by_cases h4 : s.system_state = STANDBY_STATE
  · rw [state_machine_standby now s hw h4]
    split_ifs <;> exact h
  by_cases h5 : s.system_state = ERROR_STATE
  · rw [state_machine_error now s hw h5]
    exact ⟨rfl, h.2⟩
  · have hgt : s.system_state > ERROR_STATE := by
      simp only [INIT_STATE, TIP_CHANGE_STATE, OFF_STATE, ON_STATE, STANDBY_STATE, ERROR_STATE,
        gt_iff_lt] at *
      omega
    rw [state_machine_unmapped now s hw hgt]
    exact h

/-- The flag condition holds initially and is kept by every sequence of events: the error
flag is clear and the tip-check flag is `RESET` or `SET` between operations, so an
`adc_complete` that does not find `SET` finds `RESET`. -/
theorem run_flags_ok (es : List Event) (s : State) (h : flags_ok s) : flags_ok (run es s) := by
  induction es generalizing s with
  | nil => exact h
  | cons e r ih =>
    rw [run_cons]
    apply ih
    cases e with
    | zerocross now pin =>
      simp only [step, zerocross_interrupt, emit]
      split_ifs <;> exact h
    | timer htim =>
      cases htim with
      | htim6 =>
        simp only [step, timer_interrupt, heater_write, emit]
        split_ifs <;> exact h
      | htim7 =>
        simp only [step, timer_interrupt, heater_off, emit, start_adc]
        split_ifs
        · exact ⟨h.1, Or.inr rfl⟩
        · exact h
        · exact h
      | other => exact h
    | adc_complete buf => exact adc_complete_flags { s with adc_buffer := buf } h
    | power_control =>
      show flags_ok (power_control s)
      rw [power_control, power_law_frame]
      exact h
    | tip_check =>
      simp only [step, tip_check, error_handler, heater_off, heater_write, emit]
      split_ifs <;> first | exact ⟨rfl, Or.inl rfl⟩ | exact ⟨h.1, Or.inl rfl⟩
    | heater_off => exact h
    | error_handler => exact ⟨rfl, h.2⟩
    | set_new_temp v => exact h
    | inputs a b => exact h
    | state_machine now => exact state_machine_flags now s h

/-! ## Button release event -/

theorem button_event_cleared (x : Button) (h : x.release_flag = RESET) :
    button_event x = (NO_PRESS, x) := by
  unfold button_event
  rw [if_neg (by rw [h]; decide)]

theorem button_event_iterate (x : Button) (h : x.release_flag = RESET) (n : Nat) :
    (fun y => (button_event y).2)^[n] x = x := by
  induction n with
  | zero => rfl
  | succ k ih =>
    rw [Function.iterate_succ_apply, button_event_cleared x h]
    exact ih

/-- C23: when `button_scan` records the release of a button whose debounced state was
`SHORT_PRESS` or `LONG_PRESS` (input not pressed, debounce counter at zero), the first
`button_event` call returns that state and clears the edge flag, and every further
`button_event` call without a scan in between returns `NO_PRESS`.  `button_state`
returns the debounced state and the button unchanged, so a `button_event` call after it
still returns the recorded release. -/
theorem button_event_once (b : Button) (level : Nat)
    (hup : reads_pressed b level = false) (hc : b.counter = 0)
    (hst : b.state = SHORT_PRESS ∨ b.state = LONG_PRESS) :
    (button_scan level b).release_flag = SET ∧
    (button_scan level b).release_state = b.state ∧
    (button_scan level b).state = NO_PRESS ∧
    (button_event (button_scan level b)).1 = b.state ∧
    (button_event (button_scan level b)).2.release_flag = RESET ∧
    (button_event (button_scan level b)).2.release_state = NO_PRESS ∧
    (∀ n : Nat, (button_event ((fun y => (button_event y).2)^[n + 1]
      (button_scan level b))).1 = NO_PRESS) ∧
    (∀ x : Button, button_state x = (x.state, x)) ∧
    (button_event (button_state (button_scan level b)).2).1 = b.state := by
  have hne : b.state ≠ NO_PRESS := by
    rcases hst with h | h <;> rw [h] <;> decide
  have hscan : button_scan level b =
      { b with long_press_ticks := 0, release_flag := SET, release_state := b.state,
               state := NO_PRESS } := by
    unfold reads_pressed at hup
    unfold button_scan
    by_cases hp : b.polarity = INVERTED
    · rw [if_pos hp] at hup
      have h0 : ¬ (u8 level = 0) := by simpa using hup
      simp only [if_pos hp, if_neg h0, ne_eq, not_true_eq_false, if_false, if_pos hc,
        hne, not_false_eq_true, if_true]
    · rw [if_neg hp] at hup
      have h0 : u8 level = 0 := by simpa using hup
      simp only [if_neg hp, h0, ne_eq, not_true_eq_false, if_false, if_pos hc,
        hne, not_false_eq_true, if_true]
  have hev : button_event (button_scan level b) =
      (b.state, { b with long_press_ticks := 0, release_flag := RESET,
                         release_state := NO_PRESS, state := NO_PRESS }) := by
    rw [hscan]
    unfold button_event
    dsimp only
    rw [if_pos (show SET ≠ 0 by decide)]
  refine ⟨by rw [hscan], by rw [hscan], by rw [hscan], by rw [hev], by rw [hev],
    by rw [hev], ?_, fun x => rfl, ?_⟩
  · intro n
    rw [Function.iterate_succ_apply, hev]
    dsimp only
    rw [button_event_iterate _ rfl n, button_event_cleared _ rfl]
  · unfold button_state
    dsimp only
    rw [hev]

/-- A button held until `SHORT_PRESS` is reported and then let go: the scan that finds
the counter back at zero records the release, and `button_event` reports it once. -/
theorem button_event_once_witness :
    (button_scans [0, 0, 0, 0, 1, 1, 1] fresh_button).state = SHORT_PRESS ∧
    (button_event (button_scan 1 (button_scans [0, 0, 0, 0, 1, 1, 1] fresh_button))).1
      = SHORT_PRESS ∧
    (button_event (button_event
      (button_scan 1 (button_scans [0, 0, 0, 0, 1, 1, 1] fresh_button))).2).1 = NO_PRESS := by
  have h := button_event_once (button_scans [0, 0, 0, 0, 1, 1, 1] fresh_button) 1
    (by decide) (by decide) (Or.inl (by decide))
  exact ⟨by decide, by rw [h.2.2.2.1]; decide, h.2.2.2.2.2.2.1 0⟩

/-! ## Debounce timing -/

theorem button_scan_pressed (b : Button) (level : Nat) (hp : reads_pressed b level = true) :
    button_scan level b =
      if b.counter = DEBOUNCE_TICKS then
        if b.long_press_ticks = LONG_PRESS_TICKS then { b with state := LONG_PRESS }
        else { b with state := SHORT_PRESS, long_press_ticks := u16 (b.long_press_ticks + 1) }
      else { b with counter := u8 (b.counter + 1) } := by
  unfold reads_pressed at hp
  unfold button_scan
  by_cases hpol : b.polarity = INVERTED
  · rw [if_pos hpol] at hp
    have h0 : u8 level = 0 := by simpa using hp
    simp only [if_pos hpol, h0, if_true, ne_eq, one_ne_zero, not_false_eq_true]
  · rw [if_neg hpol] at hp
    have h0 : ¬ (u8 level = 0) := by simpa using hp
    simp only [if_neg hpol, ne_eq, h0, not_false_eq_true, if_true]

theorem button_scans_snoc (levels : List Nat) (level : Nat) (b : Button) :
    button_scans (levels ++ [level]) b = button_scan level (button_scans levels b) := by
  unfold button_scans
  rw [List.foldl_append]
  rfl

/-- The button after `n` scans that all read pressed, starting from `button_init`. -/
theorem button_scans_held (port pin polarity level : Nat) (b : Button)
    (hp : reads_pressed (button_init port pin polarity b) level = true) (n : Nat) :
    button_scans (List.replicate n level) (button_init port pin polarity b) =
      { button_init port pin polarity b with
        counter := min n DEBOUNCE_TICKS,
        long_press_ticks := min (n - DEBOUNCE_TICKS) LONG_PRESS_TICKS,
        state := if n ≤ DEBOUNCE_TICKS then NO_PRESS
                 else if n ≤ DEBOUNCE_TICKS + LONG_PRESS_TICKS then SHORT_PRESS
                 else LONG_PRESS } := by
  induction n with
  | zero => rfl
  | succ k ih =>
    rw [List.replicate_succ', button_scans_snoc, ih, button_scan_pressed _ _ (by exact hp)]
    dsimp only
    simp only [DEBOUNCE_TICKS, LONG_PRESS_TICKS, NO_PRESS, SHORT_PRESS, LONG_PRESS, u8, u16]
    by_cases h3 : k < 3
    · have e1 : min k 3 = k := by omega
      have e2 : min (k + 1) 3 = k + 1 := by omega
      have e3 : min (k - 3) 50 = 0 := by omega
      have e4 : min (k + 1 - 3) 50 = 0 := by omega
      rw [e1, e2, e3, e4, if_neg (by omega), if_pos (by omega : k ≤ 3),
        if_pos (by omega : k + 1 ≤ 3), Nat.mod_eq_of_lt (by omega)]
    · have e1 : min k 3 = 3 := by omega
      have e2 : min (k + 1) 3 = 3 := by omega
      rw [e1, e2, if_pos rfl]
      by_cases h53 : k < 53
      · have e3 : min (k - 3) 50 = k - 3 := by omega
        have e4 : min (k + 1 - 3) 50 = k + 1 - 3 := by omega
        rw [e3, e4, if_neg (by omega), if_neg (by omega : ¬ k + 1 ≤ 3),
          if_pos (by omega : k + 1 ≤ 3 + 50), Nat.mod_eq_of_lt (by omega)]
        congr 1
        omega
      · have e3 : min (k - 3) 50 = 50 := by omega
        have e4 : min (k + 1 - 3) 50 = 50 := by omega
        rw [e3, e4, if_pos rfl, if_neg (by omega : ¬ k + 1 ≤ 3),
          if_neg (by omega : ¬ k + 1 ≤ 3 + 50)]

theorem button_scan_counter_le (level : Nat) (x : Button) (h : x.counter ≤ DEBOUNCE_TICKS) :
    (button_scan level x).counter ≤ DEBOUNCE_TICKS := by
  unfold button_scan
  simp only [DEBOUNCE_TICKS, u8] at h ⊢
  split_ifs <;> dsimp only <;> omega

theorem button_scans_counter_le (levels : List Nat) (x : Button)
    (h : x.counter ≤ DEBOUNCE_TICKS) : (button_scans levels x).counter ≤ DEBOUNCE_TICKS := by
  induction levels generalizing x with
  | nil => exact h
  | cons l ls ih => exact ih (button_scan l x) (button_scan_counter_le l x h)

/-- C26: for a freshly initialised button whose input reads pressed on every scan,
`button_state` is `NO_PRESS` after each of the first `DEBOUNCE_TICKS` scans (and before
the first), `SHORT_PRESS` from scan `DEBOUNCE_TICKS + 1` up to scan
`DEBOUNCE_TICKS + LONG_PRESS_TICKS`, and `LONG_PRESS` from scan
`DEBOUNCE_TICKS + 1 + LONG_PRESS_TICKS` on, that is 50 scans after `SHORT_PRESS` was first
reported, for as long as it is held.  For every input sequence the debounce counter of
a freshly initialised button stays at most `DEBOUNCE_TICKS`, and a scan on which the
state leaves `NO_PRESS` is one that found the counter equal to `DEBOUNCE_TICKS`. -/
theorem button_scan_debounce (port pin polarity level : Nat) (b : Button)
    (hp : reads_pressed (button_init port pin polarity b) level = true) :
    (∀ n : Nat, n ≤ DEBOUNCE_TICKS →
      (button_state (button_scans (List.replicate n level)
        (button_init port pin polarity b))).1 = NO_PRESS) ∧
    (∀ n : Nat, DEBOUNCE_TICKS + 1 ≤ n → n < DEBOUNCE_TICKS + 1 + LONG_PRESS_TICKS →
      (button_state (button_scans (List.replicate n level)
        (button_init port pin polarity b))).1 = SHORT_PRESS) ∧
    (∀ n : Nat, DEBOUNCE_TICKS + 1 + LONG_PRESS_TICKS ≤ n →
      (button_state (button_scans (List.replicate n level)
        (button_init port pin polarity b))).1 = LONG_PRESS) ∧
    (∀ levels : List Nat,
      (button_scans levels (button_init port pin polarity b)).counter ≤ DEBOUNCE_TICKS) ∧
    (∀ (x : Button) (l : Nat), x.state = NO_PRESS → (button_scan l x).state ≠ NO_PRESS →
      x.counter = DEBOUNCE_TICKS) := by
  refine ⟨?_, ?_, ?_, ?_, ?_⟩
  · intro n hn
    rw [button_scans_held port pin polarity level b hp n]
    unfold button_state
    dsimp only
    rw [if_pos hn]
  · intro n h1 h2
    rw [button_scans_held port pin polarity level b hp n]
    unfold button_state
    dsimp only
    simp only [DEBOUNCE_TICKS, LONG_PRESS_TICKS] at h1 h2 ⊢
    rw [if_neg (by omega), if_pos (by omega)]
  · intro n h1
    rw [button_scans_held port pin polarity level b hp n]
    unfold button_state
    dsimp only
    simp only [DEBOUNCE_TICKS, LONG_PRESS_TICKS] at h1 ⊢
    rw [if_neg (by omega), if_neg (by omega)]
  · intro levels
    exact button_scans_counter_le levels _ (Nat.zero_le _)
  · intro x l hx hne
    by_contra hc
    apply hne
    unfold button_scan
    dsimp only
    split_ifs <;> first | exact hx | rfl

/-- An inverted button held low: nothing after three scans, a short press at the
fourth and up to the fifty-third, a long press from the fifty-fourth. -/
theorem button_scan_debounce_witness :
    (button_state (button_scans (List.replicate 3 0) (button_init 0 5 INVERTED fresh_button))).1
      = NO_PRESS ∧
    (button_state (button_scans (List.replicate 4 0) (button_init 0 5 INVERTED fresh_button))).1
      = SHORT_PRESS ∧
    (button_state (button_scans (List.replicate 53 0) (button_init 0 5 INVERTED fresh_button))).1
      = SHORT_PRESS ∧
    (button_state (button_scans (List.replicate 54 0) (button_init 0 5 INVERTED fresh_button))).1
      = LONG_PRESS ∧
    (button_scans [0, 1, 0, 0, 0, 0, 1, 1, 0] (button_init 0 5 INVERTED fresh_button)).counter
      ≤ DEBOUNCE_TICKS :=
  ⟨(button_scan_debounce 0 5 INVERTED 0 fresh_button (by decide)).1 3 (by decide),
   (button_scan_debounce 0 5 INVERTED 0 fresh_button (by decide)).2.1 4 (by decide) (by decide),
   (button_scan_debounce 0 5 INVERTED 0 fresh_button (by decide)).2.1 53 (by decide) (by decide),
   (button_scan_debounce 0 5 INVERTED 0 fresh_button (by decide)).2.2.1 54 (by decide),
   (button_scan_debounce 0 5 INVERTED 0 fresh_button (by decide)).2.2.2.1 _⟩

/-! ## Encoder delta -/

theorem encoder_event_changed (e : Encoder) (h : e.CNT ≠ e.value) :
    (encoder_event e).1 ≠ NO_CHANGE ∧
    (encoder_event e).2.flag = SET ∧
    (encoder_event e).2.delta = toInt32 (u32 (e.CNT + 4294967296 - e.value)) ∧
    (encoder_event e).2.value = e.CNT := by
  unfold encoder_event encoder_overflow_check
  dsimp only
  rw [if_pos h]
  split_ifs <;> refine ⟨?_, rfl, rfl, rfl⟩ <;> dsimp only <;> decide

theorem get_encoder_delta_after_event (e : Encoder) (h : e.CNT ≠ e.value) :
    get_encoder_delta (encoder_event e).2 =
      (toInt32 (u32 (e.CNT + 4294967296 - e.value)),
       { (encoder_event e).2 with flag := RESET }) := by
  obtain ⟨_, hflag, hdelta, _⟩ := encoder_event_changed e h
  unfold get_encoder_delta
  dsimp only
  rw [if_pos (by rw [hflag]; decide), hdelta]

theorem encoder_event_unchanged (e : Encoder) (h : e.CNT = e.value) :
    encoder_event e = (NO_CHANGE, { e with state := NO_CHANGE }) := by
  unfold encoder_event
  dsimp only
  rw [if_neg (not_not.mpr h)]

theorem get_encoder_delta_cleared (x : Encoder) (h : x.flag = RESET) :
    get_encoder_delta x = (0, x) := by
  unfold get_encoder_delta
  dsimp only
  rw [if_neg (by rw [h]; decide)]

theorem quiet_calls_flag (ops : List (Option Nat)) (x : Encoder) (h : x.flag = RESET) :
    (quiet_calls ops x).flag = RESET := by
  induction ops generalizing x with
  | nil => exact h
  | cons op rest ih =>
    cases op with
    | none =>
      have e1 : quiet_calls (none :: rest) x = quiet_calls rest (get_encoder_delta x).2 := rfl
      rw [e1, get_encoder_delta_cleared x h]
      exact ih x h
    | some sr =>
      have e1 : quiet_calls (some sr :: rest) x =
          quiet_calls rest (encoder_event { x with CNT := x.value, SR := sr }).2 := rfl
      rw [e1, encoder_event_unchanged _ rfl]
      exact ih _ h

/-- C24: `encoder_event` returns `NO_CHANGE` exactly when the timer counter equals the
stored value.  After an `encoder_event` that sees the counter at `c` with stored value
`v ≠ c`, the first `get_encoder_delta` call returns `c - v` computed in 32-bit unsigned
arithmetic and read as an `int32_t` (the integer `c - v` itself whenever that lies in the
`int32_t` range) and clears the flag; after it, every `get_encoder_delta` call returns 0
for as long as the calls in between are `get_encoder_delta` calls or `encoder_event`
calls that detect no change. -/
theorem encoder_delta_clears_on_read (e : Encoder) :
    ((encoder_event e).1 = NO_CHANGE ↔ e.CNT = e.value) ∧
    (e.CNT ≠ e.value →
      (get_encoder_delta (encoder_event e).2).1
        = toInt32 (u32 (e.CNT + 4294967296 - e.value)) ∧
      (e.CNT < 4294967296 → e.value < 4294967296 →
        -2147483648 ≤ (e.CNT : Int) - (e.value : Int) →
        (e.CNT : Int) - (e.value : Int) < 2147483648 →
        (get_encoder_delta (encoder_event e).2).1 = (e.CNT : Int) - (e.value : Int)) ∧
      (get_encoder_delta (encoder_event e).2).2.flag = RESET ∧
      (get_encoder_delta (encoder_event e).2).2.value = e.CNT ∧
      (∀ ops : List (Option Nat),
        (get_encoder_delta
          (quiet_calls ops (get_encoder_delta (encoder_event e).2).2)).1 = 0)) := by
  constructor
  · constructor
    · intro h
      by_contra hne
      exact (encoder_event_changed e hne).1 h
    · intro h
      rw [encoder_event_unchanged e h]
  · intro hne
    obtain ⟨_, _, _, hvalue⟩ := encoder_event_changed e hne
    have hget := get_encoder_delta_after_event e hne
    refine ⟨by rw [hget], ?_, by rw [hget], by rw [hget]; exact hvalue, ?_⟩
    · intro hc hv hlo hhi
      rw [hget]
      dsimp only
      unfold toInt32 u32
      split_ifs <;> omega
    · intro ops
      rw [get_encoder_delta_cleared _ (quiet_calls_flag ops _ (by rw [hget]))]

/-- The counter moves from 32768 to 32771: the event is `INCREASE`, the first read of
the delta gives 3 and the second 0; from 32768 to 32766 the delta is -2. -/
theorem encoder_delta_clears_on_read_witness :
    (encoder_event (encoder_at 32771)).1 = INCREASE ∧
    (get_encoder_delta (encoder_event (encoder_at 32771)).2).1 = 3 ∧
    (get_encoder_delta (quiet_calls [none, some 0]
      (get_encoder_delta (encoder_event (encoder_at 32771)).2).2)).1 = 0 ∧
    (get_encoder_delta (encoder_event (encoder_at 32766)).2).1 = -2 := by
  have h := (encoder_delta_clears_on_read (encoder_at 32771)).2 (by decide)
  have h2 := (encoder_delta_clears_on_read (encoder_at 32766)).2 (by decide)
  refine ⟨by decide, ?_, h.2.2.2.2 _, ?_⟩
  · rw [h.2.1 (by decide) (by decide) (by decide) (by decide)]
    decide
  · rw [h2.2.1 (by decide) (by decide) (by decide) (by decide)]
    decide

/-! ## Set temperature from the encoder -/

theorem new_set_temp_range (s : Nat) (d : Int) :
    (MIN_TEMP : Int) ≤ new_set_temp s d ∧ new_set_temp s d ≤ (MAX_TEMP : Int) := by
  unfold new_set_temp
  dsimp only
  generalize int16 _ = x
  simp only [MIN_TEMP, MAX_TEMP]
  push_cast
  split_ifs <;> constructor <;> omega

theorem new_set_temp_exact (s : Nat) (d : Int) (hs : s ≤ MAX_TEMP)
    (hlo : -32768 ≤ (s : Int) + 5 * d) (hhi : (s : Int) + 5 * d ≤ 32767) :
    new_set_temp s d = min (max ((s : Int) + 5 * d) 30) 400 := by
  simp only [MAX_TEMP] at hs
  have a0 : toInt16 s = (s : Int) := by
    unfold toInt16
    split_ifs <;> omega
  have a1 : int32 ((TEMP_STEPS : Int) * d) = 5 * d := by
    unfold int32
    simp only [TEMP_STEPS]
    push_cast
    omega
  have a2 : int32 ((s : Int) + 5 * d) = (s : Int) + 5 * d := by
    unfold int32
    omega
  have a3 : int16 ((s : Int) + 5 * d) = (s : Int) + 5 * d := by
    unfold int16
    omega
  unfold new_set_temp
  dsimp only
  rw [a0, a1, a2, a3]
  simp only [MIN_TEMP, MAX_TEMP]
  push_cast
  split_ifs <;> omega

theorem read_mmi_set_temp (now : Nat) (m : Mmi) (s : State) :
    (read_mmi now m s).2.set_temp =
      if (encoder_event m.mmi_encoder).1 ≠ NO_CHANGE then
        u16 (Int.toNat (new_set_temp s.set_temp
          (get_encoder_delta (encoder_event m.mmi_encoder).2).1 % 65536))
      else s.set_temp := by
  unfold read_mmi
  dsimp only [button_state]
  split_ifs <;> rfl

/-- C22: for a set temperature `s` of at most `MAX_TEMP` (so in particular for every `s`
in `[MIN_TEMP, MAX_TEMP]`) the value `read_mmi` hands to `set_new_temp` is in `[30, 400]`
for every delta `d`, and equals `min (max (s + 5 * d) 30) 400` whenever `s + 5 * d` is
representable as `int16_t`.  A `read_mmi` call that detects an encoder change (counter
different from the stored value, `d` the 32-bit difference read as `int32_t`) leaves the
set temperature in `[30, 400]`, equal to that clamped value when `s + 5 * d` is
representable; a call that detects no change leaves the set temperature as it was. -/
theorem read_mmi_clamps (now : Nat) (m : Mmi) (s : State) (hhi : s.set_temp ≤ MAX_TEMP) :
    (∀ d : Int, (MIN_TEMP : Int) ≤ new_set_temp s.set_temp d ∧
      new_set_temp s.set_temp d ≤ (MAX_TEMP : Int) ∧
      (-32768 ≤ (s.set_temp : Int) + 5 * d → (s.set_temp : Int) + 5 * d ≤ 32767 →
        new_set_temp s.set_temp d = min (max ((s.set_temp : Int) + 5 * d) 30) 400)) ∧
    (m.mmi_encoder.CNT ≠ m.mmi_encoder.value →
      MIN_TEMP ≤ (read_mmi now m s).2.set_temp ∧
      (read_mmi now m s).2.set_temp ≤ MAX_TEMP ∧
      (-32768 ≤ (s.set_temp : Int) + 5 * toInt32
          (u32 (m.mmi_encoder.CNT + 4294967296 - m.mmi_encoder.value)) →
        (s.set_temp : Int) + 5 * toInt32
          (u32 (m.mmi_encoder.CNT + 4294967296 - m.mmi_encoder.value)) ≤ 32767 →
        ((read_mmi now m s).2.set_temp : Int) =
          min (max ((s.set_temp : Int) + 5 * toInt32
            (u32 (m.mmi_encoder.CNT + 4294967296 - m.mmi_encoder.value))) 30) 400)) ∧
    (m.mmi_encoder.CNT = m.mmi_encoder.value →
      (read_mmi now m s).2.set_temp = s.set_temp) := by
  refine ⟨fun d => ⟨(new_set_temp_range s.set_temp d).1, (new_set_temp_range s.set_temp d).2,
    fun h1 h2 => new_set_temp_exact s.set_temp d hhi h1 h2⟩, ?_, ?_⟩
  · intro hne
    rw [read_mmi_set_temp, if_pos (encoder_event_changed _ hne).1,
      get_encoder_delta_after_event _ hne]
    dsimp only
    have hr := new_set_temp_range s.set_temp
      (toInt32 (u32 (m.mmi_encoder.CNT + 4294967296 - m.mmi_encoder.value)))
    refine ⟨?_, ?_, ?_⟩
    · generalize new_set_temp s.set_temp _ = x at hr ⊢
      unfold u16
      simp only [MIN_TEMP, MAX_TEMP] at hr ⊢
      omega
    · generalize new_set_temp s.set_temp _ = x at hr ⊢
      unfold u16
      simp only [MIN_TEMP, MAX_TEMP] at hr ⊢
      omega
    · intro h1 h2
      rw [← new_set_temp_exact s.set_temp _ hhi h1 h2]
      generalize new_set_temp s.set_temp _ = x at hr ⊢
      unfold u16
      simp only [MIN_TEMP, MAX_TEMP] at hr ⊢
      omega
  · intro he
    rw [read_mmi_set_temp, encoder_event_unchanged _ he]
    exact if_neg (fun h => h rfl)

/-- Three detents up from 300 give 315, forty up give the ceiling 400, sixty down the
floor 30; a counter that has not moved leaves 300. -/
theorem read_mmi_clamps_witness :
    (read_mmi 0 (mmi_at 32771) init).2.set_temp = 315 ∧
    (read_mmi 0 (mmi_at 32808) init).2.set_temp = 400 ∧
    (read_mmi 0 (mmi_at 32708) init).2.set_temp = 30 ∧
    (read_mmi 0 (mmi_at 32768) init).2.set_temp = 300 := by
  have h1 := ((read_mmi_clamps 0 (mmi_at 32771) init (by decide)).2.1
    (by decide)).2.2 (by decide) (by decide)
  have h2 := ((read_mmi_clamps 0 (mmi_at 32808) init (by decide)).2.1
    (by decide)).2.2 (by decide) (by decide)
  have h3 := ((read_mmi_clamps 0 (mmi_at 32708) init (by decide)).2.1
    (by decide)).2.2 (by decide) (by decide)
  have h4 := (read_mmi_clamps 0 (mmi_at 32768) init (by decide)).2.2 (by decide)
  refine ⟨?_, ?_, ?_, h4⟩
  · have e : (min (max ((init.set_temp : Int) + 5 * toInt32
        (u32 ((mmi_at 32771).mmi_encoder.CNT + 4294967296 - (mmi_at 32771).mmi_encoder.value)))
        30) 400) = 315 := by decide
    rw [e] at h1
    exact_mod_cast h1
  · have e : (min (max ((init.set_temp : Int) + 5 * toInt32
        (u32 ((mmi_at 32808).mmi_encoder.CNT + 4294967296 - (mmi_at 32808).mmi_encoder.value)))
        30) 400) = 400 := by decide
    rw [e] at h2
    exact_mod_cast h2
  · have e : (min (max ((init.set_temp : Int) + 5 * toInt32
        (u32 ((mmi_at 32708).mmi_encoder.CNT + 4294967296 - (mmi_at 32708).mmi_encoder.value)))
        30) 400) = 30 := by decide
    rw [e] at h3
    exact_mod_cast h3

/-! ## Heating bursts end in a read half-cycle -/

theorem tim6_heater_phase (s : State) (h1 : 1 ≤ s.on_periods) (h8 : s.on_periods < 256)
    (ht : s.tip_temp < MAX_TEMP) :
    timer_interrupt Timer.htim6 s =
      { s with tim6_running := false,
               heater_power_history := u32 (u32 (s.heater_power_history * 2) + 1),
               tip_check_counter := u16 (s.tip_check_counter + 1),
               heater_pin := ON,
               on_periods := s.on_periods - 1,
               hw := s.hw ++ [HwOp.tim6_stop, HwOp.clamp_low, HwOp.heater_write ON,
                              HwOp.sensor_scan] } := by
  have hc : s.on_periods ≥ 1 ∧ s.tip_temp < MAX_TEMP := ⟨h1, ht⟩
  have hu : u8 (s.on_periods + 256 - 1) = s.on_periods - 1 := by
    unfold u8
    omega
  simp only [timer_interrupt, heater_write, emit]
  rw [if_pos hc, hu]
  simp only [List.append_assoc, List.singleton_append, List.cons_append, List.nil_append]

theorem tim6_train_succ (k : Nat) (s : State) :
    run (tim6_train (k + 1)) s = timer_interrupt Timer.htim6 (run (tim6_train k) s) := by
  unfold tim6_train
  rw [List.replicate_succ', run_append]
  rfl

/-- The state after `k` TIM6 events in a row, while heater periods are left. -/
theorem tim6_train_heating (s : State) (h8 : s.on_periods < 256) (ht : s.tip_temp < MAX_TEMP)
    (k : Nat) (hk : k ≤ s.on_periods) :
    (run (tim6_train k) s).on_periods = s.on_periods - k ∧
    (run (tim6_train k) s).tip_temp = s.tip_temp ∧
    (run (tim6_train k) s).tim7_running = s.tim7_running := by
  induction k with
  | zero => exact ⟨rfl, rfl, rfl⟩
  | succ j ih =>
    obtain ⟨h1, h2, h3⟩ := ih (by omega)
    rw [tim6_train_succ, tim6_heater_phase _ (by omega) (by omega) (by rw [h2]; exact ht)]
    dsimp only
    exact ⟨by omega, h2, h3⟩

/-- C21: when `on_periods = n` with `1 ≤ n ≤ MAX_ON_PERIODS` and `tip_temp < MAX_TEMP`, and
only TIM6 events follow, each of the next `n` events is a heater phase (sense line
clamped, heater pin high, `on_periods` one lower, TIM7 untouched), after the `n`-th
`on_periods` is 0, and event `n + 1` is a read phase (heater pin low, TIM7 started).
Hence from any state with `on_periods ≤ MAX_ON_PERIODS` a read phase comes after at
most `MAX_ON_PERIODS` TIM6 events. -/
theorem heating_burst_then_read (s : State) (n : Nat) (hn : s.on_periods = n) (h1 : 1 ≤ n)
    (h4 : n ≤ MAX_ON_PERIODS) (ht : s.tip_temp < MAX_TEMP) :
    (∀ k : Nat, k < n →
      (run (tim6_train (k + 1)) s).heater_pin = ON ∧
      (run (tim6_train (k + 1)) s).on_periods = n - (k + 1) ∧
      (run (tim6_train (k + 1)) s).tim7_running = s.tim7_running ∧
      (run (tim6_train (k + 1)) s).hw = (run (tim6_train k) s).hw ++
        [HwOp.tim6_stop, HwOp.clamp_low, HwOp.heater_write ON, HwOp.sensor_scan]) ∧
    (run (tim6_train n) s).on_periods = 0 ∧
    (run (tim6_train (n + 1)) s).heater_pin = OFF ∧
    (run (tim6_train (n + 1)) s).tim7_running = true ∧
    (run (tim6_train (n + 1)) s).on_periods = 0 ∧
    (run (tim6_train (n + 1)) s).hw = (run (tim6_train n) s).hw ++
      [HwOp.tim6_stop, HwOp.heater_write OFF, HwOp.tim7_start, HwOp.sensor_scan] ∧
    (∀ t : State, t.on_periods ≤ MAX_ON_PERIODS →
      ∃ k : Nat, k ≤ MAX_ON_PERIODS ∧
        (run (tim6_train (k + 1)) t).heater_pin = OFF ∧
        (run (tim6_train (k + 1)) t).tim7_running = true) := by
  simp only [MAX_ON_PERIODS] at h4
  have h8 : s.on_periods < 256 := by omega
  have hend := tim6_train_heating s h8 ht n (by omega)
  have hread : ¬ ((run (tim6_train n) s).on_periods ≥ 1 ∧
      (run (tim6_train n) s).tip_temp < MAX_TEMP) := by
    rw [hend.1]
    omega
  refine ⟨?_, by rw [hend.1]; omega, ?_, ?_, ?_, ?_, ?_⟩
  · intro k hk
    obtain ⟨a1, a2, a3⟩ := tim6_train_heating s h8 ht k (by omega)
    rw [tim6_train_succ, tim6_heater_phase _ (by omega) (by omega) (by rw [a2]; exact ht)]
    dsimp only
    exact ⟨rfl, by omega, a3, rfl⟩
  · rw [tim6_train_succ, tim6_read_phase _ hread]
  · rw [tim6_train_succ, tim6_read_phase _ hread]
  · rw [tim6_train_succ, tim6_read_phase _ hread]
    dsimp only
    rw [hend.1]
    omega
  · rw [tim6_train_succ, tim6_read_phase _ hread]
  · intro t h
    simp only [MAX_ON_PERIODS] at h ⊢
    by_cases hc : t.tip_temp < MAX_TEMP
    · have hk := tim6_train_heating t (by omega) hc t.on_periods (le_refl _)
      have hr : ¬ ((run (tim6_train t.on_periods) t).on_periods ≥ 1 ∧
          (run (tim6_train t.on_periods) t).tip_temp < MAX_TEMP) := by
        rw [hk.1]
        omega
      refine ⟨t.on_periods, h, ?_, ?_⟩
      · rw [tim6_train_succ, tim6_read_phase _ hr]
      · rw [tim6_train_succ, tim6_read_phase _ hr]
    · have hr : ¬ ((run (tim6_train 0) t).on_periods ≥ 1 ∧
          (run (tim6_train 0) t).tip_temp < MAX_TEMP) := fun hh => hc hh.2
      refine ⟨0, Nat.zero_le _, ?_, ?_⟩
      · rw [tim6_train_succ, tim6_read_phase _ hr]
      · rw [tim6_train_succ, tim6_read_phase _ hr]

/-- Four periods scheduled at 250 degrees: four heater phases, then the fifth TIM6 event
switches the heater off and starts TIM7. -/
theorem heating_burst_then_read_witness :
    (run (tim6_train 4) (heating 4 3500)).heater_pin = ON ∧
    (run (tim6_train 4) (heating 4 3500)).on_periods = 0 ∧
    (run (tim6_train 5) (heating 4 3500)).heater_pin = OFF ∧
    (run (tim6_train 5) (heating 4 3500)).tim7_running = true :=
  ⟨((heating_burst_then_read (heating 4 3500) 4 (by decide) (by decide) (by decide)
      (by decide)).1 3 (by decide)).1,
   (heating_burst_then_read (heating 4 3500) 4 (by decide) (by decide) (by decide)
      (by decide)).2.1,
   (heating_burst_then_read (heating 4 3500) 4 (by decide) (by decide) (by decide)
      (by decide)).2.2.1,
   (heating_burst_then_read (heating 4 3500) 4 (by decide) (by decide) (by decide)
      (by decide)).2.2.2.1⟩

/-! ## Temperature conversion -/

theorem adc_to_temperature_exact (s : State) (a : Nat) (ha : a ≤ 65535) :
    (adc_to_temperature { s with adc_buffer_average := a }).tip_temp = a * 100 / 750 + 25 := by
  have h1 : a * 100 % 4294967296 = a * 100 := Nat.mod_eq_of_lt (by omega)
  have h2 : (a * 100 / 750 + 25) % 4294967296 = a * 100 / 750 + 25 :=
    Nat.mod_eq_of_lt (by omega)
  have h3 : (a * 100 / 750 + 25) % 65536 = a * 100 / 750 + 25 :=
    Nat.mod_eq_of_lt (by omega)
  simp only [adc_to_temperature, u16, u32, h1, h2, h3]

/-- C25, as stated, fails: a non-check burst with a detected tip whose 50 samples all
equal 32568 has every sample within tolerance of the average 32568, yet the upper limit
`32768` becomes `-32768` as an `int16_t`, the deviation check raises the flag and
`adc_complete` stores the sentinel 999 instead of `floor (32568 * 100 / 750) + 25 = 4367`. -/
theorem conversion_counterexample :
    buffer_ok (List.replicate 50 32568) ∧
    (List.replicate 50 32568).sum / ADC_BUFFER_LENGTH = 32568 ∧
    (∀ x ∈ List.replicate 50 32568, 32568 - 200 ≤ x ∧ x ≤ 32568 + 200) ∧
    (sampling OFF_STATE RESET 0 (List.replicate 50 32568)).tip_check_flag = RESET ∧
    (sampling OFF_STATE RESET 0 (List.replicate 50 32568)).tip_state = TIP_DETECTED ∧
    toInt16 (u32 (32568 + ADC_MAX_DEVIATION)) = -32768 ∧
    32568 * 100 / 750 + 25 = 4367 ∧
    (adc_complete (sampling OFF_STATE RESET 0 (List.replicate 50 32568))).tip_temp
      = ADC_READING_ERROR := by
  have hok : buffer_ok (sampling OFF_STATE RESET 0 (List.replicate 50 32568)).adc_buffer := by
    decide
  have hd : ∃ i ∈ List.range ADC_BUFFER_LENGTH,
      (((sampling OFF_STATE RESET 0 (List.replicate 50 32568)).adc_buffer.getD i 0 : Nat) : Int) >
        toInt16 (u32 ((sampling OFF_STATE RESET 0 (List.replicate 50 32568)).adc_buffer.sum
          / ADC_BUFFER_LENGTH + ADC_MAX_DEVIATION)) ∨
      (((sampling OFF_STATE RESET 0 (List.replicate 50 32568)).adc_buffer.getD i 0 : Nat) : Int) <
        toInt16 (u32 ((sampling OFF_STATE RESET 0 (List.replicate 50 32568)).adc_buffer.sum
          / ADC_BUFFER_LENGTH + 4294967296 - ADC_MAX_DEVIATION)) :=
    ⟨0, by decide, Or.inl (by decide)⟩
  refine ⟨by decide, by decide, by decide, rfl, rfl, by decide, by decide, ?_⟩
  rw [adc_complete_flagged _ hok (by decide) (by decide) hd]
  rfl

/-- C25, amended: for every burst of 50 16-bit samples the 32-bit accumulator holds the
exact sum, the stored average is `floor (sum / 50)`, at most 65535, and neither
`average * 100` (32 bits) nor `floor (average * 100 / 750) + 25` (16 bits) overflows, so
`adc_to_temperature` yields exactly that value; on averages up to 65535 the conversion
is monotonically non-decreasing and never below 25.  For a non-check burst with a
detected tip, no error flag already raised, all samples within 200 counts of the average
and an average of at most 32567 (so that `average + 200` fits the `int16_t` limit),
`adc_complete` sets `tip_temp` to that value. -/
theorem adc_complete_conversion (s : State) (hok : buffer_ok s.adc_buffer) :
    (s.adc_buffer.sum < 4294967296 ∧
      (adc_calculate_buffer_average s).adc_buffer_average
        = s.adc_buffer.sum / ADC_BUFFER_LENGTH ∧
      s.adc_buffer.sum / ADC_BUFFER_LENGTH ≤ 65535 ∧
      s.adc_buffer.sum / ADC_BUFFER_LENGTH * 100 < 4294967296 ∧
      s.adc_buffer.sum / ADC_BUFFER_LENGTH * 100 / 750 + 25 < 65536 ∧
      (adc_to_temperature (adc_calculate_buffer_average s)).tip_temp
        = s.adc_buffer.sum / ADC_BUFFER_LENGTH * 100 / 750 + 25) ∧
    (∀ a b : Nat, a ≤ b → b ≤ 65535 →
      (adc_to_temperature { s with adc_buffer_average := a }).tip_temp
        ≤ (adc_to_temperature { s with adc_buffer_average := b }).tip_temp) ∧
    (∀ a : Nat, a ≤ 65535 →
      25 ≤ (adc_to_temperature { s with adc_buffer_average := a }).tip_temp) ∧
    (s.tip_check_flag = RESET → s.tip_state = TIP_DETECTED → s.error_flag ≠ SET →
      s.adc_buffer.sum / ADC_BUFFER_LENGTH ≤ 32567 →
      (∀ x ∈ s.adc_buffer,
        ((s.adc_buffer.sum / ADC_BUFFER_LENGTH : Nat) : Int) - 200 ≤ ((x : Nat) : Int) ∧
        ((x : Nat) : Int) ≤ ((s.adc_buffer.sum / ADC_BUFFER_LENGTH : Nat) : Int) + 200) →
      (adc_complete s).tip_temp = s.adc_buffer.sum / ADC_BUFFER_LENGTH * 100 / 750 + 25) := by
  have hle := average_le s.adc_buffer hok
  have hsum := list_sum_le_of_lt s.adc_buffer hok.2
  rw [hok.1] at hsum
  simp only [ADC_BUFFER_LENGTH] at hsum
  refine ⟨⟨by omega, ?_, hle, ?_, ?_, ?_⟩, ?_, ?_, ?_⟩
  · rw [adc_calculate_buffer_average_eq s hok]
  · omega
  · omega
  · rw [adc_calculate_buffer_average_eq s hok]
    exact adc_to_temperature_exact s _ hle
  · intro a b hab hb
    rw [adc_to_temperature_exact s a (by omega), adc_to_temperature_exact s b hb]
    have := Nat.div_le_div_right (c := 750) (Nat.mul_le_mul_right 100 hab)
    omega
  · intro a ha
    rw [adc_to_temperature_exact s a ha]
    omega
  · intro hflag htip herr havg hin
    have hd := deviation_not_detected s.adc_buffer hok havg hin
    rw [adc_complete_unflagged s hok hflag htip herr hd]
    show (if s.system_state = ON_STATE ∨ s.system_state = STANDBY_STATE then
          power_control (adc_to_temperature
            { s with adc_buffer_average := s.adc_buffer.sum / ADC_BUFFER_LENGTH })
        else
          adc_to_temperature
            { s with adc_buffer_average := s.adc_buffer.sum / ADC_BUFFER_LENGTH }).tip_temp
        = s.adc_buffer.sum / ADC_BUFFER_LENGTH * 100 / 750 + 25
    split_ifs
    · rw [power_control, power_law_frame]
      exact adc_to_temperature_exact s _ hle
    · exact adc_to_temperature_exact s _ hle

/-- A burst averaging 3500, with samples from 3450 to 3550, converts to 491 degrees. -/
theorem adc_complete_conversion_witness :
    (3450 :: 3550 :: List.replicate 48 3500).sum / ADC_BUFFER_LENGTH = 3500 ∧
    (adc_complete (sampling ON_STATE RESET 0 (3450 :: 3550 :: List.replicate 48 3500))).tip_temp
      = 491 := by
  have h := (adc_complete_conversion
    (sampling ON_STATE RESET 0 (3450 :: 3550 :: List.replicate 48 3500)) (by decide)).2.2.2
    (by decide) (by decide) (by decide) (by decide) (by decide)
  refine ⟨by decide, ?_⟩
  rw [h]
  decide

/-! ## No tip, no power -/

theorem adc_complete_no_tip_no_power (s : State) (h : no_tip_no_power s) :
    no_tip_no_power (adc_complete s) := by
  have h1 : (adc_calculate_buffer_average s).on_periods = s.on_periods ∧
      (adc_calculate_buffer_average s).tip_state = s.tip_state ∧
      (adc_calculate_buffer_average s).tip_check_flag = s.tip_check_flag := by
    rw [adc_calculate_buffer_average_frame]
    exact ⟨rfl, rfl, rfl⟩
  have h3 : (adc_deviation_check
        (adc_to_temperature (adc_calculate_buffer_average s))).on_periods = s.on_periods ∧
      (adc_deviation_check
        (adc_to_temperature (adc_calculate_buffer_average s))).tip_state = s.tip_state ∧
      (adc_deviation_check
        (adc_to_temperature (adc_calculate_buffer_average s))).tip_check_flag
        = s.tip_check_flag := by
    rw [adc_deviation_check_frame]
    exact h1
  unfold adc_complete no_tip_no_power
  unfold no_tip_no_power at h
  dsimp only
  generalize adc_deviation_check (adc_to_temperature (adc_calculate_buffer_average s)) = s3
    at h3 ⊢
  generalize adc_calculate_buffer_average s = s1 at h1 ⊢
  split_ifs with c1 c2 c3 c4
  · intro _
    have hz : s1.on_periods = 0 := by
      rw [h1.1]
      exact h (Or.inr (h1.2.2.symm.trans c1))
    simp only [tip_check, emit, ne_eq, not_true_eq_false, if_false]
    split_ifs <;> exact hz
  · intro _
    rfl
  · rw [power_control, power_law_frame]
    intro ha
    rcases ha with ha | ha
    · exact absurd (h3.2.1.trans (h1.2.1.symm.trans c2.2)) ha
    · have hf : s3.tip_check_flag = RESET := h3.2.2.trans (h1.2.2.symm.trans c2.1)
      exact absurd (hf.symm.trans ha) (by decide)
  · intro ha
    rcases ha with ha | ha
    · exact absurd (h3.2.1.trans (h1.2.1.symm.trans c2.2)) ha
    · have hf : s3.tip_check_flag = RESET := h3.2.2.trans (h1.2.2.symm.trans c2.1)
      exact absurd (hf.symm.trans ha) (by decide)
  · intro ha
    show s1.on_periods = 0
    rw [h1.1]
    apply h
    rw [← h1.2.1, ← h1.2.2]
    exact ha

/-- A call of `state_machine` either leaves no heater period scheduled, or leaves the
on-count, the tip state and the tip-check flag as they were. -/
theorem state_machine_heater (now : Nat) (s : State) :
    (state_machine now s).on_periods = 0 ∨
    ((state_machine now s).on_periods = s.on_periods ∧
     (state_machine now s).tip_state = s.tip_state ∧
     (state_machine now s).tip_check_flag = s.tip_check_flag) := by
  by_cases hw : now > get_ac_delay_tick s
  · left
    simp only [state_machine, if_pos hw, error_handler, heater_off, heater_write, emit,
      display_message]
  by_cases h0 : s.system_state = INIT_STATE
  · rw [state_machine_init now s hw h0]
    exact Or.inl rfl
  by_cases h1 : s.system_state = TIP_CHANGE_STATE
  · rw [state_machine_tip_change now s hw h1]
    split_ifs <;> exact Or.inl rfl
  by_cases h2 : s.system_state = OFF_STATE
  · rw [state_machine_off now s hw h2]
    split_ifs <;> exact Or.inl rfl
  by_cases h3 : s.system_state = ON_STATE
  · rw [state_machine_on now s hw h3]
    split_ifs <;> exact Or.inr ⟨rfl, rfl, rfl⟩
  by_cases h4 : s.system_state = STANDBY_STATE
  · rw [state_machine_standby now s hw h4]
    split_ifs <;> exact Or.inr ⟨rfl, rfl, rfl⟩
  by_cases h5 : s.system_state = ERROR_STATE
  · rw [state_machine_error now s hw h5]
    exact Or.inl rfl
  · have hgt : s.system_state > ERROR_STATE := by
      simp only [INIT_STATE, TIP_CHANGE_STATE, OFF_STATE, ON_STATE, STANDBY_STATE, ERROR_STATE,
        gt_iff_lt] at *
      omega
    rw [state_machine_unmapped now s hw hgt]
    exact Or.inr ⟨rfl, rfl, rfl⟩

theorem timer_interrupt_no_tip_no_power (htim : Timer) (s : State) (h : no_tip_no_power s) :
    no_tip_no_power (timer_interrupt htim s) := by
  unfold no_tip_no_power at h ⊢
  cases htim with
  | htim6 =>
    by_cases hc : s.on_periods ≥ 1 ∧ s.tip_temp < MAX_TEMP
    · intro ha
      have hz : s.on_periods = 0 := by
        apply h
        simpa only [timer_interrupt, heater_write, emit, if_pos hc] using ha
      omega
    · rw [tim6_read_phase s hc]
      exact h
  | htim7 =>
    by_cases hd : s.delay_flag ≠ 0
    · simp only [timer_interrupt, if_pos hd, heater_off, emit]
      split_ifs
      · intro _
        rfl
      · exact h
    · simp only [timer_interrupt, if_neg hd, start_adc, emit]
      exact h
  | other => exact h

theorem step_no_tip_no_power (e : Event) (s : State) (he : firmware_operation e = true)
    (h : no_tip_no_power s) : no_tip_no_power (step e s) := by
  cases e with
  | zerocross now pin =>
    show no_tip_no_power (zerocross_interrupt now pin s)
    unfold zerocross_interrupt
    split_ifs
    · exact h
    · exact h
  | timer htim => exact timer_interrupt_no_tip_no_power htim s h
  | adc_complete buf => exact adc_complete_no_tip_no_power _ h
  | power_control => exact absurd he Bool.false_ne_true
  | tip_check =>
    show no_tip_no_power (tip_check s).2
    unfold no_tip_no_power at h ⊢
    unfold tip_check
    dsimp only
    split_ifs
    · intro _
      rfl
    · intro ha
      rcases ha with ha | ha
      · exact h (Or.inl ha)
      · exact absurd ha (by decide)
    · intro ha
      rcases ha with ha | ha
      · exact h (Or.inl ha)
      · exact absurd ha (by decide)
    · intro ha
      rcases ha with ha | ha
      · exact h (Or.inl ha)
      · exact absurd ha (by decide)
  | heater_off => exact fun _ => rfl
  | error_handler => exact fun _ => rfl
  | set_new_temp v => exact h
  | inputs a b => exact h
  | state_machine now =>
    show no_tip_no_power (state_machine now s)
    unfold no_tip_no_power at h ⊢
    rcases state_machine_heater now s with hz | ⟨e1, e2, e3⟩
    · exact fun _ => hz
    · rw [e1, e2, e3]
      exact h

theorem run_no_tip_no_power (es : List Event) (s : State)
    (hes : ∀ e ∈ es, firmware_operation e = true) (h : no_tip_no_power s) :
    no_tip_no_power (run es s) := by
  induction es generalizing s with
  | nil => exact h
  | cons e rest ih =>
    rw [run_cons]
    exact ih (step e s) (fun x hx => hes x (List.mem_cons_of_mem _ hx))
      (step_no_tip_no_power e s (hes e (List.mem_cons_self _ _)) h)

/-- C27: in every state reached from the initial state by any sequence of the firmware's
operations (zero-cross and timer events, `adc_complete` with any buffer, state-machine
ticks at any tick value, operator inputs, `set_new_temp`, `heater_off`, `error_handler`,
`tip_check`), if `tip_state` is not `TIP_DETECTED` or a tip check is pending
(`tip_check_flag = SET`), then `on_periods = 0`. -/
theorem no_tip_no_power_reachable (es : List Event)
    (hes : ∀ e ∈ es, firmware_operation e = true) :
    (run es init).tip_state ≠ TIP_DETECTED ∨ (run es init).tip_check_flag = SET →
      (run es init).on_periods = 0 :=
  run_no_tip_no_power es init hes (by decide)

/-- With no tip detected after power-up, a half-cycle of interrupts, a state-machine
tick, a new set temperature and direct calls of `tip_check`, `error_handler` and
`heater_off` leave no heater period scheduled. -/
theorem no_tip_no_power_reachable_witness :
    (run [Event.zerocross 10 ZERO_CROSS_Pin, Event.timer Timer.htim6, Event.timer Timer.htim7,
          Event.timer Timer.htim7, Event.state_machine 11, Event.set_new_temp 350,
          Event.tip_check, Event.error_handler, Event.heater_off] init).on_periods = 0 :=
  no_tip_no_power_reachable
    [Event.zerocross 10 ZERO_CROSS_Pin, Event.timer Timer.htim6, Event.timer Timer.htim7,
     Event.timer Timer.htim7, Event.state_machine 11, Event.set_new_temp 350,
     Event.tip_check, Event.error_handler, Event.heater_off]
    (by decide) (Or.inl (by decide))

/-! ## AC watchdog and the tick wrap -/

/-- After a zero-cross edge handled at tick `t`, a state-machine tick at a 32-bit tick
`t'` with `t ≤ t' ≤ t + 12` takes the watchdog branch exactly when `t + 12` does not fit
in 32 bits. -/
theorem watchdog_after_edge (t t' : Nat) (s : State) (ht : t < 4294967296)
    (h1 : t ≤ t') (h2 : t' ≤ t + AC_DETECTION_INTERVAL_MS) (h3 : t' < 4294967296) :
    (t' > get_ac_delay_tick (zerocross_interrupt t ZERO_CROSS_Pin s)) ↔
      4294967296 ≤ t + AC_DETECTION_INTERVAL_MS := by
  simp only [zerocross_interrupt, if_true, get_ac_delay_tick, emit, u32,
    AC_DETECTION_INTERVAL_MS] at h2 ⊢
  omega

/-- C28 fails at the wrap of the 32-bit tick: a zero-cross edge handled at tick
4294967290 stores the deadline `(4294967290 + 12) mod 2^32 = 6`, and a state-machine
tick one millisecond later, at 4294967291, finds the tick above the deadline, takes the
watchdog branch (`error_handler`, message `AC_NOT_DETECTED`) and forces `ERROR_STATE`.
The same edge and tick 1000 ms earlier leave the controller in `ON_STATE`. -/
theorem watchdog_trips_at_tick_wrap :
    (zerocross_interrupt 4294967290 ZERO_CROSS_Pin
      (supervised ON_STATE TIP_DETECTED 0 0 0)).ac_delay_tick_ms = 6 ∧
    (state_machine 4294967291 (zerocross_interrupt 4294967290 ZERO_CROSS_Pin
      (supervised ON_STATE TIP_DETECTED 0 0 0))).system_state = ERROR_STATE ∧
    (state_machine 4294967291 (zerocross_interrupt 4294967290 ZERO_CROSS_Pin
      (supervised ON_STATE TIP_DETECTED 0 0 0))).tip_state = TIP_CHECK_ERROR ∧
    (state_machine 4294967291 (zerocross_interrupt 4294967290 ZERO_CROSS_Pin
      (supervised ON_STATE TIP_DETECTED 0 0 0))).hw =
        [HwOp.tim6_start, HwOp.heater_write OFF, HwOp.display_message AC_NOT_DETECTED] ∧
    (state_machine 4294966291 (zerocross_interrupt 4294966290 ZERO_CROSS_Pin
      (supervised ON_STATE TIP_DETECTED 0 0 0))).system_state = ON_STATE := by
  decide

/-! ## Standby timeout and insertion delay at the tick wrap -/

/-- A deadline `now + d` that does not fit in 32 bits is stored `2^32` lower, below the
tick at which it was armed. -/
theorem tick_deadline_wraps (now d : Nat) (hn : now < 4294967296) (hd : d < 4294967296)
    (hw : 4294967296 ≤ now + d) :
    u32 (now + d) = now + d - 4294967296 ∧ u32 (now + d) < now := by
  unfold u32
  omega

set_option maxRecDepth 100000 in
/-- C11 fails at the wrap of the 32-bit tick: in On with a detected tip and the tool put
in the holder, a tick at 4294967295 goes to Standby and arms the standby timeout to
`(4294967295 + 30000) mod 2^32 = 29999`, not to `now + STANDBY_TIME_S * 1000 = 4294997295`;
a second tick in the same millisecond finds `now` above the timeout and leaves Standby
for Off.  The same two ticks at 5000 arm 35000 and stay in Standby. -/
theorem standby_timeout_wraps :
    (state_machine 4294967295
      (supervised ON_STATE TIP_DETECTED 1 0 4294967295)).system_state = STANDBY_STATE ∧
    (state_machine 4294967295
      (supervised ON_STATE TIP_DETECTED 1 0 4294967295)).standby_timeout_tick_ms = 29999 ∧
    4294967295 + STANDBY_TIME_S * 1000 = 4294997295 ∧
    (run [Event.state_machine 4294967295, Event.state_machine 4294967295]
      (supervised ON_STATE TIP_DETECTED 1 0 4294967295)).system_state = OFF_STATE ∧
    (run [Event.state_machine 5000, Event.state_machine 5000]
      (supervised ON_STATE TIP_DETECTED 1 0 5012)).standby_timeout_tick_ms = 35000 ∧
    (run [Event.state_machine 5000, Event.state_machine 5000]
      (supervised ON_STATE TIP_DETECTED 1 0 5012)).system_state = STANDBY_STATE := by
  decide

set_option maxRecDepth 100000 in
/-- C12 fails at the wrap of the 32-bit tick: a tick in TipChange at 4294967295 with no
tip detected re-arms the insertion-delay deadline to `(4294967295 + 3000) mod 2^32 = 2999`,
not to `now + TIP_CHANGE_DELAY_MS = 4294970295`; once the pending tip check finds a tip
(burst average 3500), a tick in the same millisecond finds `now` above the deadline and
advances to Off without any delay.  The same sequence at 5000 arms 8000 and stays in
TipChange. -/
theorem insertion_deadline_wraps :
    (state_machine 4294967295 (awaiting_tip SET 4294967295)).system_state
      = TIP_CHANGE_STATE ∧
    (state_machine 4294967295 (awaiting_tip SET 4294967295)).tip_insert_delay_tick_ms
      = 2999 ∧
    4294967295 + TIP_CHANGE_DELAY_MS = 4294970295 ∧
    (run [Event.state_machine 4294967295, Event.adc_complete (List.replicate 50 3500)]
      (awaiting_tip SET 4294967295)).tip_state = TIP_DETECTED ∧
    (run [Event.state_machine 4294967295, Event.adc_complete (List.replicate 50 3500),
          Event.state_machine 4294967295]
      (awaiting_tip SET 4294967295)).system_state = OFF_STATE ∧
    (run [Event.state_machine 5000, Event.adc_complete (List.replicate 50 3500),
          Event.state_machine 5000]
      (awaiting_tip SET 5012)).tip_insert_delay_tick_ms = 8000 ∧
    (run [Event.state_machine 5000, Event.adc_complete (List.replicate 50 3500),
          Event.state_machine 5000]
      (awaiting_tip SET 5012)).system_state = TIP_CHANGE_STATE := by
  decide

end OpenSolder
